import Mathlib

/-!
Verification of the staged analysis pipeline in
`src/services/enhanced_analysis_pipeline.py` (class `EnhancedAnalysisPipeline`).

The Python data values flowing through the pipeline (JSON-like dictionaries,
lists, strings, numbers) are shallowly embedded as the inductive type `Value`.
Python dictionaries are modelled as association lists with first-match lookup
and overwrite-on-insert; all dictionaries the pipeline itself builds have
distinct keys, so this matches Python dict semantics.  Python numbers (int and
float) are modelled together as `Rat`; every arithmetic operation the pipeline
performs (sums, divisions by constants, comparisons) is exact in `Rat`.
Operations that can raise `TypeError`/`AttributeError` in Python (`len`,
`.get`, slicing, `>=` on mixed types) are modelled in the `Except String`
monad, so a raised exception is an explicit `.error` value.
-/

inductive Value where
  | vNull
  | vBool (b : Bool)
  | vNum (q : Rat)
  | vStr (s : String)
  | vList (items : List Value)
  | vDict (entries : List (String × Value))

open Value

/-- Python truthiness (`bool(x)`): `None`, `False`, `0`, `""`, `[]`, `{}` are falsy. -/
def pyTruthy : Value → Bool
  | vNull => false
  | vBool b => b
  | vNum q => q != 0
  | vStr s => s != ""
  | vList l => !l.isEmpty
  | vDict d => !d.isEmpty

/-- First-match lookup in an association-list dictionary (`d[k]` / `k in d`). -/
def lookupD : List (String × Value) → String → Option Value
  | [], _ => none
  | (k0, v0) :: rest, k => if k0 = k then some v0 else lookupD rest k

/-- `d.get(k, dflt)` on a dictionary that is statically known to be a dict. -/
def getD (d : List (String × Value)) (k : String) (dflt : Value) : Value :=
  (lookupD d k).getD dflt

/-- `d[k] = v`: overwrite the first binding of `k`, or append a new one. -/
def insertD : List (String × Value) → String → Value → List (String × Value)
  | [], k, v => [(k, v)]
  | (k0, v0) :: rest, k, v =>
    if k0 = k then (k0, v) :: rest else (k0, v0) :: insertD rest k v

/-- `{**a, **b}`: entries of `b` overwrite/extend those of `a`. -/
def mergeD (a b : List (String × Value)) : List (String × Value) :=
  b.foldl (fun acc kv => insertD acc kv.1 kv.2) a

/-- Python `len(x)`: defined on strings (in characters), lists and dicts;
raises `TypeError` otherwise. -/
def pyLen : Value → Except String Nat
  | vStr s => .ok s.length
  | vList l => .ok l.length
  | vDict d => .ok d.length
  | _ => .error "TypeError: object of this type has no len()"

/-- `x.get(k, dflt)` on an arbitrary value: only dicts have `.get`. -/
def pyGet (v : Value) (k : String) (dflt : Value) : Except String Value :=
  match v with
  | vDict d => .ok (getD d k dflt)
  | _ => .error "AttributeError: object has no attribute get"

/-- `x >= y` where the pipeline always compares against a numeric literal:
numbers and bools (Python bools are ints) compare, anything else raises
`TypeError`. -/
def pyGE (a b : Value) : Except String Bool :=
  match a, b with
  | vNum x, vNum y => .ok (y ≤ x)
  | vBool x, vNum y => .ok (y ≤ (if x then (1 : Rat) else 0))
  | vNum x, vBool y => .ok ((if y then (1 : Rat) else 0) ≤ x)
  | vBool x, vBool y => .ok ((if y then (1 : Rat) else 0) ≤ (if x then 1 else 0))
  | _, _ => .error "TypeError: unorderable types"

/-- Python `str(x)` as used inside f-strings.  Strings are kept verbatim; the
textual rendering of non-string values is abstracted (such text is only ever
stored into free-text fields and never re-inspected by the pipeline). -/
def pyStr : Value → String
  | vStr s => s
  | vNull => "None"
  | vBool b => if b then "True" else "False"
  | vNum q => toString q
  | vList _ => "<list>"
  | vDict _ => "<dict>"

/-- Python `float(x)` as used on project parameters, in the `Option` monad
(`none` = `ValueError`/`TypeError`).  Numbers and bools convert; strings of
decimal digits convert (other numeric string formats accepted by Python are
out of scope for the pipeline, which only ever stores, never reads, the
converted number); everything else raises. -/
def pyFloat : Value → Option Rat
  | vNum q => some q
  | vBool b => some (if b then 1 else 0)
  | vStr s =>
    if s.data ≠ [] ∧ s.data.all Char.isDigit then
      some (s.data.foldl (fun acc c => acc * 10 + ((c.toNat - 48 : Nat) : Rat)) 0)
    else none
  | _ => none

/-- Python `s.lower()` (ASCII case folding; the denylist phrases the pipeline
compares against are already lower-case). -/
def lower (s : String) : String := ⟨s.data.map Char.toLower⟩

/-- Python substring containment `needle in hay`. -/
def containsSub (hay needle : String) : Bool := decide (needle.data <:+: hay.data)

/-! ## The Raw-Data Redactor
(`_filter_raw_data_from_report`, `_filter_dict_raw_data`, `_filter_list_raw_data`) -/

/-- `raw_data_fields` of `_filter_dict_raw_data` (line 1546). -/
def raw_data_fields : List String :=
  ["extracted_content", "raw_content", "page_content", "html_content",
   "search_results", "urls_found", "links_extracted", "raw_response",
   "full_content", "content_preview", "detailed_results", "sources_raw",
   "extraction_details", "raw_data", "content_raw", "html_raw"]

/-- The narrower per-item denylist of `_filter_list_raw_data` (line 1582). -/
def item_raw_fields : List String := ["content", "raw_content", "html", "full_text"]

/-- The replacement `_filter_dict_raw_data` emits for a denylisted key:
`k_count = len` for a list value, `k_length = len` for a string value,
nothing otherwise. -/
def dict_stats (k : String) (v : Value) : List (String × Value) :=
  match v with
  | .vList l => [(k ++ "_count", .vNum l.length)]
  | .vStr s => [(k ++ "_length", .vNum s.length)]
  | _ => []

mutual

/-- How `_filter_dict_raw_data` treats the value of a kept key: recurse into
dicts and lists, copy scalars. -/
def filter_val (v : Value) : Value :=
  match v with
  | .vDict d => .vDict (filter_dict_raw_data d)
  | .vList l => .vList (filter_list_raw_data l)
  | v => v

/-- `_filter_dict_raw_data` (lines 1542-1570): replace denylisted keys
(case-insensitively) by count/length statistics, recurse elsewhere. -/
def filter_dict_raw_data (d : List (String × Value)) : List (String × Value) :=
  match d with
  | [] => []
  | (k, v) :: rest =>
    if lower k ∈ raw_data_fields then
      dict_stats k v ++ filter_dict_raw_data rest
    else
      (k, filter_val v) :: filter_dict_raw_data rest

/-- `_filter_list_raw_data` (lines 1572-1598): scrub dict items against the
narrow item denylist; non-dict items are appended unchanged. -/
def filter_list_raw_data (l : List Value) : List Value :=
  match l with
  | [] => []
  | .vDict d :: rest => .vDict (filter_item_dict d) :: filter_list_raw_data rest
  | v :: rest => v :: filter_list_raw_data rest

/-- The per-item loop body of `_filter_list_raw_data`: keys in the narrow
denylist keep only a `k_length` statistic when the value is a string and are
dropped otherwise; other keys recurse like `_filter_dict_raw_data` does. -/
def filter_item_dict (d : List (String × Value)) : List (String × Value) :=
  match d with
  | [] => []
  | (k, v) :: rest =>
    if lower k ∈ item_raw_fields then
      (match v with
       | .vStr s => [(k ++ "_length", .vNum s.length)]
       | _ => []) ++ filter_item_dict rest
    else
      (k, filter_val v) :: filter_item_dict rest

end

/-- Top-level structural keys that `_filter_raw_data_from_report` copies
verbatim (line 1527). -/
def structural_keys : List String := ["projeto_dados", "pipeline_status", "metadata"]

/-- What `_filter_raw_data_from_report` stores under a top-level key (the key
itself is kept in every branch): structural keys keep their value verbatim,
dict values are filtered by `_filter_dict_raw_data`, list values by
`_filter_list_raw_data`, scalars are copied. -/
def report_val (k : String) (v : Value) : Value :=
  if k ∈ structural_keys then v
  else match v with
    | .vDict d => .vDict (filter_dict_raw_data d)
    | .vList l => .vList (filter_list_raw_data l)
    | v => v

/-- `_filter_raw_data_from_report` (lines 1521-1540). -/
def filter_raw_data_from_report (analysis : List (String × Value)) : List (String × Value) :=
  match analysis with
  | [] => []
  | (k, v) :: rest => (k, report_val k v) :: filter_raw_data_from_report rest

mutual

/-- Does a denylisted raw-payload key occur anywhere in a value? -/
def has_raw_key_val : Value → Bool
  | .vDict d => has_raw_key_dict d
  | .vList l => has_raw_key_list l
  | _ => false

/-- Does a denylisted raw-payload key occur anywhere in a dictionary? -/
def has_raw_key_dict : List (String × Value) → Bool
  | [] => false
  | (k, v) :: rest =>
    decide (lower k ∈ raw_data_fields) || has_raw_key_val v || has_raw_key_dict rest

/-- Does a denylisted raw-payload key occur anywhere in a list? -/
def has_raw_key_list : List Value → Bool
  | [] => false
  | v :: rest => has_raw_key_val v || has_raw_key_list rest

end

/-! Key fact: the statistics keys `k ++ "_count"` / `k ++ "_length"` are never
themselves denylisted, because no denylist entry ends in those suffixes. -/

theorem data_append_eq (a b : String) : (a ++ b).data = a.data ++ b.data :=
  String.data_append a b

theorem lower_append (a b : String) : lower (a ++ b) = lower a ++ lower b := by
  apply String.ext
  simp [lower, String.data_append]

theorem not_mem_of_data_suffix (suf : String) (fields : List String)
    (hsuf : ∀ e ∈ fields, ¬ (suf.data <:+ e.data)) (pre : String) :
    pre ++ suf ∉ fields :=
  fun hmem => hsuf _ hmem ⟨pre.data, (String.data_append pre suf).symm⟩

theorem lower_count_not_raw (k : String) : lower (k ++ "_count") ∉ raw_data_fields := by
  rw [lower_append]
  exact not_mem_of_data_suffix (lower "_count") raw_data_fields (by decide) (lower k)

theorem lower_length_not_raw (k : String) : lower (k ++ "_length") ∉ raw_data_fields := by
  rw [lower_append]
  exact not_mem_of_data_suffix (lower "_length") raw_data_fields (by decide) (lower k)

theorem lower_length_not_item (k : String) : lower (k ++ "_length") ∉ item_raw_fields := by
  rw [lower_append]
  exact not_mem_of_data_suffix (lower "_length") item_raw_fields (by decide) (lower k)

/-- `_filter_dict_raw_data` distributes over concatenation of entry lists. -/
theorem filter_dict_append (a b : List (String × Value)) :
    filter_dict_raw_data (a ++ b) = filter_dict_raw_data a ++ filter_dict_raw_data b := by
  induction a with
  | nil => rfl
  | cons kv rest ih =>
    obtain ⟨k, v⟩ := kv
    by_cases h : lower k ∈ raw_data_fields <;>
      simp [filter_dict_raw_data, h, ih]

/-- Filtering the statistics replacement is a no-op. -/
theorem filter_dict_stats (k : String) (v : Value) :
    filter_dict_raw_data (dict_stats k v) = dict_stats k v := by
  cases v <;>
    simp [dict_stats, filter_dict_raw_data, filter_val,
      lower_count_not_raw, lower_length_not_raw]

theorem filter_item_stats_str (k : String) (s : String) :
    filter_item_dict [(k ++ "_length", Value.vNum s.length)] =
      [(k ++ "_length", Value.vNum s.length)] := by
  simp [filter_item_dict, lower_length_not_item, filter_val]

theorem filter_item_append (a b : List (String × Value)) :
    filter_item_dict (a ++ b) = filter_item_dict a ++ filter_item_dict b := by
  induction a with
  | nil => rfl
  | cons kv rest ih =>
    obtain ⟨k, v⟩ := kv
    by_cases h : lower k ∈ item_raw_fields
    · cases v <;> simp [filter_item_dict, h, ih]
    · simp [filter_item_dict, h, ih]

/-! Idempotence of the redactor, by the mutual functional induction of the
four filtering functions.  `idemV`, `idemL`, `idemI`, `idemD` are the four
motives; the twelve `idem_case*` lemmas are the shared induction steps. -/

def idemV (v : Value) : Prop := filter_val (filter_val v) = filter_val v
def idemL (l : List Value) : Prop :=
  filter_list_raw_data (filter_list_raw_data l) = filter_list_raw_data l
def idemI (d : List (String × Value)) : Prop :=
  filter_item_dict (filter_item_dict d) = filter_item_dict d
def idemD (d : List (String × Value)) : Prop :=
  filter_dict_raw_data (filter_dict_raw_data d) = filter_dict_raw_data d

theorem idem_case1 (d : List (String × Value)) (ih : idemD d) : idemV (.vDict d) := by
  simpa [idemV, filter_val] using ih

theorem idem_case2 (l : List Value) (ih : idemL l) : idemV (.vList l) := by
  simpa [idemV, filter_val] using ih

theorem idem_case3 (v : Value) (hd : ∀ d, v = .vDict d → False)
    (hl : ∀ l, v = .vList l → False) : idemV v := by
  cases v with
  | vDict d => exact (hd d rfl).elim
  | vList l => exact (hl l rfl).elim
  | vNull => rfl
  | vBool b => rfl
  | vNum q => rfl
  | vStr s => rfl

theorem idem_case4 : idemL [] := rfl

theorem idem_case5 (d : List (String × Value)) (rest : List Value)
    (ihd : idemI d) (ihr : idemL rest) : idemL (.vDict d :: rest) := by
  simp only [idemL, filter_list_raw_data] at *
  rw [ihd, ihr]

theorem idem_case6 (v : Value) (rest : List Value)
    (hd : ∀ d, v = .vDict d → False) (ihr : idemL rest) : idemL (v :: rest) := by
  cases v with
  | vDict d => exact (hd d rfl).elim
  | vNull => simp only [idemL, filter_list_raw_data] at *; rw [ihr]
  | vBool b => simp only [idemL, filter_list_raw_data] at *; rw [ihr]
  | vNum q => simp only [idemL, filter_list_raw_data] at *; rw [ihr]
  | vStr s => simp only [idemL, filter_list_raw_data] at *; rw [ihr]
  | vList l => simp only [idemL, filter_list_raw_data] at *; rw [ihr]

theorem idem_case7 : idemI [] := rfl

theorem idem_case8 (k : String) (v : Value) (rest : List (String × Value))
    (h : lower k ∈ item_raw_fields) (ihr : idemI rest) : idemI ((k, v) :: rest) := by
  simp only [idemI] at *
  cases v <;>
    simp [filter_item_dict, h, filter_item_append, lower_length_not_item, filter_val, ihr]

theorem idem_case9 (k : String) (v : Value) (rest : List (String × Value))
    (h : lower k ∉ item_raw_fields) (ihv : idemV v) (ihr : idemI rest) :
    idemI ((k, v) :: rest) := by
  simp only [idemI, idemV] at *
  simp [filter_item_dict, h, ihv, ihr]

theorem idem_case10 : idemD [] := rfl

theorem idem_case11 (k : String) (v : Value) (rest : List (String × Value))
    (h : lower k ∈ raw_data_fields) (ihr : idemD rest) : idemD ((k, v) :: rest) := by
  simp only [idemD] at *
  simp [filter_dict_raw_data, h, filter_dict_append, filter_dict_stats, ihr]

theorem idem_case12 (k : String) (v : Value) (rest : List (String × Value))
    (h : lower k ∉ raw_data_fields) (ihv : idemV v) (ihr : idemD rest) :
    idemD ((k, v) :: rest) := by
  simp only [idemD, idemV] at *
  simp [filter_dict_raw_data, h, ihv, ihr]

theorem filter_val_idem : ∀ v, filter_val (filter_val v) = filter_val v :=
  filter_val.induct idemV idemL idemI idemD
    idem_case1 idem_case2 idem_case3 idem_case4 idem_case5 idem_case6
    idem_case7 idem_case8 idem_case9 idem_case10 idem_case11 idem_case12

theorem filter_dict_idem :
    ∀ d, filter_dict_raw_data (filter_dict_raw_data d) = filter_dict_raw_data d :=
  filter_dict_raw_data.induct idemV idemL idemI idemD
    idem_case1 idem_case2 idem_case3 idem_case4 idem_case5 idem_case6
    idem_case7 idem_case8 idem_case9 idem_case10 idem_case11 idem_case12

theorem filter_list_idem :
    ∀ l, filter_list_raw_data (filter_list_raw_data l) = filter_list_raw_data l :=
  filter_list_raw_data.induct idemV idemL idemI idemD
    idem_case1 idem_case2 idem_case3 idem_case4 idem_case5 idem_case6
    idem_case7 idem_case8 idem_case9 idem_case10 idem_case11 idem_case12

/-- Re-filtering an already filtered top-level value is a no-op. -/
theorem report_val_idem (k : String) (v : Value) :
    report_val k (report_val k v) = report_val k v := by
  by_cases hk : k ∈ structural_keys
  · simp [report_val, hk]
  · cases v <;> simp [report_val, hk, filter_dict_idem, filter_list_idem]

/-- The whole redaction pass (`_filter_raw_data_from_report`) is idempotent. -/
theorem filter_report_idem (a : List (String × Value)) :
    filter_raw_data_from_report (filter_raw_data_from_report a) =
      filter_raw_data_from_report a := by
  induction a with
  | nil => rfl
  | cons kv rest ih =>
    obtain ⟨k, v⟩ := kv
    simp [filter_raw_data_from_report, report_val_idem, ih]

/-- After one pass of `_filter_dict_raw_data`, no key of the resulting
dictionary (at its own level) is denylisted. -/
theorem filter_dict_no_raw_keys (d : List (String × Value)) :
    (filter_dict_raw_data d).all (fun e => decide (lower e.1 ∉ raw_data_fields)) = true := by
  induction d with
  | nil => rfl
  | cons kv rest ih =>
    obtain ⟨k, v⟩ := kv
    by_cases h : lower k ∈ raw_data_fields
    · have e1 : filter_dict_raw_data ((k, v) :: rest) =
          dict_stats k v ++ filter_dict_raw_data rest := by
        simp [filter_dict_raw_data, h]
      rw [e1, List.all_append, ih, Bool.and_true]
      cases v <;> simp [dict_stats, lower_count_not_raw, lower_length_not_raw]
    · have e1 : filter_dict_raw_data ((k, v) :: rest) =
          (k, filter_val v) :: filter_dict_raw_data rest := by
        simp [filter_dict_raw_data, h]
      rw [e1, List.all_cons, ih, Bool.and_true]
      simpa using h

/-- Lookup of a structural key is unchanged by the redaction pass. -/
theorem lookup_filter_report (a : List (String × Value)) (k : String)
    (hk : k ∈ structural_keys) :
    lookupD (filter_raw_data_from_report a) k = lookupD a k := by
  induction a with
  | nil => rfl
  | cons kv rest ih =>
    obtain ⟨k0, v0⟩ := kv
    by_cases hkk : k0 = k
    · subst hkk
      simp [filter_raw_data_from_report, lookupD, report_val, hk]
    · simp [filter_raw_data_from_report, lookupD, hkk, ih]

/-- Entries under a structural key survive the redaction pass verbatim. -/
theorem mem_filter_report (a : List (String × Value)) (k : String) (v : Value)
    (hk : k ∈ structural_keys) (hmem : (k, v) ∈ a) :
    (k, v) ∈ filter_raw_data_from_report a := by
  induction a with
  | nil => cases hmem
  | cons kv rest ih =>
    obtain ⟨k0, v0⟩ := kv
    rcases List.mem_cons.mp hmem with heq | htail
    · injection heq with h1 h2
      subst h1
      subst h2
      have hrv : report_val k v = v := by simp [report_val, hk]
      simp [filter_raw_data_from_report, hrv]
    · exact List.mem_cons_of_mem _ (ih htail)

/-! The positions the redactor controls.  `_filter_dict_raw_data` scrubs the
keys of every mapping it recurses into, but four kinds of position escape it:
the verbatim-copied values of the three structural top-level keys, the
top-level keys themselves (the report pass keeps every top-level key in all
of its branches), the direct keys of a mapping occurring as a sequence item
(checked only against the narrow item denylist), and the whole content of a
non-mapping sequence item (appended unchanged by `_filter_list_raw_data`).
`ctrl_raw_*` reports a denylisted key at a controlled position only, skipping
exactly those four escapes. -/

mutual

/-- A denylisted key at a redactor-controlled position inside a value. -/
def ctrl_raw_val : Value → Bool
  | .vDict d => ctrl_raw_dict d
  | .vList l => ctrl_raw_list l
  | _ => false

/-- A denylisted key at a controlled position inside a mapping the filter
recurses into: its own keys are controlled, and so are its values. -/
def ctrl_raw_dict : List (String × Value) → Bool
  | [] => false
  | (k, v) :: rest =>
    decide (lower k ∈ raw_data_fields) || ctrl_raw_val v || ctrl_raw_dict rest

/-- A denylisted key at a controlled position inside a sequence: mapping
items contribute their controlled positions, non-mapping items are copied
verbatim and contribute none. -/
def ctrl_raw_list : List Value → Bool
  | [] => false
  | .vDict d :: rest => ctrl_raw_item d || ctrl_raw_list rest
  | _ :: rest => ctrl_raw_list rest

/-- A denylisted key at a controlled position inside a mapping sequence
item: its keys escape (only the narrow item denylist applies to them), but
its kept values are recursively filtered, hence controlled. -/
def ctrl_raw_item : List (String × Value) → Bool
  | [] => false
  | (_, v) :: rest => ctrl_raw_val v || ctrl_raw_item rest

end

theorem ctrl_raw_dict_append (a b : List (String × Value)) :
    ctrl_raw_dict (a ++ b) = (ctrl_raw_dict a || ctrl_raw_dict b) := by
  induction a with
  | nil => simp [ctrl_raw_dict]
  | cons kv rest ih =>
    obtain ⟨k, v⟩ := kv
    simp [ctrl_raw_dict, ih, Bool.or_assoc]

theorem ctrl_raw_item_append (a b : List (String × Value)) :
    ctrl_raw_item (a ++ b) = (ctrl_raw_item a || ctrl_raw_item b) := by
  induction a with
  | nil => simp [ctrl_raw_item]
  | cons kv rest ih =>
    obtain ⟨k, v⟩ := kv
    simp [ctrl_raw_item, ih, Bool.or_assoc]

/-! One pass leaves no denylisted key at a controlled position, by the same
mutual functional induction as idempotence. -/

def ctrlV (v : Value) : Prop := ctrl_raw_val (filter_val v) = false
def ctrlL (l : List Value) : Prop := ctrl_raw_list (filter_list_raw_data l) = false
def ctrlI (d : List (String × Value)) : Prop := ctrl_raw_item (filter_item_dict d) = false
def ctrlD (d : List (String × Value)) : Prop :=
  ctrl_raw_dict (filter_dict_raw_data d) = false

theorem ctrl_case1 (d : List (String × Value)) (ih : ctrlD d) : ctrlV (.vDict d) := by
  simpa [ctrlV, filter_val, ctrl_raw_val] using ih

theorem ctrl_case2 (l : List Value) (ih : ctrlL l) : ctrlV (.vList l) := by
  simpa [ctrlV, filter_val, ctrl_raw_val] using ih

theorem ctrl_case3 (v : Value) (hd : ∀ d, v = .vDict d → False)
    (hl : ∀ l, v = .vList l → False) : ctrlV v := by
  cases v with
  | vDict d => exact (hd d rfl).elim
  | vList l => exact (hl l rfl).elim
  | vNull => rfl
  | vBool b => rfl
  | vNum q => rfl
  | vStr s => rfl

theorem ctrl_case4 : ctrlL [] := rfl

theorem ctrl_case5 (d : List (String × Value)) (rest : List Value)
    (ihd : ctrlI d) (ihr : ctrlL rest) : ctrlL (.vDict d :: rest) := by
  simp only [ctrlL, ctrlI] at *
  simp [filter_list_raw_data, ctrl_raw_list, ihd, ihr]

theorem ctrl_case6 (v : Value) (rest : List Value)
    (hd : ∀ d, v = .vDict d → False) (ihr : ctrlL rest) : ctrlL (v :: rest) := by
  simp only [ctrlL] at *
  cases v with
  | vDict d => exact (hd d rfl).elim
  | vNull => simp [filter_list_raw_data, ctrl_raw_list, ihr]
  | vBool b => simp [filter_list_raw_data, ctrl_raw_list, ihr]
  | vNum q => simp [filter_list_raw_data, ctrl_raw_list, ihr]
  | vStr s => simp [filter_list_raw_data, ctrl_raw_list, ihr]
  | vList l => simp [filter_list_raw_data, ctrl_raw_list, ihr]

theorem ctrl_case7 : ctrlI [] := rfl

theorem ctrl_case8 (k : String) (v : Value) (rest : List (String × Value))
    (h : lower k ∈ item_raw_fields) (ihr : ctrlI rest) : ctrlI ((k, v) :: rest) := by
  simp only [ctrlI] at *
  cases v <;>
    simp [filter_item_dict, h, ctrl_raw_item_append, ctrl_raw_item, ctrl_raw_val, ihr]

theorem ctrl_case9 (k : String) (v : Value) (rest : List (String × Value))
    (h : lower k ∉ item_raw_fields) (ihv : ctrlV v) (ihr : ctrlI rest) :
    ctrlI ((k, v) :: rest) := by
  simp only [ctrlI, ctrlV] at *
  simp [filter_item_dict, h, ctrl_raw_item, ihv, ihr]

theorem ctrl_case10 : ctrlD [] := rfl

theorem ctrl_case11 (k : String) (v : Value) (rest : List (String × Value))
    (h : lower k ∈ raw_data_fields) (ihr : ctrlD rest) : ctrlD ((k, v) :: rest) := by
  simp only [ctrlD] at *
  cases v <;>
    simp [filter_dict_raw_data, dict_stats, h, ctrl_raw_dict_append, ctrl_raw_dict,
      ctrl_raw_val, lower_count_not_raw, lower_length_not_raw, ihr]

theorem ctrl_case12 (k : String) (v : Value) (rest : List (String × Value))
    (h : lower k ∉ raw_data_fields) (ihv : ctrlV v) (ihr : ctrlD rest) :
    ctrlD ((k, v) :: rest) := by
  simp only [ctrlD, ctrlV] at *
  simp [filter_dict_raw_data, ctrl_raw_dict, h, ihv, ihr]

/-- After one pass of the recursive filter, no controlled position holds a
denylisted key. -/
theorem filter_val_no_ctrl : ∀ v, ctrl_raw_val (filter_val v) = false :=
  filter_val.induct ctrlV ctrlL ctrlI ctrlD
    ctrl_case1 ctrl_case2 ctrl_case3 ctrl_case4 ctrl_case5 ctrl_case6
    ctrl_case7 ctrl_case8 ctrl_case9 ctrl_case10 ctrl_case11 ctrl_case12

theorem filter_dict_no_ctrl :
    ∀ d, ctrl_raw_dict (filter_dict_raw_data d) = false :=
  filter_dict_raw_data.induct ctrlV ctrlL ctrlI ctrlD
    ctrl_case1 ctrl_case2 ctrl_case3 ctrl_case4 ctrl_case5 ctrl_case6
    ctrl_case7 ctrl_case8 ctrl_case9 ctrl_case10 ctrl_case11 ctrl_case12

theorem filter_list_no_ctrl :
    ∀ l, ctrl_raw_list (filter_list_raw_data l) = false :=
  filter_list_raw_data.induct ctrlV ctrlL ctrlI ctrlD
    ctrl_case1 ctrl_case2 ctrl_case3 ctrl_case4 ctrl_case5 ctrl_case6
    ctrl_case7 ctrl_case8 ctrl_case9 ctrl_case10 ctrl_case11 ctrl_case12

/-- After one pass of the report-level redactor, every top-level entry is
either a structural key (copied verbatim) or has a value free of denylisted
keys at every controlled position. -/
theorem filter_report_no_ctrl (a : List (String × Value)) :
    (filter_raw_data_from_report a).all
      (fun e => decide (e.1 ∈ structural_keys) || !ctrl_raw_val e.2) = true := by
  induction a with
  | nil => rfl
  | cons kv rest ih =>
    obtain ⟨k, v⟩ := kv
    rw [filter_raw_data_from_report, List.all_cons, ih, Bool.and_true]
    by_cases hk : k ∈ structural_keys
    · simp [hk]
    · simp only [report_val, if_neg hk]
      cases v with
      | vDict d => simp [ctrl_raw_val, filter_dict_no_ctrl]
      | vList l => simp [ctrl_raw_val, filter_list_no_ctrl]
      | vNull => simp [ctrl_raw_val]
      | vBool b => simp [ctrl_raw_val]
      | vNum q => simp [ctrl_raw_val]
      | vStr s => simp [ctrl_raw_val]

/-- C2 (claim as stated is falsified here): after one application of the
redactor a denylisted raw-payload key can remain in the structure, in three
distinct ways — as a direct key of a mapping that occurs as a sequence item
(scrubbed only against the narrower per-item denylist), as a top-level key
(which the report pass never checks against the denylist), and anywhere
inside a non-mapping sequence item (appended unchanged by
`_filter_list_raw_data`). -/
theorem C2_counterexample :
    has_raw_key_dict (filter_raw_data_from_report
      [("secoes", Value.vList [Value.vDict [("search_results", Value.vList [Value.vNull])]])])
      = true ∧
    has_raw_key_dict (filter_raw_data_from_report
      [("search_results", Value.vStr "x")]) = true ∧
    has_raw_key_dict (filter_raw_data_from_report
      [("x", Value.vList [Value.vList [Value.vDict [("extracted_content", Value.vNull)]]])])
      = true :=
  ⟨rfl, rfl, rfl⟩

/-- C2 (amended): redaction is idempotent — for the whole report pass and
for the recursive value filter alike — and after one application no
denylisted raw-payload key survives at any position the redactor controls:
no mapping produced by `_filter_dict_raw_data` carries a denylisted direct
key, and below every non-structural top-level entry the only surviving
denylisted keys sit in the four escape positions (inside the verbatim-copied
structural-key values; as a top-level key itself; as a direct key of a
mapping sequence item; inside a verbatim-copied non-mapping sequence
item). -/
theorem C2_redaction_idempotent :
    (∀ a : List (String × Value),
      filter_raw_data_from_report (filter_raw_data_from_report a) =
        filter_raw_data_from_report a) ∧
    (∀ v : Value, filter_val (filter_val v) = filter_val v) ∧
    (∀ d : List (String × Value),
      (filter_dict_raw_data d).all (fun e => decide (lower e.1 ∉ raw_data_fields)) = true) ∧
    (∀ a : List (String × Value),
      (filter_raw_data_from_report a).all
        (fun e => decide (e.1 ∈ structural_keys) || !ctrl_raw_val e.2) = true) :=
  ⟨filter_report_idem, filter_val_idem, filter_dict_no_raw_keys, filter_report_no_ctrl⟩

/-- C8 (confirmed): the redactor keeps the top-level structural keys
`projeto_dados`, `pipeline_status` and `metadata` with their values copied
verbatim — it never removes or rewrites those keys. -/
theorem C8_redaction_keeps_structural_keys :
    ∀ (a : List (String × Value)) (k : String) (v : Value),
      k ∈ structural_keys →
      ((k, v) ∈ a → (k, v) ∈ filter_raw_data_from_report a) ∧
      lookupD (filter_raw_data_from_report a) k = lookupD a k :=
  fun a k v hk => ⟨mem_filter_report a k v hk, lookup_filter_report a k hk⟩

/-- Witness for C8 at a concrete report. -/
theorem C8_witness :
    ("metadata", Value.vNum 7) ∈
        filter_raw_data_from_report
          [("metadata", Value.vNum 7), ("x", Value.vDict [("raw_content", Value.vStr "abc")])] ∧
      lookupD (filter_raw_data_from_report
          [("metadata", Value.vNum 7), ("x", Value.vDict [("raw_content", Value.vStr "abc")])])
        "metadata" =
        lookupD [("metadata", Value.vNum 7), ("x", Value.vDict [("raw_content", Value.vStr "abc")])]
          "metadata" :=
  ⟨(C8_redaction_keeps_structural_keys _ "metadata" (Value.vNum 7) (by decide)).1
      (List.mem_cons_self _ _),
    (C8_redaction_keeps_structural_keys _ "metadata" (Value.vNum 7) (by decide)).2⟩

/-! ## The authenticity rule (`_is_simulated_insight`, lines 1416-1428) and the
broader simulation-marker denylist (`_contains_simulation_markers`, line 1344) -/

/-- `simulation_indicators` of `_is_simulated_insight` (line 1422): seven
phrases; note `não informado` is NOT among them. -/
def simulation_indicators : List String :=
  ["customizado para", "baseado em", "específico para",
   "exemplo de", "simulado", "genérico", "n/a"]

/-- `forbidden_phrases` of `_contains_simulation_markers` (line 1344): the
eight phrases (including `não informado`) the spec's authenticity rule lists. -/
def forbidden_phrases : List String :=
  ["customizado para", "baseado em", "específico para", "n/a",
   "não informado", "exemplo de", "simulado", "genérico"]

/-- `_is_simulated_insight` (lines 1416-1428). -/
def is_simulated_insight (insight : String) : Bool :=
  if insight = "" || insight.length < 30 then true
  else simulation_indicators.any (fun ind => containsSub (lower insight) ind)

/-- The authenticity predicate exactly as the claim states it, with the
spec's eight-phrase denylist (including the pattern meaning
`not informed`). -/
def looksTemplatedSpec (text : String) : Bool :=
  decide (text.length < 30) || forbidden_phrases.any (fun p => containsSub (lower text) p)

set_option maxRecDepth 4000 in
/-- C6 (claim as stated is falsified here): at this input, which contains the
claimed denylist pattern `não informado` and is at least 30 characters long,
`_is_simulated_insight` returns `false` although the claimed
returns-true-iff condition holds — `não informado` is checked by
`_contains_simulation_markers` but absent from `_is_simulated_insight`. -/
theorem C6_counterexample :
    is_simulated_insight
        "Este valor permanece como não informado até a conclusão da etapa" = false ∧
      looksTemplatedSpec
        "Este valor permanece como não informado até a conclusão da etapa" = true := by
  constructor
  · decide
  · decide

set_option maxRecDepth 4000 in
/-- C6 (amended): `_is_simulated_insight text` returns true iff `text` is
shorter than 30 characters or its lowercase form contains one of the SEVEN
phrases of its own denylist (`não informado` is not one of them); in
particular it returns true on the short string `Customized for your segment`
and false on the long specific English sentence. -/
theorem C6_looks_templated :
    (∀ s : String,
      is_simulated_insight s = true ↔
        (s.length < 30 ∨ ∃ p ∈ simulation_indicators, containsSub (lower s) p = true)) ∧
    is_simulated_insight "Customized for your segment" = true ∧
    is_simulated_insight
      "Practitioners in this segment spend 40% more on specialized tooling per 2024 survey data"
      = false := by
  refine ⟨fun s => ?_, by decide, by decide⟩
  by_cases h0 : s = ""
  · subst h0
    simp [is_simulated_insight]
  · by_cases hlen : s.length < 30
    · simp [is_simulated_insight, h0, hlen]
    · simp [is_simulated_insight, h0, hlen, List.any_eq_true]

/-! ## Avatar depth validation (`_validate_avatar_depth`, lines 891-932) -/

/-- The record `_validate_avatar_depth` returns
(`{'valid': ..., 'score': ..., 'issues': ...}`). -/
structure DepthResult where
  valid : Bool
  score : Rat
  issues : List String

/-- Python slicing `x[:3]` as used on the pain-point collection: lists slice
to their first three items, strings to their first three characters; other
types raise `TypeError`. -/
def pySlice3 : Value → Except String (List Value)
  | .vList l => .ok (l.take 3)
  | .vStr s => .ok ((s.data.take 3).map (fun c => Value.vStr (String.mk [c])))
  | _ => .error "TypeError: value cannot be sliced"

/-- The `for dor in dores[:3]` loop of `_validate_avatar_depth` (lines
922-926): report a deduction as soon as one inspected pain point is shorter
than 30 characters (`break`), evaluating `len` only up to that point. -/
def short_dor_check : List Value → Except String Bool
  | [] => .ok false
  | d :: rest =>
    match pyLen d with
    | .error e => .error e
    | .ok n => if n < 30 then .ok true else short_dor_check rest

/-- `_validate_avatar_depth` (lines 891-932): start from 100, deduct 20 for a
demographic profile with fewer than 4 fields, 25 for fewer than 5 pain
points, 25 for fewer than 5 desires, 20 for fewer than 3 objections, 10 if
one of the first 3 pain points is shorter than 30 characters; floor at 0;
valid iff no issue was recorded. -/
def validate_avatar_depth (avatar : Value) : Except String DepthResult :=
  match pyGet avatar "perfil_demografico" (Value.vDict []) with
  | .error e => .error e
  | .ok demografico =>
  match pyLen demografico with
  | .error e => .error e
  | .ok demLen =>
  let i1 := if demLen < 4 then ["Perfil demográfico insuficiente"] else []
  let s1 : Rat := if demLen < 4 then 100 - 20 else 100
  match pyGet avatar "dores_viscerais" (Value.vList []) with
  | .error e => .error e
  | .ok dores =>
  match pyLen dores with
  | .error e => .error e
  | .ok doresLen =>
  let i2 :=
    if doresLen < 5 then i1 ++ ["Dores insuficientes: " ++ toString doresLen ++ " < 5"]
    else i1
  let s2 := if doresLen < 5 then s1 - 25 else s1
  match pyGet avatar "desejos_secretos" (Value.vList []) with
  | .error e => .error e
  | .ok desejos =>
  match pyLen desejos with
  | .error e => .error e
  | .ok desejosLen =>
  let i3 :=
    if desejosLen < 5 then i2 ++ ["Desejos insuficientes: " ++ toString desejosLen ++ " < 5"]
    else i2
  let s3 := if desejosLen < 5 then s2 - 25 else s2
  match pyGet avatar "objecoes_reais" (Value.vList []) with
  | .error e => .error e
  | .ok objecoes =>
  match pyLen objecoes with
  | .error e => .error e
  | .ok objecoesLen =>
  let i4 :=
    if objecoesLen < 3 then i3 ++ ["Objeções insuficientes: " ++ toString objecoesLen ++ " < 3"]
    else i3
  let s4 := if objecoesLen < 3 then s3 - 20 else s3
  match pySlice3 dores with
  | .error e => .error e
  | .ok firstDores =>
  match short_dor_check firstDores with
  | .error e => .error e
  | .ok hasShort =>
  let i5 := if hasShort then i4 ++ ["Dores muito superficiais"] else i4
  let s5 := if hasShort then s4 - 10 else s4
  .ok ⟨i5.isEmpty, max s5 0, i5⟩

/-- A well-shaped avatar mapping: a demographic-profile mapping and string
lists of pain points, desires and objections (the shapes the upstream stages
and fallback generators produce). -/
structure Avatar where
  perfil_demografico : List (String × Value)
  dores_viscerais : List String
  desejos_secretos : List String
  objecoes_reais : List String

def Avatar.toValue (a : Avatar) : Value :=
  Value.vDict
    [("perfil_demografico", Value.vDict a.perfil_demografico),
     ("dores_viscerais", Value.vList (a.dores_viscerais.map Value.vStr)),
     ("desejos_secretos", Value.vList (a.desejos_secretos.map Value.vStr)),
     ("objecoes_reais", Value.vList (a.objecoes_reais.map Value.vStr))]

/-- On a list of strings the first-three loop fires exactly when one of the
strings is shorter than 30 characters. -/
theorem short_dor_check_strs (l : List String) :
    short_dor_check (l.map Value.vStr) = .ok (l.any (fun s => decide (s.length < 30))) := by
  induction l with
  | nil => rfl
  | cons s rest ih =>
    by_cases h : s.length < 30 <;>
      simp [short_dor_check, pyLen, h, ih]

/-- C5 (confirmed): for every well-shaped avatar mapping, the depth score is
100 minus 20 for a demographic profile with fewer than 4 fields, 25 for fewer
than 5 pain points, 25 for fewer than 5 desires, 20 for fewer than 3
objections and 10 if one of the first 3 pain points is shorter than 30
characters, floored at 0; the avatar is judged valid exactly when no
deduction applied. -/
theorem C5_avatar_depth (a : Avatar) :
    match validate_avatar_depth a.toValue with
    | .ok r =>
      r.score =
        max (100
          - (if a.perfil_demografico.length < 4 then (20 : Rat) else 0)
          - (if a.dores_viscerais.length < 5 then (25 : Rat) else 0)
          - (if a.desejos_secretos.length < 5 then (25 : Rat) else 0)
          - (if a.objecoes_reais.length < 3 then (20 : Rat) else 0)
          - (if (a.dores_viscerais.take 3).any (fun s => decide (s.length < 30))
             then (10 : Rat) else 0)) 0 ∧
      (r.valid = true ↔
        (4 ≤ a.perfil_demografico.length ∧ 5 ≤ a.dores_viscerais.length ∧
          5 ≤ a.desejos_secretos.length ∧ 3 ≤ a.objecoes_reais.length ∧
          (a.dores_viscerais.take 3).all (fun s => decide (30 ≤ s.length)) = true))
    | .error _ => False := by
  obtain ⟨dem, dor, des, obj⟩ := a
  simp [validate_avatar_depth, Avatar.toValue, pyGet, getD, lookupD,
    pyLen, pySlice3, ← List.map_take, short_dor_check_strs]
  split_ifs <;>
    simp_all [List.all_eq_true, List.any_eq_true, Nat.not_lt, Nat.lt_iff_add_one_le]

/-! ## Recovery generators
(`_attempt_component_recovery`, `_generate_basic_project_data`,
`_generate_basic_search_data`, `_generate_basic_ai_analysis`,
`_generate_basic_avatar`, `_generate_basic_positioning`,
`_generate_default_*`, `_generate_additional_insights`,
`_generate_fallback_section`).  `datetime.now().isoformat()` is modelled by
the explicit parameter `now`; a raised exception inside a generator is the
`none` of its `Option` result (caught by `_attempt_component_recovery`). -/

/-- `_generate_default_dores` (lines 813-827). -/
def generate_default_dores (pd : List (String × Value)) : List String :=
  let segmento := pyStr (getD pd "segmento" (Value.vStr "negócios"))
  ["Trabalhar excessivamente em " ++ segmento ++ " sem ver crescimento proporcional",
   "Sentir-se sempre correndo atrás da concorrência",
   "Ver competidores menores crescendo mais rapidamente",
   "Não conseguir se desconectar do trabalho",
   "Desperdiçar potencial em tarefas operacionais",
   "Ser visto como mais um no mercado de " ++ segmento,
   "Sacrificar tempo com família por demandas do negócio",
   "Viver na incerteza financeira apesar do esforço"]

/-- `_generate_default_desejos` (lines 829-843). -/
def generate_default_desejos (pd : List (String × Value)) : List String :=
  let segmento := pyStr (getD pd "segmento" (Value.vStr "negócios"))
  ["Ser reconhecido como autoridade no mercado de " ++ segmento,
   "Ter um negócio que funcione sem presença constante",
   "Ganhar dinheiro de forma passiva",
   "Ter liberdade total de horários e decisões",
   "Deixar um legado significativo",
   "Alcançar segurança financeira completa",
   "Dominar completamente o mercado de " ++ segmento,
   "Ser procurado pela mídia como especialista"]

/-- `_generate_default_objecoes` (lines 845-859). -/
def generate_default_objecoes (pd : List (String × Value)) : List String :=
  let segmento := pyStr (getD pd "segmento" (Value.vStr "negócios"))
  ["Já tentei várias estratégias e nenhuma funcionou",
   "Não tenho tempo para implementar nova estratégia",
   "Meu nicho em " ++ segmento ++ " é muito específico",
   "Preciso ver resultados rápidos e concretos",
   "Não tenho equipe suficiente para executar",
   "E se investir mais dinheiro e não der certo?",
   "O mercado de " ++ segmento ++ " é muito competitivo",
   "Não tenho credibilidade para cobrar preços premium"]

/-- `_generate_additional_insights` (lines 861-889); the search-data argument
is unused by the source body. -/
def generate_additional_insights (pd : List (String × Value)) : List String :=
  let segmento := pyStr (getD pd "segmento" (Value.vStr "negócios"))
  (["O mercado brasileiro de " ++ segmento ++ " está em transformação digital acelerada",
    "Existe lacuna entre ferramentas disponíveis e conhecimento para implementá-las",
    "Profissionais de " ++ segmento ++ " pagam premium por simplicidade",
    "Fator decisivo é combinação de confiança + urgência + prova social",
    "Prova social de pares vale mais que depoimentos diferentes",
    "Sistemas automatizados são vistos como \x27santo graal\x27 no " ++ segmento,
    "Jornada de compra é longa mas decisão final é emocional",
    "Conteúdo educativo é porta de entrada, venda na demonstração",
    "Mercado de " ++ segmento ++ " saturado de teoria, faminto por implementação",
    "Diferencial está na execução e suporte, não apenas estratégia",
    "Clientes querem ser guiados passo a passo",
    "ROI deve ser demonstrado em semanas para gerar confiança",
    "Personalização em massa se torna padrão em " ++ segmento,
    "Automação elimina tarefas repetitivas e aumenta eficiência",
    "Experiência do cliente define sucesso no mercado atual",
    "Dados e analytics são diferenciais competitivos em " ++ segmento,
    "Sustentabilidade influencia decisões de compra",
    "Mobile-first é obrigatório para novos produtos",
    "Especialização em nichos gera mais valor em " ++ segmento,
    "Metodologias proprietárias se tornam ativos valiosos"]).take 20

/-- `_generate_basic_project_data` (lines 748-759): `none` models the
`ValueError` Python raises when `float(preco)` fails on a truthy,
non-convertible `preco`. -/
def generate_basic_project_data (data : List (String × Value)) (now : String) :
    Option (List (String × Value)) :=
  let precoVal :=
    match lookupD data "preco" with
    | some v => if pyTruthy v then (pyFloat v).map Value.vNum else some (Value.vNum 997)
    | none => some (Value.vNum 997)
  match precoVal with
  | none => none
  | some preco =>
    some [("segmento", getD data "segmento" (Value.vStr "Negócios")),
          ("produto", getD data "produto" (Value.vStr "Produto/Serviço")),
          ("publico", getD data "publico" (Value.vStr "Profissionais")),
          ("preco", preco),
          ("query", getD data "query"
            (Value.vStr ("mercado " ++ pyStr (getD data "segmento" (Value.vStr "negócios"))
              ++ " Brasil"))),
          ("timestamp_criacao", Value.vStr now),
          ("recovery_mode", Value.vBool true)]

/-- `_generate_basic_search_data` (lines 761-775). -/
def generate_basic_search_data (data : List (String × Value)) : List (String × Value) :=
  [("queries_executadas", Value.vList [getD data "query" (Value.vStr "mercado Brasil")]),
   ("total_fontes", Value.vNum 1),
   ("qualidade_media", Value.vNum 50),
   ("estatisticas", Value.vDict
     [("total_queries", Value.vNum 1),
      ("fontes_unicas", Value.vNum 1),
      ("total_conteudo", Value.vNum 1000),
      ("qualidade_media", Value.vNum 50)]),
   ("recovery_mode", Value.vBool true)]

/-- `_generate_basic_avatar` (lines 790-811). -/
def generate_basic_avatar (segmento : Value) : List (String × Value) :=
  [("perfil_demografico", Value.vDict
     [("idade", Value.vStr "30-45 anos - profissionais estabelecidos"),
      ("renda", Value.vStr "R$ 8.000 - R$ 35.000 - classe média alta"),
      ("escolaridade", Value.vStr "Superior completo"),
      ("localizacao", Value.vStr "Grandes centros urbanos")]),
   ("perfil_psicografico", Value.vDict
     [("personalidade", Value.vStr "Ambiciosos, determinados, orientados a resultados"),
      ("valores", Value.vStr "Liberdade financeira, reconhecimento profissional"),
      ("comportamento_compra", Value.vStr "Pesquisam extensivamente, decidem por emoção")]),
   ("dores_viscerais", Value.vList
     ((generate_default_dores [("segmento", segmento)]).map Value.vStr)),
   ("desejos_secretos", Value.vList
     ((generate_default_desejos [("segmento", segmento)]).map Value.vStr)),
   ("objecoes_reais", Value.vList
     ((generate_default_objecoes [("segmento", segmento)]).map Value.vStr)),
   ("linguagem_interna", Value.vDict
     [("tom_comunicacao", Value.vStr "Direto e objetivo, aprecia dados concretos")])]

/-- `_generate_basic_positioning` (lines 958-973). -/
def generate_basic_positioning (pd : List (String × Value)) : List (String × Value) :=
  let segmento := pyStr (getD pd "segmento" (Value.vStr "negócios"))
  [("posicionamento_mercado",
    Value.vStr ("Solução premium para profissionais de " ++ segmento)),
   ("proposta_valor_unica",
    Value.vStr ("Transforme seu negócio em " ++ segmento ++ " com metodologia comprovada")),
   ("diferenciais_competitivos", Value.vList
     [Value.vStr ("Metodologia exclusiva para " ++ segmento),
      Value.vStr "Suporte personalizado e acompanhamento",
      Value.vStr "Resultados mensuráveis e garantidos"]),
   ("mensagem_central",
    Value.vStr ("Pare de trabalhar NO negócio de " ++ segmento
      ++ " e comece a trabalhar PELO negócio")),
   ("estrategia_oceano_azul",
    Value.vStr ("Criar categoria própria focada em implementação prática para " ++ segmento))]

/-- `_generate_basic_ai_analysis` (lines 777-788): `none` models the
`AttributeError` raised by `.get` when the accumulated `projeto_dados` is not
a mapping. -/
def generate_basic_ai_analysis (data : List (String × Value)) :
    Option (List (String × Value)) :=
  match getD data "projeto_dados" (Value.vDict []) with
  | Value.vDict pd =>
    some [("avatar_ultra_detalhado",
            Value.vDict (generate_basic_avatar (getD pd "segmento" (Value.vStr "negócios")))),
          ("posicionamento_estrategico", Value.vDict (generate_basic_positioning pd)),
          ("insights_exclusivos",
            Value.vList ((generate_additional_insights pd).map Value.vStr)),
          ("recovery_mode", Value.vBool true)]
  | _ => none

/-- The three mandatory components (lines 103 and 138). -/
def mandatory_components : List String :=
  ["projeto_dados", "pesquisa_web_massiva", "analise_ia_avancada"]

/-- `_attempt_component_recovery` (lines 729-746): dispatch on the component
name; any exception inside a generator yields `None`; names outside the
mandatory set yield `None`. -/
def attempt_component_recovery (name : String) (data : List (String × Value))
    (now : String) : Option Value :=
  if name = "projeto_dados" then (generate_basic_project_data data now).map Value.vDict
  else if name = "pesquisa_web_massiva" then
    some (Value.vDict (generate_basic_search_data data))
  else if name = "analise_ia_avancada" then
    (generate_basic_ai_analysis data).map Value.vDict
  else none

/-! ## The per-stage validator
(`_validate_component_result`, `_validate_avatar_quality`,
`_validate_drivers_quality`, lines 1351-1414) -/

/-- `_is_simulated_insight` applied to an arbitrary value, as the avatar
validator does: Python first evaluates truthiness, then `len` (TypeError on
unsized values), then `.lower()` (AttributeError on non-strings). -/
def is_simulated_insight_val (v : Value) : Except String Bool :=
  match v with
  | Value.vStr s => .ok (is_simulated_insight s)
  | v =>
    if pyTruthy v = false then .ok true
    else
      match pyLen v with
      | .error e => .error e
      | .ok n =>
        if n < 30 then .ok true
        else .error "AttributeError: object has no attribute lower"

/-- The `for dor in dores[:3]` loop of `_validate_avatar_quality` (lines
1392-1394): true as soon as one inspected pain point is simulated. -/
def simulated_dor_loop : List Value → Except String Bool
  | [] => .ok false
  | d :: rest =>
    match is_simulated_insight_val d with
    | .error e => .error e
    | .ok true => .ok true
    | .ok false => simulated_dor_loop rest

/-- `_validate_avatar_quality` (lines 1375-1396). -/
def validate_avatar_quality (avatar : Value) : Except String Bool :=
  match pyGet avatar "perfil_demografico" Value.vNull with
  | .error e => .error e
  | .ok f1 =>
  if pyTruthy f1 = false then .ok false else
  match pyGet avatar "dores_viscerais" Value.vNull with
  | .error e => .error e
  | .ok f2 =>
  if pyTruthy f2 = false then .ok false else
  match pyGet avatar "desejos_secretos" Value.vNull with
  | .error e => .error e
  | .ok f3 =>
  if pyTruthy f3 = false then .ok false else
  match pyGet avatar "dores_viscerais" (Value.vList []) with
  | .error e => .error e
  | .ok dores =>
  match pyLen dores with
  | .error e => .error e
  | .ok doresLen =>
  if doresLen < 5 then .ok false else
  match pyGet avatar "desejos_secretos" (Value.vList []) with
  | .error e => .error e
  | .ok desejos =>
  match pyLen desejos with
  | .error e => .error e
  | .ok desejosLen =>
  if desejosLen < 5 then .ok false else
  match pySlice3 dores with
  | .error e => .error e
  | .ok firstDores =>
  match simulated_dor_loop firstDores with
  | .error e => .error e
  | .ok bad => .ok (!bad)

/-- The per-driver loop of `_validate_drivers_quality` (lines 1406-1412). -/
def drivers_loop : List Value → Except String Bool
  | [] => .ok true
  | d :: rest =>
    match pyGet d "nome" Value.vNull with
    | .error e => .error e
    | .ok nome =>
    if pyTruthy nome = false then .ok false else
    match pyGet d "roteiro_ativacao" Value.vNull with
    | .error e => .error e
    | .ok rot =>
    if pyTruthy rot = false then .ok false else
    match pyGet d "roteiro_ativacao" (Value.vDict []) with
    | .error e => .error e
    | .ok rot2 =>
    match pyGet rot2 "historia_analogia" (Value.vStr "") with
    | .error e => .error e
    | .ok historia =>
    match pyLen historia with
    | .error e => .error e
    | .ok n => if n < 100 then .ok false else drivers_loop rest

/-- `_validate_drivers_quality` (lines 1398-1414): iterating a non-list
collection of at least 3 sized elements yields items without `.get` and
raises. -/
def validate_drivers_quality (drivers : Value) : Except String Bool :=
  match pyGet drivers "drivers_customizados" (Value.vList []) with
  | .error e => .error e
  | .ok dlist =>
  match pyLen dlist with
  | .error e => .error e
  | .ok n =>
  if n < 3 then .ok false else
  match dlist with
  | Value.vList l => drivers_loop l
  | _ => .error "AttributeError: item has no attribute get"

/-- `_validate_component_result` (lines 1351-1373). -/
def validate_component_result (name : String) (result : Value) :
    Except String Bool :=
  if pyTruthy result = false then .ok false
  else
    let fb :=
      match result with
      | Value.vDict d => pyTruthy (getD d "fallback_mode" Value.vNull)
      | _ => false
    if fb then .ok false
    else if name = "avatar_ultra_detalhado" then validate_avatar_quality result
    else if name = "drivers_mentais_customizados" then validate_drivers_quality result
    else if name = "insights_exclusivos" then
      match result with
      | Value.vList l => .ok (decide (10 ≤ l.length))
      | _ => .ok false
    else if name = "projeto_dados" then
      match pyGet result "segmento" Value.vNull with
      | .error e => .error e
      | .ok seg =>
      if pyTruthy seg = false then .ok false else
      match pyLen seg with
      | .error e => .error e
      | .ok n => .ok (decide (3 ≤ n))
    else if name = "pesquisa_web_massiva" then
      match pyGet result "total_fontes" (Value.vNum 0) with
      | .error e => .error e
      | .ok tf => pyGE tf (Value.vNum 1)
    else .ok true

/-- A successful lookup means the dictionary is nonempty. -/
theorem lookup_some_ne_nil {d : List (String × Value)} {k : String} {v : Value}
    (h : lookupD d k = some v) : d ≠ [] := by
  cases d with
  | nil => simp [lookupD] at h
  | cons a rest => simp

/-- C3 (claim as stated is falsified here): the Recovery Generator marks its
outputs with `recovery_mode`, but `_validate_component_result` only rejects
the `fallback_mode` marker — so the recovered project data, which carries the
recovery marker, is ACCEPTED (returns true). -/
theorem C3_counterexample :
    match generate_basic_project_data [] "T0" with
    | some d =>
      lookupD d "recovery_mode" = some (Value.vBool true) ∧
        validate_component_result "projeto_dados" (Value.vDict d) = .ok true
    | none => False := by
  exact ⟨rfl, rfl⟩

/-- C3 (amended): for every stage name, a stage-result mapping carrying a
truthy `fallback_mode` marker — the marker the validator's reject-fallback
rule actually checks — is rejected by `_validate_component_result`; the
`recovery_mode` marker set by the Recovery Generator is not checked by that
rule. -/
theorem C3_validator_rejects_fallback :
    ∀ (name : String) (d : List (String × Value)) (v : Value),
      lookupD d "fallback_mode" = some v → pyTruthy v = true →
      validate_component_result name (Value.vDict d) = .ok false := by
  intro name d v hlk htr
  have hne : d ≠ [] := lookup_some_ne_nil hlk
  have htruthy : pyTruthy (Value.vDict d) = true := by
    simp [pyTruthy, List.isEmpty_iff, hne]
  have hfb : getD d "fallback_mode" Value.vNull = v := by
    simp [getD, hlk]
  simp [validate_component_result, htruthy, hfb, htr]

/-- Witness for C3 at a concrete fallback-marked value. -/
theorem C3_witness :
    validate_component_result "drivers_mentais_customizados"
      (Value.vDict [("fallback_mode", Value.vBool true)]) = .ok false :=
  C3_validator_rejects_fallback "drivers_mentais_customizados"
    [("fallback_mode", Value.vBool true)] (Value.vBool true) rfl rfl

/-- Observation used to separate the two recovery results: the
`timestamp_criacao` field of a recovered mapping. -/
def obs_timestamp : Option Value → Option Value
  | some (Value.vDict d) => lookupD d "timestamp_criacao"
  | _ => none

/-- Remove the timestamp field of a recovered mapping. -/
def strip_timestamp : Value → Value
  | Value.vDict d => Value.vDict (d.filter (fun e => e.1 != "timestamp_criacao"))
  | v => v

/-- C9 (claim as stated is falsified here): `_attempt_component_recovery` for
`projeto_dados` is NOT a pure function of `(stageName, context)` — it reads
`datetime.now()`, so two invocations at different times (modelled by the
explicit clock parameter) return different results. -/
theorem C9_counterexample :
    attempt_component_recovery "projeto_dados" [] "T1" ≠
      attempt_component_recovery "projeto_dados" [] "T2" := by
  intro h
  have h2 := congrArg obs_timestamp h
  have e1 : obs_timestamp (attempt_component_recovery "projeto_dados" [] "T1") =
      some (Value.vStr "T1") := rfl
  have e2 : obs_timestamp (attempt_component_recovery "projeto_dados" [] "T2") =
      some (Value.vStr "T2") := rfl
  rw [e1, e2] at h2
  simp at h2

/-- C9 (amended): `_attempt_component_recovery` never raises (it is a total
function into `Option`); it is deterministic in `(stageName, context)` for
the `pesquisa_web_massiva` and `analise_ia_avancada` stages; for
`projeto_dados` it depends on the clock only through the `timestamp_criacao`
field (results are equal after stripping it); and it returns null for every
stage name outside the mandatory set. -/
theorem C9_recovery_determinism :
    (∀ (data : List (String × Value)) (t t' : String),
      attempt_component_recovery "pesquisa_web_massiva" data t =
        attempt_component_recovery "pesquisa_web_massiva" data t') ∧
    (∀ (data : List (String × Value)) (t t' : String),
      attempt_component_recovery "analise_ia_avancada" data t =
        attempt_component_recovery "analise_ia_avancada" data t') ∧
    (∀ (data : List (String × Value)) (t t' : String),
      (attempt_component_recovery "projeto_dados" data t).map strip_timestamp =
        (attempt_component_recovery "projeto_dados" data t').map strip_timestamp) ∧
    (∀ (name : String) (data : List (String × Value)) (t : String),
      name ∉ mandatory_components → attempt_component_recovery name data t = none) := by
  refine ⟨fun data t t' => rfl, fun data t t' => rfl, fun data t t' => ?_, ?_⟩
  · simp only [attempt_component_recovery, generate_basic_project_data]
    cases hp : lookupD data "preco" with
    | none => simp [strip_timestamp]
    | some v =>
      by_cases htr : pyTruthy v = true
      · cases hf : pyFloat v with
        | none => simp [htr, hf]
        | some q => simp [htr, hf, strip_timestamp]
      · simp [Bool.not_eq_true] at htr
        simp [htr, strip_timestamp]
  · intro name data t hname
    simp only [mandatory_components, List.mem_cons, List.mem_singleton] at hname
    push_neg at hname
    obtain ⟨h1, h2, h3⟩ := hname
    simp [attempt_component_recovery, h1, h2, h3]

/-- Witness for C9 at a concrete non-mandatory stage name. -/
theorem C9_witness :
    attempt_component_recovery "drivers_mentais_customizados" [] "T0" = none :=
  C9_recovery_determinism.2.2.2 "drivers_mentais_customizados" [] "T0" (by decide)

/-! ## Aggregate quality scoring (`_validate_final_quality`, lines 1083-1129) -/

/-- The record `_validate_final_quality` returns. -/
structure QualityResult where
  score : Rat
  issues : List String
  meets_minimum : Bool

/-- The six components inspected by the scorer (lines 1090-1093). -/
def required_quality_components : List String :=
  ["projeto_dados", "pesquisa_web_massiva", "analise_ia_avancada",
   "avatar_ultra_detalhado", "posicionamento_estrategico", "insights_exclusivos"]

/-- `sum(1 for comp in required_components if comp in analysis and
analysis[comp])`: a key absent from the mapping and a key bound to a falsy
value contribute equally (0), so presence-and-truthiness is `pyTruthy` of the
`None`-defaulted lookup. -/
def presentCount (analysis : List (String × Value)) : Nat :=
  (required_quality_components.filter
    (fun c => pyTruthy (getD analysis c Value.vNull))).length

/-- `_validate_final_quality` (lines 1083-1129): 40 points proportional to
the six components present, 25 points proportional-and-capped for insights
against the configured minimum of 15, the avatar depth sub-score scaled to 20
points, 15 points pass/fail for at least 3 sources; the reported score is
capped at 100 and `meets_minimum` compares the uncapped sum against 95.
(The textual rendering of the missing-components list inside the issue
message abstracts the Python list repr.) -/
def validate_final_quality (analysis : List (String × Value)) :
    Except String QualityResult :=
  let present := presentCount analysis
  let s1 : Rat := 0 + ((present : Rat) / 6) * 40
  let i1 :=
    if present < 6 then
      ["Componentes obrigatórios ausentes: " ++
        String.intercalate ", " (required_quality_components.filter
          (fun c => !(pyTruthy (getD analysis c Value.vNull))))]
    else []
  match pyLen (getD analysis "insights_exclusivos" (Value.vList [])) with
  | .error e => .error e
  | .ok ilen =>
  let i2 :=
    if 15 ≤ ilen then i1
    else i1 ++ ["Insights insuficientes: " ++ toString ilen ++ " < 15"]
  let s2 := if 15 ≤ ilen then s1 + 25 else s1 + ((ilen : Rat) / 15) * 25
  match (if pyTruthy (getD analysis "avatar_ultra_detalhado" (Value.vDict []))
         then validate_avatar_depth (getD analysis "avatar_ultra_detalhado" (Value.vDict []))
         else .ok ⟨true, 0, []⟩ : Except String DepthResult) with
  | .error e => .error e
  | .ok av =>
  let i3 := if av.valid then i2 else i2 ++ av.issues
  let s3 := s2 + (av.score / 100) * 20
  match (if pyTruthy (getD analysis "pesquisa_web_massiva" (Value.vDict [])) then
          match pyGet (getD analysis "pesquisa_web_massiva" (Value.vDict []))
              "total_fontes" (Value.vNum 0) with
          | .error e => .error e
          | .ok tf => pyGE tf (Value.vNum 3)
         else .ok false : Except String Bool) with
  | .error e => .error e
  | .ok searchOk =>
  let i4 := if searchOk then i3 else i3 ++ ["Pesquisa com fontes insuficientes"]
  let s4 := if searchOk then s3 + 15 else s3
  .ok ⟨min s4 100, i4, decide (95 ≤ s4)⟩

/-- Any result `_validate_avatar_depth` returns has a score in `[0, 100]`. -/
theorem avatar_depth_score_bounds (avatar : Value) (r : DepthResult)
    (h : validate_avatar_depth avatar = .ok r) : 0 ≤ r.score ∧ r.score ≤ 100 := by
  unfold validate_avatar_depth at h
  cases h1 : pyGet avatar "perfil_demografico" (Value.vDict []) with
  | error e => simp [h1] at h
  | ok dem =>
  simp only [h1] at h
  cases h2 : pyLen dem with
  | error e => simp [h2] at h
  | ok demLen =>
  simp only [h2] at h
  cases h3 : pyGet avatar "dores_viscerais" (Value.vList []) with
  | error e => simp [h3] at h
  | ok dores =>
  simp only [h3] at h
  cases h4 : pyLen dores with
  | error e => simp [h4] at h
  | ok doresLen =>
  simp only [h4] at h
  cases h5 : pyGet avatar "desejos_secretos" (Value.vList []) with
  | error e => simp [h5] at h
  | ok desejos =>
  simp only [h5] at h
  cases h6 : pyLen desejos with
  | error e => simp [h6] at h
  | ok desejosLen =>
  simp only [h6] at h
  cases h7 : pyGet avatar "objecoes_reais" (Value.vList []) with
  | error e => simp [h7] at h
  | ok objecoes =>
  simp only [h7] at h
  cases h8 : pyLen objecoes with
  | error e => simp [h8] at h
  | ok objecoesLen =>
  simp only [h8] at h
  cases h9 : pySlice3 dores with
  | error e => simp [h9] at h
  | ok firstDores =>
  simp only [h9] at h
  cases h10 : short_dor_check firstDores with
  | error e => simp [h10] at h
  | ok hasShort =>
  simp only [h10] at h
  injection h with h
  subst h
  refine ⟨le_max_right _ _, ?_⟩
  simp only
  split_ifs <;> norm_num

theorem presentCount_le_six (analysis : List (String × Value)) :
    presentCount analysis ≤ 6 :=
  le_trans (List.length_filter_le _ _) (by decide)

/-- Any result `_validate_final_quality` returns has a score in `[0, 100]`,
and `meets_minimum` holds exactly when the reported score is at least 95. -/
theorem final_quality_bounds (analysis : List (String × Value)) (q : QualityResult)
    (h : validate_final_quality analysis = .ok q) :
    0 ≤ q.score ∧ q.score ≤ 100 ∧ (q.meets_minimum = true ↔ 95 ≤ q.score) := by
  unfold validate_final_quality at h
  cases h1 : pyLen (getD analysis "insights_exclusivos" (Value.vList [])) with
  | error e => simp [h1] at h
  | ok ilen =>
  simp only [h1] at h
  cases h2 : (if pyTruthy (getD analysis "avatar_ultra_detalhado" (Value.vDict []))
      then validate_avatar_depth (getD analysis "avatar_ultra_detalhado" (Value.vDict []))
      else .ok ⟨true, 0, []⟩ : Except String DepthResult) with
  | error e => simp [h2] at h
  | ok av =>
  simp only [h2] at h
  cases h3 : (if pyTruthy (getD analysis "pesquisa_web_massiva" (Value.vDict []))
      then
        match pyGet (getD analysis "pesquisa_web_massiva" (Value.vDict []))
            "total_fontes" (Value.vNum 0) with
        | .error e => .error e
        | .ok tf => pyGE tf (Value.vNum 3)
      else .ok false : Except String Bool) with
  | error e => simp [h3] at h
  | ok searchOk =>
  simp only [h3] at h
  injection h with h
  subst h
  have hav : 0 ≤ av.score ∧ av.score ≤ 100 := by
    by_cases hA : pyTruthy (getD analysis "avatar_ultra_detalhado" (Value.vDict [])) = true
    · rw [if_pos hA] at h2
      exact avatar_depth_score_bounds _ _ h2
    · rw [if_neg hA] at h2
      injection h2 with h2
      rw [← h2]
      norm_num
  obtain ⟨hav0, hav100⟩ := hav
  have hp6 : ((presentCount analysis : Nat) : Rat) ≤ 6 := by
    exact_mod_cast presentCount_le_six analysis
  have hp0 : (0 : Rat) ≤ ((presentCount analysis : Nat) : Rat) := by positivity
  have key : ∀ s : Rat, 0 ≤ s → s ≤ 100 →
      0 ≤ min s 100 ∧ min s 100 ≤ 100 ∧ (decide (95 ≤ s) = true ↔ 95 ≤ min s 100) := by
    intro s h0 h100
    rw [min_eq_left h100]
    exact ⟨h0, h100, by simp⟩
  have hi0 : (0 : Rat) ≤ ((ilen : Nat) : Rat) := by positivity
  by_cases hi : 15 ≤ ilen <;> by_cases hs : searchOk = true
  all_goals
    simp only [hi, hs, if_true, if_false, ite_true, ite_false, Bool.false_eq_true]
  all_goals refine key _ ?_ ?_
  all_goals
    first
    | linarith
    | (have hilt : ((ilen : Nat) : Rat) ≤ 15 := by
        have := Nat.lt_of_not_le hi
        exact_mod_cast Nat.le_of_lt this
       linarith)

/-- `_validate_avatar_depth` always succeeds on a well-shaped avatar. -/
theorem avatar_depth_toValue_ok (a : Avatar) :
    ∃ av, validate_avatar_depth a.toValue = .ok av := by
  cases h : validate_avatar_depth a.toValue with
  | ok av => exact ⟨av, rfl⟩
  | error e =>
    obtain ⟨dem, dor, des, obj⟩ := a
    simp [validate_avatar_depth, Avatar.toValue, pyGet, getD, lookupD, pyLen, pySlice3,
      ← List.map_take, short_dor_check_strs] at h

/-- The typed view of a consolidated result as the quality scorer reads it:
presence (and truthiness) of the six inspected components, the source count
inside the search component, the avatar, and the insights list.  `none`
models an absent or falsy component. -/
structure FinalReport where
  projeto_dados_present : Bool
  total_fontes : Option Rat
  analise_present : Bool
  avatar : Option Avatar
  posicionamento_present : Bool
  insights : List String

def FinalReport.toDict (r : FinalReport) : List (String × Value) :=
  (if r.projeto_dados_present then [("projeto_dados", Value.vBool true)] else []) ++
  (match r.total_fontes with
   | some n => [("pesquisa_web_massiva", Value.vDict [("total_fontes", Value.vNum n)])]
   | none => []) ++
  (if r.analise_present then [("analise_ia_avancada", Value.vBool true)] else []) ++
  (match r.avatar with
   | some a => [("avatar_ultra_detalhado", a.toValue)]
   | none => []) ++
  (if r.posicionamento_present then [("posicionamento_estrategico", Value.vBool true)] else []) ++
  [("insights_exclusivos", Value.vList (r.insights.map Value.vStr))]

/-- The number of present-and-truthy components of a typed report. -/
def presentN (r : FinalReport) : Nat :=
  (if r.projeto_dados_present then 1 else 0) + (if r.total_fontes.isSome then 1 else 0) +
  (if r.analise_present then 1 else 0) + (if r.avatar.isSome then 1 else 0) +
  (if r.posicionamento_present then 1 else 0) + (if r.insights.isEmpty then 0 else 1)

/-- Whether the typed report has at least the configured minimum of 3 sources. -/
def report_fontes_ok (r : FinalReport) : Bool :=
  match r.total_fontes with
  | some n => decide (3 ≤ n)
  | none => false

theorem presentN_le_six (r : FinalReport) : presentN r ≤ 6 := by
  unfold presentN
  split_ifs <;> omega

theorem presentCount_toDict (r : FinalReport) : presentCount r.toDict = presentN r := by
  obtain ⟨pj, tf, an, avOpt, po, ins⟩ := r
  cases pj <;> cases tf <;> cases an <;> cases avOpt <;> cases po <;>
    by_cases hins : ins.isEmpty <;>
      simp_all [presentCount, presentN, FinalReport.toDict, required_quality_components,
        getD, lookupD, pyTruthy, Avatar.toValue, List.isEmpty_iff, List.map_eq_nil_iff]

theorem toDict_insights (r : FinalReport) :
    getD r.toDict "insights_exclusivos" (Value.vList []) =
      Value.vList (r.insights.map Value.vStr) := by
  obtain ⟨pj, tf, an, avOpt, po, ins⟩ := r
  cases pj <;> cases tf <;> cases an <;> cases avOpt <;> cases po <;>
    simp [FinalReport.toDict, getD, lookupD]

theorem toDict_avatar (r : FinalReport) (a : Avatar) (h : r.avatar = some a) :
    getD r.toDict "avatar_ultra_detalhado" (Value.vDict []) = a.toValue := by
  obtain ⟨pj, tf, an, avOpt, po, ins⟩ := r
  simp only at h
  subst h
  cases pj <;> cases tf <;> cases an <;> cases po <;>
    simp [FinalReport.toDict, getD, lookupD]

theorem toDict_search (r : FinalReport) :
    getD r.toDict "pesquisa_web_massiva" (Value.vDict []) =
      (match r.total_fontes with
       | some n => Value.vDict [("total_fontes", Value.vNum n)]
       | none => Value.vDict []) := by
  obtain ⟨pj, tf, an, avOpt, po, ins⟩ := r
  cases pj <;> cases tf <;> cases an <;> cases avOpt <;> cases po <;>
    simp [FinalReport.toDict, getD, lookupD]

theorem ins_min_eq (n : Nat) :
    (if 15 ≤ n then (25 : Rat) else ((n : Rat) / 15) * 25) =
      min (((n : Rat) / 15) * 25) 25 := by
  by_cases h : 15 ≤ n
  · rw [if_pos h, min_eq_right]
    have h15 : (15 : Rat) ≤ (n : Rat) := by exact_mod_cast h
    linarith
  · rw [if_neg h, min_eq_left]
    have h15 : (n : Rat) ≤ 15 := by
      have := Nat.lt_of_not_le h
      exact_mod_cast this.le
    linarith

/-- C4 (confirmed): for every consolidated result (typed view, avatar
present), the quality score is the weighted sum — presence of the six
mandatory+required components worth 40 points proportionally, insight count
against the configured minimum of 15 worth 25 points proportionally and
capped, the avatar depth sub-score scaled to 20 points, and the source count
against the configured minimum of 3 worth 15 points pass/fail; the score
always lies in [0, 100] and `meets_minimum` holds exactly when the score is
at least 95. -/
theorem C4_quality_score :
    (∀ (r : FinalReport) (a : Avatar), r.avatar = some a →
      match validate_avatar_depth a.toValue, validate_final_quality r.toDict with
      | .ok av, .ok q =>
        q.score = ((presentN r : Rat) / 6) * 40
          + min (((r.insights.length : Rat) / 15) * 25) 25
          + (av.score / 100) * 20
          + (if report_fontes_ok r then (15 : Rat) else 0)
      | _, _ => False) ∧
    (∀ (analysis : List (String × Value)) (q : QualityResult),
      validate_final_quality analysis = .ok q →
      0 ≤ q.score ∧ q.score ≤ 100 ∧ (q.meets_minimum = true ↔ 95 ≤ q.score)) := by
  refine ⟨?_, final_quality_bounds⟩
  intro r a hA
  obtain ⟨av, hok⟩ := avatar_depth_toValue_ok a
  rw [hok]
  have h1 : pyLen (getD r.toDict "insights_exclusivos" (Value.vList [])) =
      .ok r.insights.length := by
    rw [toDict_insights]
    simp [pyLen]
  have h2 : (if pyTruthy (getD r.toDict "avatar_ultra_detalhado" (Value.vDict []))
      then validate_avatar_depth (getD r.toDict "avatar_ultra_detalhado" (Value.vDict []))
      else .ok ⟨true, 0, []⟩ : Except String DepthResult) = .ok av := by
    rw [toDict_avatar r a hA]
    rw [if_pos ?_]
    · exact hok
    · obtain ⟨dem, dor, des, obj⟩ := a
      simp [Avatar.toValue, pyTruthy]
  have h3 : (if pyTruthy (getD r.toDict "pesquisa_web_massiva" (Value.vDict [])) then
      match pyGet (getD r.toDict "pesquisa_web_massiva" (Value.vDict []))
          "total_fontes" (Value.vNum 0) with
      | .error e => .error e
      | .ok tf => pyGE tf (Value.vNum 3)
      else .ok false : Except String Bool) = .ok (report_fontes_ok r) := by
    rw [toDict_search]
    cases hf : r.total_fontes with
    | none => simp [pyTruthy, report_fontes_ok, hf]
    | some n => simp [hf, pyTruthy, pyGet, getD, lookupD, pyGE, report_fontes_ok]
  obtain ⟨hav0, hav100⟩ := avatar_depth_score_bounds _ _ hok
  have hp6 : ((presentN r : Nat) : Rat) ≤ 6 := by exact_mod_cast presentN_le_six r
  have hp0 : (0 : Rat) ≤ ((presentN r : Nat) : Rat) := by positivity
  have hlen0 : (0 : Rat) ≤ ((r.insights.length : Nat) : Rat) := by positivity
  cases hvq : validate_final_quality r.toDict with
  | error e =>
    unfold validate_final_quality at hvq
    simp only [h1, h2, h3] at hvq
    exact Except.noConfusion hvq
  | ok q =>
    unfold validate_final_quality at hvq
    simp only [h1, h2, h3] at hvq
    injection hvq with hq
    rw [← hq]
    simp only [presentCount_toDict]
    rw [← ins_min_eq r.insights.length]
    by_cases hi : 15 ≤ r.insights.length <;>
      by_cases hf : report_fontes_ok r = true <;>
      simp only [hi, hf, if_true, if_false, ite_true, ite_false,
        Bool.false_eq_true, not_false_eq_true, not_true_eq_false] <;>
      rw [min_def] <;>
      split_ifs <;>
      first
      | linarith
      | (have hlt : ((r.insights.length : Nat) : Rat) ≤ 15 := by
           exact_mod_cast (Nat.lt_of_not_le hi).le
         linarith)

def avatarW : Avatar := ⟨[], [], [], []⟩

def reportW : FinalReport := ⟨true, some 5, true, some avatarW, true, []⟩

/-- Witness for C4 at a concrete consolidated report. -/
theorem C4_witness :
    match validate_avatar_depth avatarW.toValue, validate_final_quality reportW.toDict with
    | .ok av, .ok q =>
      q.score = ((presentN reportW : Rat) / 6) * 40
        + min (((reportW.insights.length : Rat) / 15) * 25) 25
        + (av.score / 100) * 20
        + (if report_fontes_ok reportW then (15 : Rat) else 0)
    | _, _ => False :=
  C4_quality_score.1 reportW avatarW rfl

/-! ## Consolidation (`_consolidate_final_analysis`, lines 1474-1519, and
`_generate_fallback_section`, lines 1158-1184) -/

/-- The eleven declared pipeline components, in order (lines 30-42). -/
def component_names : List String :=
  ["projeto_dados", "pesquisa_web_massiva", "analise_ia_avancada",
   "avatar_ultra_detalhado", "posicionamento_estrategico",
   "drivers_mentais_customizados", "provas_visuais_instantaneas",
   "sistema_anti_objecao", "pre_pitch_invisivel",
   "predicoes_futuro_completas", "insights_exclusivos"]

/-- The five components the consolidation step guarantees (lines 1501-1504). -/
def consolidation_required : List String :=
  ["pesquisa_web_massiva", "analise_ia_avancada", "avatar_ultra_detalhado",
   "posicionamento_estrategico", "insights_exclusivos"]

/-- `_generate_fallback_section` (lines 1158-1184).  The
`estrategia_palavras_chave` branch calls `segmento.lower()` and raises when
the segment value is not a string. -/
def generate_fallback_section (section_name : String) (pd : List (String × Value)) :
    Except String Value :=
  let segmento := getD pd "segmento" (Value.vStr "negócios")
  if section_name = "avatar_ultra_detalhado" then
    .ok (Value.vDict (generate_basic_avatar segmento))
  else if section_name = "posicionamento_estrategico" then
    .ok (Value.vDict (generate_basic_positioning pd))
  else if section_name = "insights_exclusivos" then
    .ok (Value.vList (((generate_additional_insights pd).take 15).map Value.vStr))
  else if section_name = "analise_concorrencia_detalhada" then
    .ok (Value.vList [Value.vDict
      [("nome", Value.vStr ("Concorrente Principal em " ++ pyStr segmento)),
       ("posicionamento", Value.vStr "Líder estabelecido"),
       ("forcas", Value.vList [Value.vStr "Marca reconhecida", Value.vStr "Base de clientes"]),
       ("fraquezas", Value.vList [Value.vStr "Processos lentos", Value.vStr "Falta inovação"]),
       ("estrategia_marketing", Value.vStr "Marketing tradicional")]])
  else if section_name = "estrategia_palavras_chave" then
    match segmento with
    | Value.vStr s =>
      .ok (Value.vDict
        [("palavras_primarias", Value.vList
          [Value.vStr (lower s), Value.vStr "estratégia", Value.vStr "marketing",
           Value.vStr "crescimento"]),
         ("palavras_secundarias", Value.vList
          [Value.vStr "digital", Value.vStr "online", Value.vStr "automação",
           Value.vStr "sistema"]),
         ("long_tail_keywords", Value.vList
          [Value.vStr ("como crescer em " ++ lower s),
           Value.vStr ("estratégias para " ++ lower s)])])
    | _ => .error "AttributeError: object has no attribute lower"
  else .ok (Value.vDict [])

/-- The `for component_name in successful` copy loop of
`_consolidate_final_analysis` (lines 1496-1498). -/
def copy_successful : List String → List (String × Value) → List (String × Value) →
    List (String × Value)
  | [], _, acc => acc
  | c :: rest, results, acc =>
    match lookupD results c with
    | some v => copy_successful rest results (insertD acc c v)
    | none => copy_successful rest results acc

/-- The required-components fallback loop of `_consolidate_final_analysis`
(lines 1506-1509): a key already present (whatever its value) is left alone;
a missing one is synthesized from the project data. -/
def fill_required : List String → List (String × Value) → List (String × Value) →
    Except String (List (String × Value))
  | [], _, acc => .ok acc
  | c :: rest, pd, acc =>
    if (lookupD acc c).isSome then fill_required rest pd acc
    else
      match generate_fallback_section c pd with
      | .error e => .error e
      | .ok v => fill_required rest pd (insertD acc c v)

/-- The base structure of the consolidated analysis (lines 1485-1493):
project data (with the eagerly evaluated recovery default) and the pipeline
status record. -/
def consolidation_base (results : List (String × Value)) (successful failed : List String)
    (session_id : String) (pdDefault : List (String × Value)) : List (String × Value) :=
  [("projeto_dados", getD results "projeto_dados" (Value.vDict pdDefault)),
   ("pipeline_status", Value.vDict
     [("componentes_executados", Value.vList (successful.map Value.vStr)),
      ("componentes_falharam", Value.vList (failed.map Value.vStr)),
      ("taxa_sucesso", Value.vNum
        ((successful.length : Rat) / (component_names.length : Rat) * 100)),
      ("session_id", Value.vStr session_id)])]

/-- The status derivation of `_consolidate_final_analysis` (lines 1511-1517):
compare the number of successes against 80% and 60% of the component count. -/
def consolidation_status (successful : List String) : String :=
  if (component_names.length : Rat) * (8 / 10) ≤ (successful.length : Rat) then "COMPLETO"
  else if (component_names.length : Rat) * (6 / 10) ≤ (successful.length : Rat) then
    "PARCIAL_VALIDO"
  else "MINIMO_PRESERVADO"

/-- `_consolidate_final_analysis` (lines 1474-1519).  Python evaluates the
`.get` default eagerly, so `_generate_basic_project_data(original_data)` runs
— and can raise — on every call; the fallback generators read the current
`projeto_dados` entry, whose `.get` raises when it is not a mapping. -/
def consolidate_final_analysis (original_data results : List (String × Value))
    (successful failed : List String) (session_id now : String) :
    Except String (List (String × Value)) :=
  match generate_basic_project_data original_data now with
  | none => .error "ValueError: could not convert string to float"
  | some pdDefault =>
  match getD (copy_successful successful results
      (consolidation_base results successful failed session_id pdDefault))
      "projeto_dados" Value.vNull with
  | Value.vDict pd =>
    match fill_required consolidation_required pd
        (copy_successful successful results
          (consolidation_base results successful failed session_id pdDefault)) with
    | .error e => .error e
    | .ok filled =>
      .ok (insertD filled "status" (Value.vStr (consolidation_status successful)))
  | _ => .error "AttributeError: object has no attribute get"

theorem lookupD_insertD_self (d : List (String × Value)) (k : String) (v : Value) :
    lookupD (insertD d k v) k = some v := by
  induction d with
  | nil => simp [insertD, lookupD]
  | cons kv rest ih =>
    obtain ⟨k0, v0⟩ := kv
    by_cases h : k0 = k
    · subst h
      simp [insertD, lookupD]
    · simp [insertD, lookupD, h, ih]

theorem lookupD_insertD_ne (d : List (String × Value)) (k k' : String) (v : Value)
    (h : k ≠ k') : lookupD (insertD d k v) k' = lookupD d k' := by
  induction d with
  | nil => simp [insertD, lookupD, h]
  | cons kv rest ih =>
    obtain ⟨k0, v0⟩ := kv
    by_cases h0 : k0 = k
    · subst h0
      simp [insertD, lookupD, h]
    · simp [insertD, lookupD, h0, ih]

theorem copy_preserve (l : List String) (results acc : List (String × Value))
    (x : String) (hx : x ∉ l) :
    lookupD (copy_successful l results acc) x = lookupD acc x := by
  induction l generalizing acc with
  | nil => rfl
  | cons c rest ih =>
    have hxc : c ≠ x := fun h => hx (h ▸ List.mem_cons_self c rest)
    have hxr : x ∉ rest := fun h => hx (List.mem_cons_of_mem c h)
    cases hr : lookupD results c with
    | none => simp [copy_successful, hr, ih _ hxr]
    | some v => simp [copy_successful, hr, ih _ hxr, lookupD_insertD_ne _ _ _ _ hxc]

theorem copy_mem (l : List String) (results acc : List (String × Value))
    (c : String) (v : Value) (hr : lookupD results c = some v)
    (h : c ∈ l ∨ lookupD acc c = some v) :
    lookupD (copy_successful l results acc) c = some v := by
  induction l generalizing acc with
  | nil =>
    rcases h with h | h
    · cases h
    · exact h
  | cons c0 rest ih =>
    by_cases hc : c0 = c
    · subst hc
      rw [copy_successful, hr]
      exact ih _ (Or.inr (lookupD_insertD_self _ _ _))
    · have h2 : c ∈ rest ∨ lookupD acc c = some v := by
        rcases h with h | h
        · rcases List.mem_cons.mp h with h | h
          · exact absurd h.symm hc
          · exact Or.inl h
        · exact Or.inr h
      cases hr0 : lookupD results c0 with
      | none => simpa [copy_successful, hr0] using ih _ h2
      | some w =>
        rw [copy_successful, hr0]
        refine ih _ ?_
        rcases h2 with h2 | h2
        · exact Or.inl h2
        · exact Or.inr (by rw [lookupD_insertD_ne _ _ _ _ hc, h2])

theorem fill_preserve_some (l : List String) (pd acc out : List (String × Value))
    (x : String) (v : Value) (hx : lookupD acc x = some v)
    (hout : fill_required l pd acc = .ok out) : lookupD out x = some v := by
  induction l generalizing acc with
  | nil =>
    rw [fill_required] at hout
    injection hout with hout
    rw [← hout]
    exact hx
  | cons c rest ih =>
    rw [fill_required] at hout
    by_cases hc : (lookupD acc c).isSome
    · rw [if_pos hc] at hout
      exact ih _ hx hout
    · rw [if_neg hc] at hout
      cases hg : generate_fallback_section c pd with
      | error e => rw [hg] at hout; exact Except.noConfusion hout
      | ok w =>
        rw [hg] at hout
        have hcx : c ≠ x := by
          intro h
          subst h
          rw [hx] at hc
          exact hc rfl
        exact ih _ (by rw [lookupD_insertD_ne _ _ _ _ hcx]; exact hx) hout

theorem fill_ensures (l : List String) (pd acc out : List (String × Value))
    (c : String) (hc : c ∈ l)
    (hout : fill_required l pd acc = .ok out) : (lookupD out c).isSome := by
  induction l generalizing acc with
  | nil => cases hc
  | cons c0 rest ih =>
    rw [fill_required] at hout
    by_cases hp : (lookupD acc c0).isSome
    · rw [if_pos hp] at hout
      rcases List.mem_cons.mp hc with hceq | hcr
      · subst hceq
        obtain ⟨v, hv⟩ := Option.isSome_iff_exists.mp hp
        rw [fill_preserve_some rest pd acc out c v hv hout]
        rfl
      · exact ih _ hcr hout
    · rw [if_neg hp] at hout
      cases hg : generate_fallback_section c0 pd with
      | error e => rw [hg] at hout; exact Except.noConfusion hout
      | ok w =>
        rw [hg] at hout
        rcases List.mem_cons.mp hc with hceq | hcr
        · subst hceq
          rw [fill_preserve_some rest pd _ out c w (lookupD_insertD_self _ _ _) hout]
          rfl
        · exact ih _ hcr hout

theorem fill_preserve_not_mem (l : List String) (pd acc out : List (String × Value))
    (x : String) (hx : x ∉ l)
    (hout : fill_required l pd acc = .ok out) : lookupD out x = lookupD acc x := by
  induction l generalizing acc with
  | nil =>
    rw [fill_required] at hout
    injection hout with hout
    rw [← hout]
  | cons c rest ih =>
    have hxc : c ≠ x := fun h => hx (h ▸ List.mem_cons_self c rest)
    have hxr : x ∉ rest := fun h => hx (List.mem_cons_of_mem c h)
    rw [fill_required] at hout
    by_cases hp : (lookupD acc c).isSome
    · rw [if_pos hp] at hout
      exact ih _ hxr hout
    · rw [if_neg hp] at hout
      cases hg : generate_fallback_section c pd with
      | error e => rw [hg] at hout; exact Except.noConfusion hout
      | ok w =>
        rw [hg] at hout
        rw [ih _ hxr hout, lookupD_insertD_ne _ _ _ _ hxc]

/-- C7 (confirmed): every consolidated analysis contains each successful
stage's result under its own name; its `taxa_sucesso` equals
`|successful| / |all 11 declared stages| * 100`; its status is `COMPLETO`
when that rate is at least 80, `PARCIAL_VALIDO` when at least 60, and
`MINIMO_PRESERVADO` otherwise; and the required-for-report sections (avatar,
positioning, insights) are present — synthesized by the Recovery Generator
rather than left absent when missing. -/
theorem C7_consolidation :
    ∀ (original_data results : List (String × Value)) (successful failed : List String)
      (sid now : String),
      (∀ c ∈ successful, c ∈ component_names) →
      match consolidate_final_analysis original_data results successful failed sid now with
      | .ok fa =>
        (∀ c ∈ successful, ∀ v, lookupD results c = some v → lookupD fa c = some v) ∧
        (∃ ps, lookupD fa "pipeline_status" = some (Value.vDict ps) ∧
          lookupD ps "taxa_sucesso" = some (Value.vNum
            ((successful.length : Rat) / (component_names.length : Rat) * 100))) ∧
        lookupD fa "status" = some (Value.vStr
          (if 80 ≤ (successful.length : Rat) / (component_names.length : Rat) * 100
           then "COMPLETO"
           else if 60 ≤ (successful.length : Rat) / (component_names.length : Rat) * 100
           then "PARCIAL_VALIDO" else "MINIMO_PRESERVADO")) ∧
        (∀ c ∈ (["avatar_ultra_detalhado", "posicionamento_estrategico",
            "insights_exclusivos"] : List String), (lookupD fa c).isSome)
      | .error _ => True := by
  intro od results successful failed sid now hsub
  cases hq : consolidate_final_analysis od results successful failed sid now with
  | error e => trivial
  | ok fa =>
  unfold consolidate_final_analysis at hq
  cases hpd : generate_basic_project_data od now with
  | none => simp [hpd] at hq
  | some pdDefault =>
  simp only [hpd] at hq
  cases hproj : getD (copy_successful successful results
      (consolidation_base results successful failed sid pdDefault))
      "projeto_dados" Value.vNull with
  | vDict pd =>
    simp only [hproj] at hq
    cases hfill : fill_required consolidation_required pd
        (copy_successful successful results
          (consolidation_base results successful failed sid pdDefault)) with
    | error e => simp [hfill] at hq
    | ok filled =>
    simp only [hfill] at hq
    injection hq with hfa
    have hstatus_notin : "status" ∉ component_names := by decide
    have hps_notin : "pipeline_status" ∉ component_names := by decide
    refine ⟨?_, ?_, ?_, ?_⟩
    · intro c hc v hrv
      have hcn : c ∈ component_names := hsub c hc
      have hcs : "status" ≠ c := fun h => hstatus_notin (h ▸ hcn)
      rw [← hfa, lookupD_insertD_ne _ _ _ _ hcs]
      refine fill_preserve_some _ _ _ _ _ _ ?_ hfill
      exact copy_mem _ _ _ _ _ hrv (Or.inl hc)
    · have hpss : "pipeline_status" ∉ successful := fun h => hps_notin (hsub _ h)
      have hbase : lookupD (consolidation_base results successful failed sid pdDefault)
          "pipeline_status" = some (Value.vDict
            [("componentes_executados", Value.vList (successful.map Value.vStr)),
             ("componentes_falharam", Value.vList (failed.map Value.vStr)),
             ("taxa_sucesso", Value.vNum
               ((successful.length : Rat) / (component_names.length : Rat) * 100)),
             ("session_id", Value.vStr sid)]) := by
        simp [consolidation_base, lookupD]
      have hcopy := copy_preserve successful results
        (consolidation_base results successful failed sid pdDefault) "pipeline_status" hpss
      rw [hbase] at hcopy
      have hfil := fill_preserve_some _ _ _ _ _ _ hcopy hfill
      exact ⟨_,
        by rw [← hfa, lookupD_insertD_ne _ _ _ _ (by decide : "status" ≠ "pipeline_status")]
           exact hfil,
        by simp [lookupD]⟩
    · rw [← hfa, lookupD_insertD_self]
      have hlen : ((component_names.length : Nat) : Rat) = 11 := by
        norm_num [component_names]
      have e8 : ((component_names.length : Rat) * (8 / 10) ≤ (successful.length : Rat)) ↔
          (80 ≤ (successful.length : Rat) / (component_names.length : Rat) * 100) := by
        rw [hlen]
        constructor <;> intro <;> linarith
      have e6 : ((component_names.length : Rat) * (6 / 10) ≤ (successful.length : Rat)) ↔
          (60 ≤ (successful.length : Rat) / (component_names.length : Rat) * 100) := by
        rw [hlen]
        constructor <;> intro <;> linarith
      unfold consolidation_status
      simp only [e8, e6]
    · intro c hc
      have hc3 : c = "avatar_ultra_detalhado" ∨ c = "posicionamento_estrategico" ∨
          c = "insights_exclusivos" := by simpa using hc
      have hcr : c ∈ consolidation_required := by
        rcases hc3 with h | h | h <;> subst h <;> decide
      have hcs : "status" ≠ c := by
        rcases hc3 with h | h | h <;> subst h <;> decide
      rw [← hfa, lookupD_insertD_ne _ _ _ _ hcs]
      exact fill_ensures _ _ _ _ _ hcr hfill
  | vNull => simp [hproj] at hq
  | vBool b => simp [hproj] at hq
  | vNum q2 => simp [hproj] at hq
  | vStr s => simp [hproj] at hq
  | vList l => simp [hproj] at hq

/-- Witness for C7 at a concrete (empty) run. -/
theorem C7_witness :
    match consolidate_final_analysis [] [] [] [] "s" "t" with
    | .ok fa =>
      (∀ c ∈ ([] : List String), ∀ v, lookupD [] c = some v → lookupD fa c = some v) ∧
      (∃ ps, lookupD fa "pipeline_status" = some (Value.vDict ps) ∧
        lookupD ps "taxa_sucesso" = some (Value.vNum
          ((([] : List String).length : Rat) / (component_names.length : Rat) * 100))) ∧
      lookupD fa "status" = some (Value.vStr
        (if 80 ≤ (([] : List String).length : Rat) / (component_names.length : Rat) * 100
         then "COMPLETO"
         else if 60 ≤ (([] : List String).length : Rat) / (component_names.length : Rat) * 100
         then "PARCIAL_VALIDO" else "MINIMO_PRESERVADO")) ∧
      (∀ c ∈ (["avatar_ultra_detalhado", "posicionamento_estrategico",
          "insights_exclusivos"] : List String), (lookupD fa c).isSome)
    | .error _ => True :=
  C7_consolidation [] [] [] [] "s" "t" (fun c hc => absurd hc (List.not_mem_nil c))

/-! ## The orchestrator
(`execute_complete_analysis`, lines 54-182, with its two fully embedded
stages `_prepare_project_data` (lines 184-229) and
`_extract_avatar_from_analysis` (lines 380-438), the avatar enricher
`_enrich_avatar` (lines 934-956) and the quality enhancer
`_enhance_analysis_quality` (lines 1131-1156)).  The remaining stage
functions call external services, so they are modelled by an oracle `env`
mapping a component name and the accumulated data to an arbitrary result or
exception; `_prepare_project_data` and `_extract_avatar_from_analysis` are
the two stages the orchestrator runs entirely from local code.  `salvar_*`
and logging calls have no observable effect and are dropped;
`datetime.now().isoformat()` is the explicit `now` parameter. -/

/-- `x.strip()` on a value obtained from `.get(k, '')`: only strings have
`.strip`. -/
def pyStripV (v : Value) : Except String String :=
  match v with
  | Value.vStr s => .ok s.trim
  | _ => .error "AttributeError: object has no attribute strip"

/-- `float(data.get(k, 0)) if data.get(k) else None` (lines 199-201): absent
or falsy gives `None`; a truthy non-convertible value raises. -/
def pyFloatOpt (v : Option Value) : Except String Value :=
  match v with
  | some w =>
    if pyTruthy w then
      match pyFloat w with
      | some q => .ok (Value.vNum q)
      | none => .error "ValueError: could not convert value to float"
    else .ok Value.vNull
  | none => .ok Value.vNull

/-- The body of the `try` block of `_prepare_project_data` (lines 187-225):
validate the presence of `segmento`, strip the text fields, convert the three
monetary fields, derive the query when absent, and enforce the 3-character
minimum on the segment. -/
def prepare_project_data_core (data : List (String × Value)) (session_id now : String) :
    Except String (List (String × Value)) :=
  if pyTruthy (getD data "segmento" Value.vNull) = false then
    .error "Campos obrigatórios ausentes: [segmento]"
  else
  match pyStripV (getD data "segmento" (Value.vStr "")) with
  | .error e => .error e
  | .ok segmento =>
  match pyStripV (getD data "produto" (Value.vStr "")) with
  | .error e => .error e
  | .ok produto =>
  match pyStripV (getD data "publico" (Value.vStr "")) with
  | .error e => .error e
  | .ok publico =>
  match pyFloatOpt (lookupD data "preco") with
  | .error e => .error e
  | .ok preco =>
  match pyFloatOpt (lookupD data "objetivo_receita") with
  | .error e => .error e
  | .ok objetivo =>
  match pyFloatOpt (lookupD data "orcamento_marketing") with
  | .error e => .error e
  | .ok orcamento =>
  match pyStripV (getD data "prazo_lancamento" (Value.vStr "")) with
  | .error e => .error e
  | .ok prazo =>
  match pyStripV (getD data "concorrentes" (Value.vStr "")) with
  | .error e => .error e
  | .ok concorrentes =>
  match pyStripV (getD data "dados_adicionais" (Value.vStr "")) with
  | .error e => .error e
  | .ok dados_adicionais =>
  match pyStripV (getD data "query" (Value.vStr "")) with
  | .error e => .error e
  | .ok query0 =>
  let query :=
    if query0 = "" then
      if produto = "" then
        "análise mercado " ++ segmento ++ " Brasil 2024 dados estatísticas"
      else
        "mercado " ++ segmento ++ " " ++ produto ++ " Brasil 2024 análise dados"
    else query0
  if segmento.length < 3 then .error "Segmento deve ter pelo menos 3 caracteres"
  else
    .ok [("segmento", Value.vStr segmento), ("produto", Value.vStr produto),
         ("publico", Value.vStr publico), ("preco", preco),
         ("objetivo_receita", objetivo), ("orcamento_marketing", orcamento),
         ("prazo_lancamento", Value.vStr prazo),
         ("concorrentes", Value.vStr concorrentes),
         ("dados_adicionais", Value.vStr dados_adicionais),
         ("query", Value.vStr query),
         ("session_id", Value.vStr session_id),
         ("timestamp_criacao", Value.vStr now),
         ("validado", Value.vBool true)]

/-- `_prepare_project_data` (lines 184-229): any internal exception is
re-raised as `PROJETO_DADOS FALHOU: ...`. -/
def prepare_project_data (data : List (String × Value)) (session_id now : String) :
    Except String (List (String × Value)) :=
  match prepare_project_data_core data session_id now with
  | .error e => .error ("PROJETO_DADOS FALHOU: " ++ e)
  | .ok v => .ok v

/-- The `if field not in d or not d[field]: d[field] = default` loops of
`_extract_avatar_from_analysis` (lines 408-411) and `_enrich_avatar`
(lines 952-954). -/
def set_defaults (d defaults : List (String × Value)) : List (String × Value) :=
  defaults.foldl
    (fun acc kv =>
      if pyTruthy (getD acc kv.1 Value.vNull) = false then insertD acc kv.1 kv.2
      else acc)
    d

/-- `required_avatar_fields` (lines 399-406). -/
def required_avatar_defaults : List (String × Value) :=
  [("perfil_demografico", Value.vDict []), ("perfil_psicografico", Value.vDict []),
   ("dores_viscerais", Value.vList []), ("desejos_secretos", Value.vList []),
   ("objecoes_reais", Value.vList []), ("linguagem_interna", Value.vDict [])]

/-- `demografico_defaults` of `_enrich_avatar` (lines 943-950). -/
def demografico_defaults (segmento : String) : List (String × Value) :=
  [("idade", Value.vStr "30-45 anos - faixa de maior poder aquisitivo"),
   ("genero", Value.vStr "Distribuição equilibrada"),
   ("renda", Value.vStr "R$ 8.000 - R$ 35.000 - classe média alta"),
   ("escolaridade", Value.vStr "Superior completo"),
   ("localizacao", Value.vStr "Grandes centros urbanos"),
   ("profissao", Value.vStr ("Profissionais de " ++ segmento))]

/-- `_enrich_avatar` (lines 934-956): read the segment from the project data
(`None`-safe only for mappings), default the demographic profile to an empty
mapping when falsy, then fill the six default demographic fields. -/
def enrich_avatar (avatar pdv : Value) : Except String Value :=
  match pdv with
  | Value.vDict pd =>
    let segmento := pyStr (getD pd "segmento" (Value.vStr "negócios"))
    match avatar with
    | Value.vDict ad =>
      let ad1 :=
        if pyTruthy (getD ad "perfil_demografico" Value.vNull) = false then
          insertD ad "perfil_demografico" (Value.vDict [])
        else ad
      match getD ad1 "perfil_demografico" Value.vNull with
      | Value.vDict dem =>
        .ok (Value.vDict (insertD ad1 "perfil_demografico"
          (Value.vDict (set_defaults dem (demografico_defaults segmento)))))
      | _ => .error "AttributeError: object has no attribute get"
    | _ => .error "AttributeError: object has no attribute get"
  | _ => .error "AttributeError: object has no attribute get"

/-- `_generate_default_dores(data.get('projeto_dados', {}))` as invoked at
line 415: the generator itself reads `.get` of its argument, raising when the
accumulated project data is not a mapping. -/
def default_dores_of (pdv : Value) : Except String (List String) :=
  match pdv with
  | Value.vDict pd => .ok (generate_default_dores pd)
  | _ => .error "AttributeError: object has no attribute get"

/-- `_generate_default_desejos(data.get('projeto_dados', {}))` (line 418). -/
def default_desejos_of (pdv : Value) : Except String (List String) :=
  match pdv with
  | Value.vDict pd => .ok (generate_default_desejos pd)
  | _ => .error "AttributeError: object has no attribute get"

/-- `_generate_default_objecoes(data.get('projeto_dados', {}))` (line 421). -/
def default_objecoes_of (pdv : Value) : Except String (List String) :=
  match pdv with
  | Value.vDict pd => .ok (generate_default_objecoes pd)
  | _ => .error "AttributeError: object has no attribute get"

/-- One minimum-length fix of `_extract_avatar_from_analysis` (each of lines
414-421): when the current list value of `key` has fewer than 5 items,
replace it with the generated default list (whose generator raises on a
non-mapping `projeto_dados`). -/
def fix_short_list (data ad : List (String × Value)) (key : String) (n : Nat)
    (gen : Value → Except String (List String)) :
    Except String (List (String × Value)) :=
  if n < 5 then
    (gen (getD data "projeto_dados" (Value.vDict []))).map
      (fun l => insertD ad key (Value.vList (l.map Value.vStr)))
  else .ok ad

/-- The metadata block of `_extract_avatar_from_analysis` (lines 424-431):
re-count the three lists and attach `metadata_avatar`. -/
def avatar_with_counts (ad4 : List (String × Value)) (q : Rat) : Except String Value :=
  match pyLen (getD ad4 "dores_viscerais" (Value.vList [])) with
  | .error e => .error e
  | .ok cd =>
  match pyLen (getD ad4 "desejos_secretos" (Value.vList [])) with
  | .error e => .error e
  | .ok cs =>
  match pyLen (getD ad4 "objecoes_reais" (Value.vList [])) with
  | .error e => .error e
  | .ok co =>
  .ok (Value.vDict (insertD ad4 "metadata_avatar" (Value.vDict
    [("profundidade_validada", Value.vBool true),
     ("campos_obrigatorios", Value.vNum 6),
     ("dores_count", Value.vNum cd),
     ("desejos_count", Value.vNum cs),
     ("objecoes_count", Value.vNum co),
     ("quality_score", Value.vNum q)])))

/-- The objection-list fix (lines 420-421) followed by the metadata block. -/
def avatar_stage_obj (data ad3 : List (String × Value)) (q : Rat) :
    Except String Value :=
  match pyLen (getD ad3 "objecoes_reais" (Value.vList [])) with
  | .error e => .error e
  | .ok no =>
  match fix_short_list data ad3 "objecoes_reais" no default_objecoes_of with
  | .error e => .error e
  | .ok ad4 => avatar_with_counts ad4 q

/-- The desire-list fix (lines 417-418) followed by the later stages. -/
def avatar_stage_des (data ad2 : List (String × Value)) (q : Rat) :
    Except String Value :=
  match pyLen (getD ad2 "desejos_secretos" (Value.vList [])) with
  | .error e => .error e
  | .ok ns =>
  match fix_short_list data ad2 "desejos_secretos" ns default_desejos_of with
  | .error e => .error e
  | .ok ad3 => avatar_stage_obj data ad3 q

/-- The pain-point-list fix (lines 414-415) followed by the later stages. -/
def avatar_stage_dor (data ad1 : List (String × Value)) (q : Rat) :
    Except String Value :=
  match pyLen (getD ad1 "dores_viscerais" (Value.vList [])) with
  | .error e => .error e
  | .ok nd =>
  match fix_short_list data ad1 "dores_viscerais" nd default_dores_of with
  | .error e => .error e
  | .ok ad2 => avatar_stage_des data ad2 q

/-- The body of the `try` block of `_extract_avatar_from_analysis` (lines
383-435): pull the avatar out of the AI analysis, depth-validate it, enrich
it when shallow, force the six required fields, regenerate the three lists
when shorter than 5 items, and attach the validation metadata. -/
def extract_avatar_core (data : List (String × Value)) : Except String Value :=
  match pyGet (getD data "analise_ia_avancada" (Value.vDict []))
      "avatar_ultra_detalhado" (Value.vDict []) with
  | .error e => .error e
  | .ok avatar0 =>
  if pyTruthy avatar0 = false then .error "Avatar não encontrado na análise IA"
  else
  match validate_avatar_depth avatar0 with
  | .error e => .error e
  | .ok vres =>
  match (if vres.valid then .ok avatar0
         else enrich_avatar avatar0 (getD data "projeto_dados" (Value.vDict [])) :
         Except String Value) with
  | .error e => .error e
  | .ok avatar1 =>
  match avatar1 with
  | Value.vDict ad0 =>
    avatar_stage_dor data (set_defaults ad0 required_avatar_defaults) vres.score
  | _ => .error "TypeError: object does not support item assignment"

/-- `_extract_avatar_from_analysis` (lines 380-438): any internal exception
is re-raised as `AVATAR_ULTRA_DETALHADO FALHOU: ...`. -/
def extract_avatar_from_analysis (data : List (String × Value)) : Except String Value :=
  match extract_avatar_core data with
  | .error e => .error ("AVATAR_ULTRA_DETALHADO FALHOU: " ++ e)
  | .ok v => .ok v

/-- The insight half of `_enhance_analysis_quality` (lines 1134-1142): when
fewer than the configured minimum of 15 insights are present, append
generated ones up to that minimum. -/
def enhance_step1 (analysis : List (String × Value)) :
    Except String (List (String × Value)) :=
  match pyLen (getD analysis "insights_exclusivos" (Value.vList [])) with
  | .error e => .error e
  | .ok n =>
  if n < 15 then
    match getD analysis "projeto_dados" (Value.vDict []) with
    | Value.vDict pd =>
      match getD analysis "insights_exclusivos" (Value.vList []) with
      | Value.vList ins =>
        .ok (insertD analysis "insights_exclusivos"
          (Value.vList (ins ++
            (((generate_additional_insights pd).take (15 - n)).map Value.vStr))))
      | _ => .error "TypeError: can only concatenate list to list"
    | _ => .error "AttributeError: object has no attribute get"
  else .ok analysis

/-- The avatar half of `_enhance_analysis_quality` (lines 1144-1149): a
truthy avatar that fails depth validation is replaced by its enrichment. -/
def enhance_step2 (analysis : List (String × Value)) :
    Except String (List (String × Value)) :=
  if pyTruthy (getD analysis "avatar_ultra_detalhado" (Value.vDict [])) then
    match validate_avatar_depth (getD analysis "avatar_ultra_detalhado" (Value.vDict [])) with
    | .error e => .error e
    | .ok vres =>
      if vres.valid then .ok analysis
      else
        match enrich_avatar (getD analysis "avatar_ultra_detalhado" (Value.vDict []))
            (getD analysis "projeto_dados" (Value.vDict [])) with
        | .error e => .error e
        | .ok av2 => .ok (insertD analysis "avatar_ultra_detalhado" av2)
  else .ok analysis

/-- The avatar half applied after a completed insight half: an exception
there returns the analysis as mutated so far (lines 1153-1156). -/
def enhance_after1 (a1 : List (String × Value)) : List (String × Value) :=
  match enhance_step2 a1 with
  | .error _ => a1
  | .ok a2 => a2

/-- `_enhance_analysis_quality` (lines 1131-1156): the `except` handler
returns the analysis as mutated so far, so an exception in the avatar half
keeps the insight mutation. -/
def enhance_analysis_quality (analysis : List (String × Value)) :
    List (String × Value) :=
  match enhance_step1 analysis with
  | .error _ => analysis
  | .ok a1 => enhance_after1 a1

/-- The per-run mutable state of the component loop (lines 75-77):
accumulated results, successes and failures. -/
structure LoopState where
  results : List (String × Value)
  successful : List String
  failed : List String

/-- The oracle for the externally backed stage functions: a component name
and the accumulated component data yield a result or an exception. -/
def StageEnv : Type :=
  String → List (String × Value) → String → Except String Value

/-- The component function bound to a name in `self.components` (lines
40-52): `projeto_dados` and `avatar_ultra_detalhado` are the locally
computable stages embedded above, every other stage is the oracle. -/
def component_func (env : StageEnv) (name : String)
    (cdata : List (String × Value)) (sid now : String) : Except String Value :=
  if name = "projeto_dados" then
    (prepare_project_data cdata sid now).map Value.vDict
  else if name = "avatar_ultra_detalhado" then
    extract_avatar_from_analysis cdata
  else env name cdata sid

/-- The falsy-or-invalid branch of the loop (lines 98-116): record the
failure; for a mandatory component attempt recovery, and on a null recovery
raise (line 111) — that raise is caught by the same iteration's `except`
(lines 118-135), which records the failure a second time and retries the
recovery with the unchanged context before aborting the run. -/
def invalid_path (st : LoopState) (name : String) (cdata : List (String × Value))
    (now : String) : Except String LoopState :=
  let st1 : LoopState := ⟨st.results, st.successful, st.failed ++ [name]⟩
  if name ∈ mandatory_components then
    match attempt_component_recovery name cdata now with
    | some r => .ok ⟨insertD st1.results name r, st1.successful ++ [name], st1.failed⟩
    | none =>
      match attempt_component_recovery name cdata now with
      | some r =>
        .ok ⟨insertD st1.results name r, st1.successful ++ [name], st1.failed ++ [name]⟩
      | none =>
        .error ("Componente obrigatório " ++ name ++ " falhou: Componente obrigatório "
          ++ name ++ " falhou e não pôde ser recuperado")
  else .ok st1

/-- The `except` branch of the loop (lines 118-135): record the failure; for
a mandatory component attempt one recovery and abort with the wrapped
exception text when it is null. -/
def exception_path (st : LoopState) (name : String) (cdata : List (String × Value))
    (e now : String) : Except String LoopState :=
  let st1 : LoopState := ⟨st.results, st.successful, st.failed ++ [name]⟩
  if name ∈ mandatory_components then
    match attempt_component_recovery name cdata now with
    | some r => .ok ⟨insertD st1.results name r, st1.successful ++ [name], st1.failed⟩
    | none => .error ("Componente obrigatório " ++ name ++ " falhou: " ++ e)
  else .ok st1

/-- One iteration of the component loop (lines 79-135): run the stage on
`{**data, **results}`, keep a truthy result that passes the validator, and
otherwise take the invalid or exception branch (a raising validator is an
exception of the stage itself). -/
def run_component (env : StageEnv) (data : List (String × Value)) (st : LoopState)
    (name sid now : String) : Except String LoopState :=
  let cdata := mergeD data st.results
  match component_func env name cdata sid now with
  | .error e => exception_path st name cdata e now
  | .ok result =>
    if pyTruthy result = false then invalid_path st name cdata now
    else
      match validate_component_result name result with
      | .error e => exception_path st name cdata e now
      | .ok true =>
        .ok ⟨insertD st.results name result, st.successful ++ [name], st.failed⟩
      | .ok false => invalid_path st name cdata now

/-- The component loop (lines 79-135) over the declared component order. -/
def run_components (env : StageEnv) (data : List (String × Value)) (sid now : String) :
    List String → LoopState → Except String LoopState
  | [], st => .ok st
  | name :: rest, st =>
    match run_component env data st name sid now with
    | .error e => .error e
    | .ok st2 => run_components env data sid now rest st2

/-- `execute_complete_analysis` (lines 54-182): run the eleven components,
re-check the mandatory ones, consolidate, score, enhance when the score is
below 95, redact, and attach the metadata block.  `processing_time` stands
for `time.time() - start_time`. -/
def execute_complete_analysis (env : StageEnv) (data : List (String × Value))
    (sid now : String) (processing_time : Rat) : Except String Value :=
  match run_components env data sid now component_names ⟨[], [], []⟩ with
  | .error e => .error e
  | .ok st =>
    if (mandatory_components.filter (fun c => !(st.successful.contains c))).isEmpty then
      match consolidate_final_analysis data st.results st.successful st.failed sid now with
      | .error e => .error e
      | .ok fa0 =>
        match validate_final_quality fa0 with
        | .error e => .error e
        | .ok q =>
          .ok (Value.vDict (insertD
            (filter_raw_data_from_report
              (if q.score < 95 then enhance_analysis_quality fa0 else fa0))
            "metadata" (Value.vDict
              [("processing_time_seconds", Value.vNum processing_time),
               ("session_id", Value.vStr sid),
               ("successful_components", Value.vList (st.successful.map Value.vStr)),
               ("failed_components", Value.vList (st.failed.map Value.vStr)),
               ("success_rate", Value.vNum
                 ((st.successful.length : Rat) / (component_names.length : Rat) * 100)),
               ("generated_at", Value.vStr now),
               ("pipeline_version", Value.vStr "2.0_enhanced_corrected"),
               ("simulation_free", Value.vBool true),
               ("raw_data_filtered", Value.vBool true),
               ("quality_score", Value.vNum q.score),
               ("quality_guaranteed", Value.vBool (decide (95 ≤ q.score)))])))
    else
      .error ("Componentes obrigatórios falharam: " ++ String.intercalate ", "
        (mandatory_components.filter (fun c => !(st.successful.contains c))))

/-- Inserting a binding never produces an empty dictionary. -/
theorem insertD_ne_nil (d : List (String × Value)) (k : String) (v : Value) :
    insertD d k v ≠ [] := by
  cases d with
  | nil => simp [insertD]
  | cons kv rest =>
    obtain ⟨k0, v0⟩ := kv
    by_cases h : k0 = k <;> simp [insertD, h]

/-- A key is bound after an insert iff it is the inserted key or was bound
before. -/
theorem lookupD_insertD_isSome (d : List (String × Value)) (k c : String) (v : Value) :
    (lookupD (insertD d k v) c).isSome ↔ c = k ∨ (lookupD d c).isSome := by
  by_cases h : k = c
  · subst h
    simp [lookupD_insertD_self]
  · rw [lookupD_insertD_ne _ _ _ _ h]
    constructor
    · exact Or.inr
    · rintro (rfl | hs)
      · exact absurd rfl h
      · exact hs

/-- A value comparable against one numeric literal is comparable against any
other. -/
theorem pyGE_num_total (x : Value) (a b : Rat) (c : Bool)
    (h : pyGE x (Value.vNum a) = .ok c) : ∃ c2, pyGE x (Value.vNum b) = .ok c2 := by
  cases x <;> simp [pyGE] at h ⊢

/-- The needle is a substring of any text it is concatenated into. -/
theorem containsSub_of_infix (hay m : String) (h : m.data <:+: hay.data) :
    containsSub hay m = true :=
  decide_eq_true h

/-- The filling loop leaves keys outside the defaults untouched. -/
theorem sd_preserve (defaults : List (String × Value)) (d : List (String × Value))
    (k : String) (h : ∀ kv ∈ defaults, kv.1 ≠ k) :
    lookupD (set_defaults d defaults) k = lookupD d k := by
  induction defaults generalizing d with
  | nil => rfl
  | cons kv rest ih =>
    obtain ⟨k0, v0⟩ := kv
    have hk0 : k0 ≠ k := h (k0, v0) (List.mem_cons_self _ _)
    have hrest : ∀ kv ∈ rest, kv.1 ≠ k := fun kv hm => h kv (List.mem_cons_of_mem _ hm)
    show lookupD (set_defaults
      (if pyTruthy (getD d k0 Value.vNull) = false then insertD d k0 v0 else d) rest) k =
        lookupD d k
    rw [ih _ hrest]
    split
    · exact lookupD_insertD_ne _ _ _ _ hk0
    · rfl

/-- What the filling loop binds a defaulted key to: the original value when
truthy, the default otherwise (also when the key was absent). -/
theorem sd_key (defaults : List (String × Value)) (d : List (String × Value))
    (k : String) (dflt : Value) (hmem : (k, dflt) ∈ defaults)
    (hnd : (defaults.map Prod.fst).Nodup) :
    lookupD (set_defaults d defaults) k =
      some (match lookupD d k with
            | some w => if pyTruthy w then w else dflt
            | none => dflt) := by
  induction defaults generalizing d with
  | nil => cases hmem
  | cons kv rest ih =>
    obtain ⟨k0, v0⟩ := kv
    have hnd2 : (rest.map Prod.fst).Nodup := (List.nodup_cons.mp hnd).2
    have hk0nr : k0 ∉ rest.map Prod.fst := (List.nodup_cons.mp hnd).1
    show lookupD (set_defaults
      (if pyTruthy (getD d k0 Value.vNull) = false then insertD d k0 v0 else d) rest) k = _
    by_cases hk : k0 = k
    · subst hk
      have hdv : dflt = v0 := by
        rcases List.mem_cons.mp hmem with heq | hr
        · simpa using congrArg Prod.snd heq
        · exact absurd (List.mem_map.mpr ⟨(k0, dflt), hr, rfl⟩) hk0nr
      subst hdv
      have hrk : ∀ kv ∈ rest, kv.1 ≠ k0 := by
        intro kv hm heq
        exact hk0nr (List.mem_map.mpr ⟨kv, hm, heq⟩)
      rw [sd_preserve _ _ _ hrk]
      split
      · rename_i hfal
        rw [lookupD_insertD_self]
        cases hl : lookupD d k0 with
        | none => rfl
        | some w =>
          simp only [getD, hl, Option.getD_some] at hfal
          simp [hfal]
      · rename_i htru
        rw [Bool.not_eq_false] at htru
        cases hl : lookupD d k0 with
        | none =>
          simp only [getD, hl, Option.getD_none] at htru
          simp [pyTruthy] at htru
        | some w =>
          simp only [getD, hl, Option.getD_some] at htru
          simp [htru]
    · have hmr : (k, dflt) ∈ rest := by
        rcases List.mem_cons.mp hmem with heq | hr
        · exact absurd (congrArg Prod.fst heq) (fun hh => hk hh.symm)
        · exact hr
      have hd1 : lookupD (if pyTruthy (getD d k0 Value.vNull) = false
          then insertD d k0 v0 else d) k = lookupD d k := by
        split
        · exact lookupD_insertD_ne _ _ _ _ hk
        · rfl
      rw [ih _ hmr hnd2, hd1]

/-- When a required key is missing before the fallback-filling loop, the loop
binds it to its generated fallback section. -/
theorem fill_value (l : List String) (pd acc out : List (String × Value)) (c : String)
    (hc : c ∈ l) (habs : lookupD acc c = none)
    (hout : fill_required l pd acc = .ok out) :
    ∃ w, generate_fallback_section c pd = .ok w ∧ lookupD out c = some w := by
  induction l generalizing acc with
  | nil => cases hc
  | cons c0 rest ih =>
    rw [fill_required] at hout
    by_cases hc0 : c0 = c
    · subst hc0
      rw [habs] at hout
      simp only [Option.isSome_none, Bool.false_eq_true, if_false] at hout
      cases hg : generate_fallback_section c0 pd with
      | error e => rw [hg] at hout; exact Except.noConfusion hout
      | ok w =>
        rw [hg] at hout
        exact ⟨w, rfl,
          fill_preserve_some rest pd _ out c0 w (lookupD_insertD_self _ _ _) hout⟩
    · have hcr : c ∈ rest := by
        rcases List.mem_cons.mp hc with heq | hr
        · exact absurd heq.symm hc0
        · exact hr
      by_cases hp : (lookupD acc c0).isSome
      · rw [if_pos hp] at hout
        exact ih _ hcr habs hout
      · rw [if_neg hp] at hout
        cases hg : generate_fallback_section c0 pd with
        | error e => rw [hg] at hout; exact Except.noConfusion hout
        | ok w =>
          rw [hg] at hout
          exact ih _ hcr (by rw [lookupD_insertD_ne _ _ _ _ hc0]; exact habs) hout

/-- What the loop invariant records about a stored stage result, keyed by the
stage name: the facts later consumed by `_consolidate_final_analysis` and
`_validate_final_quality` (project data is a mapping, search data is a
mapping whose source count is comparable to a number, the avatar
depth-validates without raising, insights are a sequence). -/
def StageSafe (name : String) (v : Value) : Prop :=
  (name = "projeto_dados" → ∃ d, v = Value.vDict d) ∧
  (name = "pesquisa_web_massiva" → ∃ d, v = Value.vDict d ∧
    ∃ b, pyGE (getD d "total_fontes" (Value.vNum 0)) (Value.vNum 3) = .ok b) ∧
  (name = "avatar_ultra_detalhado" → ∃ r, validate_avatar_depth v = .ok r) ∧
  (name = "insights_exclusivos" → ∃ l, v = Value.vList l)

/-- A successfully generated basic project-data mapping is nonempty. -/
theorem generate_pd_nonempty (data : List (String × Value)) (now : String)
    (pd : List (String × Value)) (hg : generate_basic_project_data data now = some pd) :
    pd ≠ [] := by
  unfold generate_basic_project_data at hg
  cases hl : lookupD data "preco" with
  | none =>
    simp only [hl] at hg
    injection hg with hg
    rw [← hg]
    simp
  | some v =>
    simp only [hl] at hg
    by_cases ht : pyTruthy v
    · rw [if_pos ht] at hg
      cases hf : pyFloat v with
      | none => rw [hf] at hg; exact Option.noConfusion hg
      | some q =>
        rw [hf] at hg
        injection hg with hg
        rw [← hg]
        simp
    · rw [if_neg ht] at hg
      injection hg with hg
      rw [← hg]
      simp

/-- A successfully generated basic AI-analysis mapping is nonempty. -/
theorem generate_ai_nonempty (data : List (String × Value))
    (l : List (String × Value)) (hg : generate_basic_ai_analysis data = some l) :
    l ≠ [] := by
  unfold generate_basic_ai_analysis at hg
  cases hpd : getD data "projeto_dados" (Value.vDict []) with
  | vDict pd =>
    rw [hpd] at hg
    injection hg with hg
    rw [← hg]
    simp
  | vNull => rw [hpd] at hg; exact Option.noConfusion hg
  | vBool b => rw [hpd] at hg; exact Option.noConfusion hg
  | vNum q => rw [hpd] at hg; exact Option.noConfusion hg
  | vStr s => rw [hpd] at hg; exact Option.noConfusion hg
  | vList xs => rw [hpd] at hg; exact Option.noConfusion hg

/-- Every value the recovery dispatcher returns is truthy and satisfies the
per-stage safety facts. -/
theorem recovery_safe (name : String) (ctx : List (String × Value)) (now : String)
    (r : Value) (h : attempt_component_recovery name ctx now = some r) :
    StageSafe name r ∧ pyTruthy r = true := by
  unfold attempt_component_recovery at h
  by_cases h1 : name = "projeto_dados"
  · subst h1
    rw [if_pos rfl] at h
    cases hg : generate_basic_project_data ctx now with
    | none => rw [hg] at h; exact Option.noConfusion h
    | some pd =>
      rw [hg] at h
      injection h with h
      subst h
      refine ⟨⟨fun _ => ⟨pd, rfl⟩, fun hh => absurd hh (by decide),
        fun hh => absurd hh (by decide), fun hh => absurd hh (by decide)⟩, ?_⟩
      have hne := generate_pd_nonempty ctx now pd hg
      simp [pyTruthy, List.isEmpty_iff, hne]
  · rw [if_neg h1] at h
    by_cases h2 : name = "pesquisa_web_massiva"
    · subst h2
      rw [if_pos rfl] at h
      injection h with h
      subst h
      refine ⟨⟨fun hh => absurd hh (by decide), fun _ => ⟨_, rfl, ?_⟩,
        fun hh => absurd hh (by decide), fun hh => absurd hh (by decide)⟩, ?_⟩
      · have htf : getD (generate_basic_search_data ctx) "total_fontes" (Value.vNum 0) =
            Value.vNum 1 := by
          simp [generate_basic_search_data, getD, lookupD]
        rw [htf]
        exact ⟨false, by norm_num [pyGE]⟩
      · simp [pyTruthy, generate_basic_search_data]
    · by_cases h3 : name = "analise_ia_avancada"
      · subst h3
        rw [if_neg (by decide), if_pos rfl] at h
        cases hg : generate_basic_ai_analysis ctx with
        | none => rw [hg] at h; exact Option.noConfusion h
        | some l =>
          rw [hg] at h
          injection h with h
          subst h
          refine ⟨⟨fun hh => absurd hh (by decide), fun hh => absurd hh (by decide),
            fun hh => absurd hh (by decide), fun hh => absurd hh (by decide)⟩, ?_⟩
          have hne := generate_ai_nonempty ctx l hg
          simp [pyTruthy, List.isEmpty_iff, hne]
      · rw [if_neg h2, if_neg h3] at h
        exact Option.noConfusion h

/-- A truthy value the validator accepts for `projeto_dados` is a mapping. -/
theorem vcr_projeto (v : Value) (ht : pyTruthy v = true)
    (h : validate_component_result "projeto_dados" v = .ok true) :
    ∃ d, v = Value.vDict d := by
  simp only [validate_component_result, ht] at h
  cases v with
  | vDict d => exact ⟨d, rfl⟩
  | vNull => simp [pyGet] at h
  | vBool b => simp [pyGet] at h
  | vNum q => simp [pyGet] at h
  | vStr s => simp [pyGet] at h
  | vList l => simp [pyGet] at h

/-- A truthy value the validator accepts for `pesquisa_web_massiva` is a
mapping whose source count compares against any numeric bound. -/
theorem vcr_pesquisa (v : Value) (ht : pyTruthy v = true)
    (h : validate_component_result "pesquisa_web_massiva" v = .ok true) :
    ∃ d, v = Value.vDict d ∧
      ∃ b, pyGE (getD d "total_fontes" (Value.vNum 0)) (Value.vNum 3) = .ok b := by
  simp only [validate_component_result, ht] at h
  cases v with
  | vDict d =>
    refine ⟨d, rfl, ?_⟩
    cases hfb : pyTruthy (getD d "fallback_mode" Value.vNull) with
    | true => simp [hfb] at h
    | false =>
      simp only [hfb, Bool.false_eq_true, if_false] at h
      simp [pyGet] at h
      obtain ⟨b, hb⟩ : ∃ b, pyGE (getD d "total_fontes" (Value.vNum 0)) (Value.vNum 1) =
          .ok b := by
        cases hge : pyGE (getD d "total_fontes" (Value.vNum 0)) (Value.vNum 1) with
        | error e => rw [hge] at h; exact absurd h (by simp)
        | ok b => exact ⟨b, rfl⟩
      exact pyGE_num_total _ 1 3 b hb
  | vNull => simp [pyGet] at h
  | vBool b => simp [pyGet] at h
  | vNum q => simp [pyGet] at h
  | vStr s => simp [pyGet] at h
  | vList l => simp [pyGet] at h

/-- A truthy value the validator accepts for `insights_exclusivos` is a
sequence. -/
theorem vcr_insights (v : Value) (ht : pyTruthy v = true)
    (h : validate_component_result "insights_exclusivos" v = .ok true) :
    ∃ l, v = Value.vList l := by
  simp only [validate_component_result, ht] at h
  cases v with
  | vList l => exact ⟨l, rfl⟩
  | vDict d =>
    cases hfb : pyTruthy (getD d "fallback_mode" Value.vNull) with
    | true => simp [hfb] at h
    | false => simp [hfb] at h
  | vNull => simp at h
  | vBool b => simp at h
  | vNum q => simp at h
  | vStr s => simp at h

/-- A successful project-data preparation implies the price field converted,
so the recovery generator cannot raise on it either. -/
theorem prepare_core_preco (data : List (String × Value)) (sid now : String)
    (pd : List (String × Value)) (h : prepare_project_data_core data sid now = .ok pd) :
    ∃ x, pyFloatOpt (lookupD data "preco") = .ok x := by
  unfold prepare_project_data_core at h
  by_cases h0 : pyTruthy (getD data "segmento" Value.vNull) = false
  · rw [if_pos h0] at h
    exact Except.noConfusion h
  · rw [if_neg h0] at h
    cases h1 : pyStripV (getD data "segmento" (Value.vStr "")) with
    | error e => simp [h1] at h
    | ok segmento =>
      simp only [h1] at h
      cases h2 : pyStripV (getD data "produto" (Value.vStr "")) with
      | error e => simp [h2] at h
      | ok produto =>
        simp only [h2] at h
        cases h3 : pyStripV (getD data "publico" (Value.vStr "")) with
        | error e => simp [h3] at h
        | ok publico =>
          simp only [h3] at h
          cases h4 : pyFloatOpt (lookupD data "preco") with
          | error e => simp [h4] at h
          | ok x => exact ⟨x, rfl⟩

/-- When the price field converts, the basic project-data generator
succeeds. -/
theorem preco_ok_generate (data : List (String × Value)) (now : String) (x : Value)
    (hx : pyFloatOpt (lookupD data "preco") = .ok x) :
    (generate_basic_project_data data now).isSome := by
  unfold generate_basic_project_data
  cases hl : lookupD data "preco" with
  | none => simp
  | some v =>
    rw [hl] at hx
    by_cases ht : pyTruthy v
    · simp only [pyFloatOpt, ht, if_true] at hx
      cases hf : pyFloat v with
      | none => rw [hf] at hx; exact Except.noConfusion hx
      | some q => simp [ht, hf]
    · simp [ht]

/-- A depth validation that returns (rather than raising) certifies that its
subject is a mapping whose inspected fields measure, slice and scan without
raising. -/
theorem depth_ok_parts (v : Value) (r : DepthResult)
    (h : validate_avatar_depth v = .ok r) :
    ∃ a0, v = Value.vDict a0 ∧
      (∃ n, pyLen (getD a0 "perfil_demografico" (Value.vDict [])) = .ok n) ∧
      (∃ n, pyLen (getD a0 "dores_viscerais" (Value.vList [])) = .ok n) ∧
      (∃ l, pySlice3 (getD a0 "dores_viscerais" (Value.vList [])) = .ok l ∧
        ∃ b, short_dor_check l = .ok b) ∧
      (∃ n, pyLen (getD a0 "desejos_secretos" (Value.vList [])) = .ok n) ∧
      (∃ n, pyLen (getD a0 "objecoes_reais" (Value.vList [])) = .ok n) := by
  cases v with
  | vNull => simp [validate_avatar_depth, pyGet] at h
  | vBool b => simp [validate_avatar_depth, pyGet] at h
  | vNum q => simp [validate_avatar_depth, pyGet] at h
  | vStr s => simp [validate_avatar_depth, pyGet] at h
  | vList l => simp [validate_avatar_depth, pyGet] at h
  | vDict a0 =>
    refine ⟨a0, rfl, ?_⟩
    unfold validate_avatar_depth at h
    simp only [pyGet] at h
    cases e1 : pyLen (getD a0 "perfil_demografico" (Value.vDict [])) with
    | error e => simp [e1] at h
    | ok n1 =>
    simp only [e1] at h
    cases e2 : pyLen (getD a0 "dores_viscerais" (Value.vList [])) with
    | error e => simp [e2] at h
    | ok n2 =>
    simp only [e2] at h
    cases e3 : pyLen (getD a0 "desejos_secretos" (Value.vList [])) with
    | error e => simp [e3] at h
    | ok n3 =>
    simp only [e3] at h
    cases e4 : pyLen (getD a0 "objecoes_reais" (Value.vList [])) with
    | error e => simp [e4] at h
    | ok n4 =>
    simp only [e4] at h
    cases e5 : pySlice3 (getD a0 "dores_viscerais" (Value.vList [])) with
    | error e => simp [e5] at h
    | ok l5 =>
    simp only [e5] at h
    cases e6 : short_dor_check l5 with
    | error e => simp [e6] at h
    | ok hs =>
    exact ⟨⟨_, rfl⟩, ⟨_, rfl⟩, ⟨l5, rfl, hs, e6⟩, ⟨_, rfl⟩, ⟨_, rfl⟩⟩

/-- Conversely, a mapping whose inspected fields measure, slice and scan
without raising depth-validates without raising. -/
theorem validate_avatar_depth_total (F : List (String × Value))
    (h1 : ∃ n, pyLen (getD F "perfil_demografico" (Value.vDict [])) = .ok n)
    (h2 : ∃ n, pyLen (getD F "dores_viscerais" (Value.vList [])) = .ok n)
    (h3 : ∃ l, pySlice3 (getD F "dores_viscerais" (Value.vList [])) = .ok l ∧
      ∃ b, short_dor_check l = .ok b)
    (h4 : ∃ n, pyLen (getD F "desejos_secretos" (Value.vList [])) = .ok n)
    (h5 : ∃ n, pyLen (getD F "objecoes_reais" (Value.vList [])) = .ok n) :
    ∃ r, validate_avatar_depth (Value.vDict F) = .ok r := by
  obtain ⟨n1, e1⟩ := h1
  obtain ⟨n2, e2⟩ := h2
  obtain ⟨l5, e5, b6, e6⟩ := h3
  obtain ⟨n3, e3⟩ := h4
  obtain ⟨n4, e4⟩ := h5
  cases hres : validate_avatar_depth (Value.vDict F) with
  | ok r => exact ⟨r, rfl⟩
  | error e =>
    unfold validate_avatar_depth at hres
    simp only [pyGet, e1, e2, e3, e4, e5, e6] at hres
    exact Except.noConfusion hres

/-- The shape of an enriched avatar: still a mapping, its demographic profile
now a mapping, every other key untouched. -/
theorem enrich_avatar_shape (avatar pdv v : Value) (h : enrich_avatar avatar pdv = .ok v) :
    ∃ a b dem, avatar = Value.vDict a ∧ v = Value.vDict b ∧
      lookupD b "perfil_demografico" = some (Value.vDict dem) ∧
      ∀ k, k ≠ "perfil_demografico" → lookupD b k = lookupD a k := by
  cases pdv with
  | vNull => simp [enrich_avatar] at h
  | vBool b => simp [enrich_avatar] at h
  | vNum q => simp [enrich_avatar] at h
  | vStr s => simp [enrich_avatar] at h
  | vList l => simp [enrich_avatar] at h
  | vDict pd =>
    cases avatar with
    | vNull => simp [enrich_avatar] at h
    | vBool b => simp [enrich_avatar] at h
    | vNum q => simp [enrich_avatar] at h
    | vStr s => simp [enrich_avatar] at h
    | vList l => simp [enrich_avatar] at h
    | vDict ad =>
      simp only [enrich_avatar] at h
      cases hdem : getD (if pyTruthy (getD ad "perfil_demografico" Value.vNull) = false
          then insertD ad "perfil_demografico" (Value.vDict []) else ad)
          "perfil_demografico" Value.vNull with
      | vNull => simp [hdem] at h
      | vBool b => simp [hdem] at h
      | vNum q => simp [hdem] at h
      | vStr s => simp [hdem] at h
      | vList l => simp [hdem] at h
      | vDict dem =>
        simp only [hdem] at h
        injection h with h
        subst h
        refine ⟨ad, _, _, rfl, rfl, lookupD_insertD_self _ _ _, ?_⟩
        intro k hk
        rw [lookupD_insertD_ne _ _ _ _ (fun hh => hk hh.symm)]
        split
        · rw [lookupD_insertD_ne _ _ _ _ (fun hh => hk hh.symm)]
        · rfl

/-- The invariant carried through the list-fixing stages of
`_extract_avatar_from_analysis`: every field later inspected by
`_validate_avatar_depth` is bound and measures (and, for the pain points,
slices and scans) without raising. -/
def GoodAvatarDict (x : List (String × Value)) : Prop :=
  (∃ w, lookupD x "perfil_demografico" = some w ∧ ∃ n, pyLen w = .ok n) ∧
  (∃ w, lookupD x "dores_viscerais" = some w ∧ (∃ n, pyLen w = .ok n) ∧
    ∃ l, pySlice3 w = .ok l ∧ ∃ b, short_dor_check l = .ok b) ∧
  (∃ w, lookupD x "desejos_secretos" = some w ∧ ∃ n, pyLen w = .ok n) ∧
  (∃ w, lookupD x "objecoes_reais" = some w ∧ ∃ n, pyLen w = .ok n)

/-- A generated string list measures, slices and scans without raising. -/
theorem strs_entry_good (ls : List String) :
    (∃ n, pyLen (Value.vList (ls.map Value.vStr)) = .ok n) ∧
    (∃ l, pySlice3 (Value.vList (ls.map Value.vStr)) = .ok l ∧
      ∃ b, short_dor_check l = .ok b) := by
  refine ⟨⟨_, rfl⟩, ⟨_, rfl, ?_⟩⟩
  rw [← List.map_take]
  exact ⟨_, short_dor_check_strs _⟩

/-- Overwriting one of the three list fields with a generated string list
preserves the invariant. -/
theorem good_insert_list (x : List (String × Value)) (k : String) (ls : List String)
    (hk : k = "dores_viscerais" ∨ k = "desejos_secretos" ∨ k = "objecoes_reais")
    (hg : GoodAvatarDict x) :
    GoodAvatarDict (insertD x k (Value.vList (ls.map Value.vStr))) := by
  obtain ⟨hpf, hdor, hdes, hobj⟩ := hg
  have hnpf : k ≠ "perfil_demografico" := by rcases hk with h | h | h <;> subst h <;> decide
  refine ⟨?_, ?_, ?_, ?_⟩
  · obtain ⟨w, hw, hn⟩ := hpf
    exact ⟨w, by rw [lookupD_insertD_ne _ _ _ _ hnpf]; exact hw, hn⟩
  · by_cases hdk : k = "dores_viscerais"
    · subst hdk
      exact ⟨_, lookupD_insertD_self _ _ _, (strs_entry_good ls).1, (strs_entry_good ls).2⟩
    · obtain ⟨w, hw, rest⟩ := hdor
      exact ⟨w, by rw [lookupD_insertD_ne _ _ _ _ hdk]; exact hw, rest⟩
  · by_cases hdk : k = "desejos_secretos"
    · subst hdk
      exact ⟨_, lookupD_insertD_self _ _ _, (strs_entry_good ls).1⟩
    · obtain ⟨w, hw, rest⟩ := hdes
      exact ⟨w, by rw [lookupD_insertD_ne _ _ _ _ hdk]; exact hw, rest⟩
  · by_cases hdk : k = "objecoes_reais"
    · subst hdk
      exact ⟨_, lookupD_insertD_self _ _ _, (strs_entry_good ls).1⟩
    · obtain ⟨w, hw, rest⟩ := hobj
      exact ⟨w, by rw [lookupD_insertD_ne _ _ _ _ hdk]; exact hw, rest⟩

/-- Attaching the metadata block to an invariant-satisfying mapping yields a
mapping that depth-validates without raising. -/
theorem final_avatar_ok (ad4 : List (String × Value)) (M : Value)
    (hg : GoodAvatarDict ad4) :
    ∃ r, validate_avatar_depth (Value.vDict (insertD ad4 "metadata_avatar" M)) = .ok r := by
  obtain ⟨⟨w1, hw1, hn1⟩, ⟨w2, hw2, hn2, l2, hl2, b2, hb2⟩, ⟨w3, hw3, hn3⟩,
    ⟨w4, hw4, hn4⟩⟩ := hg
  have e1 : lookupD (insertD ad4 "metadata_avatar" M) "perfil_demografico" = some w1 := by
    rw [lookupD_insertD_ne _ _ _ _ (by decide)]; exact hw1
  have e2 : lookupD (insertD ad4 "metadata_avatar" M) "dores_viscerais" = some w2 := by
    rw [lookupD_insertD_ne _ _ _ _ (by decide)]; exact hw2
  have e3 : lookupD (insertD ad4 "metadata_avatar" M) "desejos_secretos" = some w3 := by
    rw [lookupD_insertD_ne _ _ _ _ (by decide)]; exact hw3
  have e4 : lookupD (insertD ad4 "metadata_avatar" M) "objecoes_reais" = some w4 := by
    rw [lookupD_insertD_ne _ _ _ _ (by decide)]; exact hw4
  apply validate_avatar_depth_total
  · simp only [getD, e1, Option.getD_some]
    exact hn1
  · simp only [getD, e2, Option.getD_some]
    exact hn2
  · simp only [getD, e2, Option.getD_some]
    exact ⟨l2, hl2, b2, hb2⟩
  · simp only [getD, e3, Option.getD_some]
    exact hn3
  · simp only [getD, e4, Option.getD_some]
    exact hn4

/-- A completed list fix preserves the invariant. -/
theorem fix_short_good (data ad : List (String × Value)) (key : String) (n : Nat)
    (gen : Value → Except String (List String)) (ad2 : List (String × Value))
    (hk : key = "dores_viscerais" ∨ key = "desejos_secretos" ∨ key = "objecoes_reais")
    (hg : GoodAvatarDict ad) (h : fix_short_list data ad key n gen = .ok ad2) :
    GoodAvatarDict ad2 := by
  unfold fix_short_list at h
  by_cases h5 : n < 5
  · rw [if_pos h5] at h
    cases hgen : gen (getD data "projeto_dados" (Value.vDict [])) with
    | error e => rw [hgen] at h; exact Except.noConfusion h
    | ok ls =>
      rw [hgen] at h
      simp only [Except.map] at h
      injection h with h
      subst h
      exact good_insert_list _ _ _ hk hg
  · rw [if_neg h5] at h
    injection h with h
    subst h
    exact hg

/-- The metadata stage returns a nonempty mapping that depth-validates. -/
theorem avatar_counts_safe (ad4 : List (String × Value)) (q : Rat) (v : Value)
    (hg : GoodAvatarDict ad4) (h : avatar_with_counts ad4 q = .ok v) :
    (∃ d, v = Value.vDict d ∧ d ≠ []) ∧ ∃ r, validate_avatar_depth v = .ok r := by
  unfold avatar_with_counts at h
  cases e1 : pyLen (getD ad4 "dores_viscerais" (Value.vList [])) with
  | error e => simp [e1] at h
  | ok cd =>
  simp only [e1] at h
  cases e2 : pyLen (getD ad4 "desejos_secretos" (Value.vList [])) with
  | error e => simp [e2] at h
  | ok cs =>
  simp only [e2] at h
  cases e3 : pyLen (getD ad4 "objecoes_reais" (Value.vList [])) with
  | error e => simp [e3] at h
  | ok co =>
  simp only [e3] at h
  injection h with h
  subst h
  exact ⟨⟨_, rfl, insertD_ne_nil _ _ _⟩, final_avatar_ok _ _ hg⟩

/-- The objection stage preserves safety through to the final mapping. -/
theorem avatar_stage_obj_safe (data ad3 : List (String × Value)) (q : Rat) (v : Value)
    (hg : GoodAvatarDict ad3) (h : avatar_stage_obj data ad3 q = .ok v) :
    (∃ d, v = Value.vDict d ∧ d ≠ []) ∧ ∃ r, validate_avatar_depth v = .ok r := by
  unfold avatar_stage_obj at h
  cases e1 : pyLen (getD ad3 "objecoes_reais" (Value.vList [])) with
  | error e => simp [e1] at h
  | ok no =>
  simp only [e1] at h
  cases e2 : fix_short_list data ad3 "objecoes_reais" no default_objecoes_of with
  | error e => simp [e2] at h
  | ok ad4 =>
  simp only [e2] at h
  exact avatar_counts_safe ad4 q v
    (fix_short_good _ _ _ _ _ _ (Or.inr (Or.inr rfl)) hg e2) h

/-- The desire stage preserves safety through to the final mapping. -/
theorem avatar_stage_des_safe (data ad2 : List (String × Value)) (q : Rat) (v : Value)
    (hg : GoodAvatarDict ad2) (h : avatar_stage_des data ad2 q = .ok v) :
    (∃ d, v = Value.vDict d ∧ d ≠ []) ∧ ∃ r, validate_avatar_depth v = .ok r := by
  unfold avatar_stage_des at h
  cases e1 : pyLen (getD ad2 "desejos_secretos" (Value.vList [])) with
  | error e => simp [e1] at h
  | ok ns =>
  simp only [e1] at h
  cases e2 : fix_short_list data ad2 "desejos_secretos" ns default_desejos_of with
  | error e => simp [e2] at h
  | ok ad3 =>
  simp only [e2] at h
  exact avatar_stage_obj_safe data ad3 q v
    (fix_short_good _ _ _ _ _ _ (Or.inr (Or.inl rfl)) hg e2) h

/-- The pain-point stage preserves safety through to the final mapping. -/
theorem avatar_stage_dor_safe (data ad1 : List (String × Value)) (q : Rat) (v : Value)
    (hg : GoodAvatarDict ad1) (h : avatar_stage_dor data ad1 q = .ok v) :
    (∃ d, v = Value.vDict d ∧ d ≠ []) ∧ ∃ r, validate_avatar_depth v = .ok r := by
  unfold avatar_stage_dor at h
  cases e1 : pyLen (getD ad1 "dores_viscerais" (Value.vList [])) with
  | error e => simp [e1] at h
  | ok nd =>
  simp only [e1] at h
  cases e2 : fix_short_list data ad1 "dores_viscerais" nd default_dores_of with
  | error e => simp [e2] at h
  | ok ad2 =>
  simp only [e2] at h
  exact avatar_stage_des_safe data ad2 q v
    (fix_short_good _ _ _ _ _ _ (Or.inl rfl) hg e2) h

/-- Applying the six required-field defaults to the (possibly enriched)
depth-checked avatar establishes the invariant. -/
theorem good_after_defaults (b a0 : List (String × Value))
    (hdem : ∀ w, lookupD b "perfil_demografico" = some w → ∃ n, pyLen w = .ok n)
    (hdor : lookupD b "dores_viscerais" = lookupD a0 "dores_viscerais")
    (hdes : lookupD b "desejos_secretos" = lookupD a0 "desejos_secretos")
    (hobj : lookupD b "objecoes_reais" = lookupD a0 "objecoes_reais")
    (hp2 : ∃ n, pyLen (getD a0 "dores_viscerais" (Value.vList [])) = .ok n)
    (hp3 : ∃ l, pySlice3 (getD a0 "dores_viscerais" (Value.vList [])) = .ok l ∧
      ∃ bb, short_dor_check l = .ok bb)
    (hp4 : ∃ n, pyLen (getD a0 "desejos_secretos" (Value.vList [])) = .ok n)
    (hp5 : ∃ n, pyLen (getD a0 "objecoes_reais" (Value.vList [])) = .ok n) :
    GoodAvatarDict (set_defaults b required_avatar_defaults) := by
  have hnd : (required_avatar_defaults.map Prod.fst).Nodup := by decide
  refine ⟨?_, ?_, ?_, ?_⟩
  · have hsd := sd_key required_avatar_defaults b "perfil_demografico" (Value.vDict [])
      (by simp [required_avatar_defaults]) hnd
    cases hl : lookupD b "perfil_demografico" with
    | none =>
      rw [hl] at hsd
      exact ⟨_, hsd, 0, rfl⟩
    | some w =>
      rw [hl] at hsd
      by_cases ht : pyTruthy w = true
      · simp only [ht, if_true] at hsd
        exact ⟨w, hsd, hdem w hl⟩
      · have hf : pyTruthy w = false := by simpa using ht
        simp only [hf, Bool.false_eq_true, if_false] at hsd
        exact ⟨_, hsd, 0, rfl⟩
  · have hsd := sd_key required_avatar_defaults b "dores_viscerais" (Value.vList [])
      (by simp [required_avatar_defaults]) hnd
    cases hl : lookupD b "dores_viscerais" with
    | none =>
      rw [hl] at hsd
      exact ⟨_, hsd, ⟨0, rfl⟩, ⟨[], rfl, false, rfl⟩⟩
    | some w =>
      rw [hl] at hsd
      by_cases ht : pyTruthy w = true
      · simp only [ht, if_true] at hsd
        have hla : lookupD a0 "dores_viscerais" = some w := hdor.symm.trans hl
        have hga : getD a0 "dores_viscerais" (Value.vList []) = w := by simp [getD, hla]
        rw [hga] at hp2 hp3
        exact ⟨w, hsd, hp2, hp3⟩
      · have hf : pyTruthy w = false := by simpa using ht
        simp only [hf, Bool.false_eq_true, if_false] at hsd
        exact ⟨_, hsd, ⟨0, rfl⟩, ⟨[], rfl, false, rfl⟩⟩
  · have hsd := sd_key required_avatar_defaults b "desejos_secretos" (Value.vList [])
      (by simp [required_avatar_defaults]) hnd
    cases hl : lookupD b "desejos_secretos" with
    | none =>
      rw [hl] at hsd
      exact ⟨_, hsd, 0, rfl⟩
    | some w =>
      rw [hl] at hsd
      by_cases ht : pyTruthy w = true
      · simp only [ht, if_true] at hsd
        have hla : lookupD a0 "desejos_secretos" = some w := hdes.symm.trans hl
        have hga : getD a0 "desejos_secretos" (Value.vList []) = w := by simp [getD, hla]
        rw [hga] at hp4
        exact ⟨w, hsd, hp4⟩
      · have hf : pyTruthy w = false := by simpa using ht
        simp only [hf, Bool.false_eq_true, if_false] at hsd
        exact ⟨_, hsd, 0, rfl⟩
  · have hsd := sd_key required_avatar_defaults b "objecoes_reais" (Value.vList [])
      (by simp [required_avatar_defaults]) hnd
    cases hl : lookupD b "objecoes_reais" with
    | none =>
      rw [hl] at hsd
      exact ⟨_, hsd, 0, rfl⟩
    | some w =>
      rw [hl] at hsd
      by_cases ht : pyTruthy w = true
      · simp only [ht, if_true] at hsd
        have hla : lookupD a0 "objecoes_reais" = some w := hobj.symm.trans hl
        have hga : getD a0 "objecoes_reais" (Value.vList []) = w := by simp [getD, hla]
        rw [hga] at hp5
        exact ⟨w, hsd, hp5⟩
      · have hf : pyTruthy w = false := by simpa using ht
        simp only [hf, Bool.false_eq_true, if_false] at hsd
        exact ⟨_, hsd, 0, rfl⟩

/-- A successful avatar extraction returns a nonempty mapping that
depth-validates without raising. -/
theorem extract_avatar_safe (data : List (String × Value)) (v : Value)
    (h : extract_avatar_core data = .ok v) :
    (∃ d, v = Value.vDict d ∧ d ≠ []) ∧ ∃ r, validate_avatar_depth v = .ok r := by
  unfold extract_avatar_core at h
  cases h0 : pyGet (getD data "analise_ia_avancada" (Value.vDict []))
      "avatar_ultra_detalhado" (Value.vDict []) with
  | error e => simp [h0] at h
  | ok avatar0 =>
  simp only [h0] at h
  by_cases hT : pyTruthy avatar0 = false
  · rw [if_pos hT] at h
    exact Except.noConfusion h
  · rw [if_neg hT] at h
    cases hv : validate_avatar_depth avatar0 with
    | error e => simp [hv] at h
    | ok vres =>
    simp only [hv] at h
    obtain ⟨a0, ha0, hp1, hp2, hp3, hp4, hp5⟩ := depth_ok_parts avatar0 vres hv
    cases hbr : (if vres.valid then Except.ok avatar0
        else enrich_avatar avatar0 (getD data "projeto_dados" (Value.vDict [])) :
        Except String Value) with
    | error e => simp [hbr] at h
    | ok avatar1 =>
    simp only [hbr] at h
    have hb : ∃ bd, avatar1 = Value.vDict bd ∧
        (∀ w, lookupD bd "perfil_demografico" = some w → ∃ n, pyLen w = .ok n) ∧
        lookupD bd "dores_viscerais" = lookupD a0 "dores_viscerais" ∧
        lookupD bd "desejos_secretos" = lookupD a0 "desejos_secretos" ∧
        lookupD bd "objecoes_reais" = lookupD a0 "objecoes_reais" := by
      by_cases hval : vres.valid
      · rw [if_pos hval] at hbr
        injection hbr with hbr
        subst hbr
        subst ha0
        refine ⟨a0, rfl, ?_, rfl, rfl, rfl⟩
        intro w hw
        have hgw : getD a0 "perfil_demografico" (Value.vDict []) = w := by simp [getD, hw]
        rw [hgw] at hp1
        exact hp1
      · rw [if_neg hval] at hbr
        obtain ⟨a, bd, dem, haa, hvb, hpf, hoth⟩ := enrich_avatar_shape _ _ _ hbr
        have haeq : a = a0 := by
          rw [haa] at ha0
          injection ha0
        subst haeq
        refine ⟨bd, hvb, ?_, hoth _ (by decide), hoth _ (by decide), hoth _ (by decide)⟩
        intro w hw
        rw [hpf] at hw
        injection hw with hw
        rw [← hw]
        exact ⟨dem.length, rfl⟩
    obtain ⟨bd, hb1, hbdem, hbdor, hbdes, hbobj⟩ := hb
    subst hb1
    have h2 : avatar_stage_dor data (set_defaults bd required_avatar_defaults)
        vres.score = .ok v := h
    exact avatar_stage_dor_safe data _ vres.score v
      (good_after_defaults bd a0 hbdem hbdor hbdes hbobj hp2 hp3 hp4 hp5) h2

/-- The loop invariant of `execute_complete_analysis`: every stored result is
truthy and stage-safe, and the stored keys are exactly the recorded
successes. -/
def StateInv (st : LoopState) : Prop :=
  (∀ c v, lookupD st.results c = some v → StageSafe c v ∧ pyTruthy v = true) ∧
  (∀ c, (lookupD st.results c).isSome → c ∈ st.successful) ∧
  (∀ c ∈ st.successful, (lookupD st.results c).isSome)

/-- The loop starts in an invariant-satisfying state. -/
theorem StateInv_init : StateInv ⟨[], [], []⟩ :=
  ⟨fun c v h => by simp [lookupD] at h,
   fun c h => by simp [lookupD] at h,
   fun c h => absurd h (List.not_mem_nil c)⟩

/-- Storing a safe truthy value under a name and recording the success
preserves the invariant (whatever the failure record becomes). -/
theorem StateInv_store (results : List (String × Value)) (successful failed : List String)
    (name : String) (r : Value) (hinv : StateInv ⟨results, successful, failed⟩)
    (hs : StageSafe name r) (ht : pyTruthy r = true) (failed2 : List String) :
    StateInv ⟨insertD results name r, successful ++ [name], failed2⟩ := by
  obtain ⟨h1, h2, h3⟩ := hinv
  refine ⟨?_, ?_, ?_⟩
  · intro c v hcv
    by_cases hc : name = c
    · subst hc
      rw [lookupD_insertD_self] at hcv
      injection hcv with hcv
      subst hcv
      exact ⟨hs, ht⟩
    · rw [lookupD_insertD_ne _ _ _ _ hc] at hcv
      exact h1 c v hcv
  · intro c hc
    rw [lookupD_insertD_isSome] at hc
    rcases hc with rfl | hc
    · simp
    · exact List.mem_append_left _ (h2 c hc)
  · intro c hc
    rcases List.mem_append.mp hc with hc | hc
    · rw [lookupD_insertD_isSome]
      exact Or.inr (h3 c hc)
    · simp only [List.mem_singleton] at hc
      subst hc
      rw [lookupD_insertD_isSome]
      exact Or.inl rfl

/-- A non-aborting pass through the invalid-result branch preserves the
invariant and the failure/success records behave as claimed. -/
theorem invalid_path_spec (st : LoopState) (name : String)
    (cdata : List (String × Value)) (now : String) (st2 : LoopState)
    (hinv : StateInv st) (h : invalid_path st name cdata now = .ok st2) :
    StateInv st2 ∧
    (∀ x ∈ st.successful, x ∈ st2.successful) ∧
    (∀ x ∈ st.failed, x ∈ st2.failed) ∧
    (∀ x ∈ st2.successful, x ∈ st.successful ∨ x = name) ∧
    (∀ x ∈ st2.failed, x ∈ st.failed ∨ x = name) ∧
    (name ∈ mandatory_components → name ∈ st2.successful) := by
  obtain ⟨rs, sc, fl⟩ := st
  simp only [invalid_path] at h
  by_cases hm : name ∈ mandatory_components
  · rw [if_pos hm] at h
    cases hr : attempt_component_recovery name cdata now with
    | some r =>
      simp only [hr] at h
      injection h with h
      subst h
      obtain ⟨hs, ht⟩ := recovery_safe name cdata now r hr
      refine ⟨StateInv_store _ _ _ _ _ hinv hs ht _, ?_, ?_, ?_, ?_, fun _ => by simp⟩
      · intro x hx
        exact List.mem_append_left _ hx
      · intro x hx
        exact List.mem_append_left _ hx
      · intro x hx
        rcases List.mem_append.mp hx with hx | hx
        · exact Or.inl hx
        · exact Or.inr (by simpa using hx)
      · intro x hx
        rcases List.mem_append.mp hx with hx | hx
        · exact Or.inl hx
        · exact Or.inr (by simpa using hx)
    | none =>
      simp only [hr] at h
      exact Except.noConfusion h
  · rw [if_neg hm] at h
    injection h with h
    subst h
    refine ⟨⟨hinv.1, hinv.2.1, hinv.2.2⟩, fun x hx => hx, ?_, fun x hx => Or.inl hx, ?_,
      fun hmm => absurd hmm hm⟩
    · intro x hx
      exact List.mem_append_left _ hx
    · intro x hx
      rcases List.mem_append.mp hx with hx | hx
      · exact Or.inl hx
      · exact Or.inr (by simpa using hx)

/-- A non-aborting pass through the exception branch preserves the invariant
and the failure/success records behave as claimed. -/
theorem exception_path_spec (st : LoopState) (name : String)
    (cdata : List (String × Value)) (e now : String) (st2 : LoopState)
    (hinv : StateInv st) (h : exception_path st name cdata e now = .ok st2) :
    StateInv st2 ∧
    (∀ x ∈ st.successful, x ∈ st2.successful) ∧
    (∀ x ∈ st.failed, x ∈ st2.failed) ∧
    (∀ x ∈ st2.successful, x ∈ st.successful ∨ x = name) ∧
    (∀ x ∈ st2.failed, x ∈ st.failed ∨ x = name) ∧
    (name ∈ mandatory_components → name ∈ st2.successful) := by
  obtain ⟨rs, sc, fl⟩ := st
  simp only [exception_path] at h
  by_cases hm : name ∈ mandatory_components
  · rw [if_pos hm] at h
    cases hr : attempt_component_recovery name cdata now with
    | some r =>
      simp only [hr] at h
      injection h with h
      subst h
      obtain ⟨hs, ht⟩ := recovery_safe name cdata now r hr
      refine ⟨StateInv_store _ _ _ _ _ hinv hs ht _, ?_, ?_, ?_, ?_, fun _ => by simp⟩
      · intro x hx
        exact List.mem_append_left _ hx
      · intro x hx
        exact List.mem_append_left _ hx
      · intro x hx
        rcases List.mem_append.mp hx with hx | hx
        · exact Or.inl hx
        · exact Or.inr (by simpa using hx)
      · intro x hx
        rcases List.mem_append.mp hx with hx | hx
        · exact Or.inl hx
        · exact Or.inr (by simpa using hx)
    | none =>
      simp only [hr] at h
      exact Except.noConfusion h
  · rw [if_neg hm] at h
    injection h with h
    subst h
    refine ⟨⟨hinv.1, hinv.2.1, hinv.2.2⟩, fun x hx => hx, ?_, fun x hx => Or.inl hx, ?_,
      fun hmm => absurd hmm hm⟩
    · intro x hx
      exact List.mem_append_left _ hx
    · intro x hx
      rcases List.mem_append.mp hx with hx | hx
      · exact Or.inl hx
      · exact Or.inr (by simpa using hx)

/-- An abort in the invalid-result branch happens only for a mandatory
component whose recovery returned null, and its message names the
component. -/
theorem invalid_path_err (st : LoopState) (name : String)
    (cdata : List (String × Value)) (now : String) (msg : String)
    (h : invalid_path st name cdata now = .error msg) :
    name ∈ mandatory_components ∧ containsSub msg name = true ∧
      attempt_component_recovery name cdata now = none := by
  simp only [invalid_path] at h
  by_cases hm : name ∈ mandatory_components
  · rw [if_pos hm] at h
    cases hr : attempt_component_recovery name cdata now with
    | some r =>
      simp only [hr] at h
      exact Except.noConfusion h
    | none =>
      simp only [hr] at h
      injection h with h
      refine ⟨hm, ?_, rfl⟩
      rw [← h]
      apply containsSub_of_infix
      refine ⟨"Componente obrigatório ".data,
        (" falhou: Componente obrigatório " ++ name
          ++ " falhou e não pôde ser recuperado").data, ?_⟩
      simp [data_append_eq, List.append_assoc]
  · rw [if_neg hm] at h
    exact Except.noConfusion h

/-- An abort in the exception branch happens only for a mandatory component
whose recovery returned null, and its message names the component. -/
theorem exception_path_err (st : LoopState) (name : String)
    (cdata : List (String × Value)) (e now : String) (msg : String)
    (h : exception_path st name cdata e now = .error msg) :
    name ∈ mandatory_components ∧ containsSub msg name = true ∧
      attempt_component_recovery name cdata now = none := by
  simp only [exception_path] at h
  by_cases hm : name ∈ mandatory_components
  · rw [if_pos hm] at h
    cases hr : attempt_component_recovery name cdata now with
    | some r =>
      simp only [hr] at h
      exact Except.noConfusion h
    | none =>
      simp only [hr] at h
      injection h with h
      refine ⟨hm, ?_, rfl⟩
      rw [← h]
      apply containsSub_of_infix
      refine ⟨"Componente obrigatório ".data, (" falhou: " ++ e).data, ?_⟩
      simp [data_append_eq, List.append_assoc]
  · rw [if_neg hm] at h
    exact Except.noConfusion h

/-- One non-aborting loop iteration: the invariant is preserved, both records
only grow, growth is limited to the processed name, and a mandatory
component's name is in the success record afterwards. -/
theorem run_component_ok_spec (env : StageEnv) (data : List (String × Value))
    (st : LoopState) (name sid now : String) (st2 : LoopState)
    (hinv : StateInv st) (h : run_component env data st name sid now = .ok st2) :
    StateInv st2 ∧
    (∀ x ∈ st.successful, x ∈ st2.successful) ∧
    (∀ x ∈ st.failed, x ∈ st2.failed) ∧
    (∀ x ∈ st2.successful, x ∈ st.successful ∨ x = name) ∧
    (∀ x ∈ st2.failed, x ∈ st.failed ∨ x = name) ∧
    (name ∈ mandatory_components → name ∈ st2.successful) := by
  simp only [run_component] at h
  cases hf : component_func env name (mergeD data st.results) sid now with
  | error e =>
    simp only [hf] at h
    exact exception_path_spec st name _ e now st2 hinv h
  | ok result =>
    simp only [hf] at h
    by_cases ht : pyTruthy result = false
    · rw [if_pos ht] at h
      exact invalid_path_spec st name _ now st2 hinv h
    · rw [if_neg ht] at h
      cases hval : validate_component_result name result with
      | error e =>
        simp only [hval] at h
        exact exception_path_spec st name _ e now st2 hinv h
      | ok bv =>
        simp only [hval] at h
        cases bv with
        | false => exact invalid_path_spec st name _ now st2 hinv h
        | true =>
          have htr : pyTruthy result = true := by simpa using ht
          have hsafe : StageSafe name result := by
            refine ⟨fun hh => vcr_projeto result htr (hh ▸ hval),
              fun hh => vcr_pesquisa result htr (hh ▸ hval), ?_,
              fun hh => vcr_insights result htr (hh ▸ hval)⟩
            intro hh
            subst hh
            unfold component_func at hf
            rw [if_neg (by decide), if_pos rfl] at hf
            unfold extract_avatar_from_analysis at hf
            cases hc : extract_avatar_core (mergeD data st.results) with
            | error e => simp [hc] at hf
            | ok w =>
              simp only [hc] at hf
              injection hf with hf
              subst hf
              exact (extract_avatar_safe _ _ hc).2
          obtain ⟨rs, sc, fl⟩ := st
          have h2 : Except.ok (⟨insertD rs name result, sc ++ [name], fl⟩ : LoopState) =
              Except.ok st2 := h
          injection h2 with h2
          subst h2
          refine ⟨StateInv_store _ _ _ _ _ hinv hsafe htr _, ?_, fun x hx => hx, ?_,
            fun x hx => Or.inl hx, fun _ => by simp⟩
          · intro x hx
            exact List.mem_append_left _ hx
          · intro x hx
            rcases List.mem_append.mp hx with hx | hx
            · exact Or.inl hx
            · exact Or.inr (by simpa using hx)

/-- A loop iteration aborts only for a mandatory component whose recovery
returned null, with a message naming the component. -/
theorem run_component_err_spec (env : StageEnv) (data : List (String × Value))
    (st : LoopState) (name sid now : String) (msg : String)
    (h : run_component env data st name sid now = .error msg) :
    name ∈ mandatory_components ∧ containsSub msg name = true ∧
      ∃ ctx, attempt_component_recovery name ctx now = none := by
  simp only [run_component] at h
  cases hf : component_func env name (mergeD data st.results) sid now with
  | error e =>
    simp only [hf] at h
    obtain ⟨hm, hcs, hr⟩ := exception_path_err st name _ e now msg h
    exact ⟨hm, hcs, _, hr⟩
  | ok result =>
    simp only [hf] at h
    by_cases ht : pyTruthy result = false
    · rw [if_pos ht] at h
      obtain ⟨hm, hcs, hr⟩ := invalid_path_err st name _ now msg h
      exact ⟨hm, hcs, _, hr⟩
    · rw [if_neg ht] at h
      cases hval : validate_component_result name result with
      | error e =>
        simp only [hval] at h
        obtain ⟨hm, hcs, hr⟩ := exception_path_err st name _ e now msg h
        exact ⟨hm, hcs, _, hr⟩
      | ok bv =>
        simp only [hval] at h
        cases bv with
        | true => exact Except.noConfusion h
        | false =>
          obtain ⟨hm, hcs, hr⟩ := invalid_path_err st name _ now msg h
          exact ⟨hm, hcs, _, hr⟩

/-- The component loop (on any suffix of components): a non-aborting run
preserves the invariant, only grows the records (by processed names only),
and leaves every processed mandatory component in the success record. -/
theorem run_components_spec (env : StageEnv) (data : List (String × Value))
    (sid now : String) (L : List String) (st st3 : LoopState)
    (hinv : StateInv st) (h : run_components env data sid now L st = .ok st3) :
    StateInv st3 ∧
    (∀ x ∈ st.successful, x ∈ st3.successful) ∧
    (∀ x ∈ st.failed, x ∈ st3.failed) ∧
    (∀ x ∈ st3.successful, x ∈ st.successful ∨ x ∈ L) ∧
    (∀ x ∈ st3.failed, x ∈ st.failed ∨ x ∈ L) ∧
    (∀ c ∈ L, c ∈ mandatory_components → c ∈ st3.successful) := by
  induction L generalizing st with
  | nil =>
    rw [run_components] at h
    injection h with h
    subst h
    exact ⟨hinv, fun x hx => hx, fun x hx => hx, fun x hx => Or.inl hx,
      fun x hx => Or.inl hx, fun c hc => absurd hc (List.not_mem_nil c)⟩
  | cons c0 rest ih =>
    rw [run_components] at h
    cases h1 : run_component env data st c0 sid now with
    | error e =>
      rw [h1] at h
      exact Except.noConfusion h
    | ok st1 =>
      simp only [h1] at h
      obtain ⟨hinv1, hs1, hf1, hso1, hfo1, hm1⟩ :=
        run_component_ok_spec env data st c0 sid now st1 hinv h1
      obtain ⟨hinv3, hs3, hf3, hso3, hfo3, hm3⟩ := ih st1 hinv1 h
      refine ⟨hinv3, fun x hx => hs3 _ (hs1 _ hx), fun x hx => hf3 _ (hf1 _ hx),
        ?_, ?_, ?_⟩
      · intro x hx
        rcases hso3 x hx with hx1 | hx1
        · rcases hso1 x hx1 with hx2 | hx2
          · exact Or.inl hx2
          · exact Or.inr (by rw [hx2]; exact List.mem_cons_self _ _)
        · exact Or.inr (List.mem_cons_of_mem _ hx1)
      · intro x hx
        rcases hfo3 x hx with hx1 | hx1
        · rcases hfo1 x hx1 with hx2 | hx2
          · exact Or.inl hx2
          · exact Or.inr (by rw [hx2]; exact List.mem_cons_self _ _)
        · exact Or.inr (List.mem_cons_of_mem _ hx1)
      · intro c hc hcm
        rcases List.mem_cons.mp hc with hceq | hcr
        · subst hceq
          exact hs3 _ (hm1 hcm)
        · exact hm3 c hcr hcm

/-- An aborting loop run names a mandatory component whose recovery returned
null on some context. -/
theorem run_components_err_spec (env : StageEnv) (data : List (String × Value))
    (sid now : String) (L : List String) (st : LoopState) (msg : String)
    (h : run_components env data sid now L st = .error msg) :
    ∃ name, name ∈ mandatory_components ∧ containsSub msg name = true ∧
      ∃ ctx, attempt_component_recovery name ctx now = none := by
  induction L generalizing st with
  | nil =>
    rw [run_components] at h
    exact Except.noConfusion h
  | cons c0 rest ih =>
    rw [run_components] at h
    cases h1 : run_component env data st c0 sid now with
    | error e =>
      simp only [h1] at h
      injection h with h
      subst h
      obtain ⟨hm, hcs, hrec⟩ := run_component_err_spec env data st c0 sid now _ h1
      exact ⟨c0, hm, hcs, hrec⟩
    | ok st1 =>
      simp only [h1] at h
      exact ih st1 h

/-- A successful recovery of the project stage certifies that the basic
project-data generator succeeds on the same context. -/
theorem recovery_projeto_gen (ctx : List (String × Value)) (now : String) (r : Value)
    (hr : attempt_component_recovery "projeto_dados" ctx now = some r) :
    (generate_basic_project_data ctx now).isSome := by
  unfold attempt_component_recovery at hr
  rw [if_pos rfl] at hr
  cases hg : generate_basic_project_data ctx now with
  | none => rw [hg] at hr; exact Option.noConfusion hr
  | some pd => rfl

/-- A successful project-stage preparation certifies that the basic
project-data generator succeeds on the same input. -/
theorem prepare_gen (data : List (String × Value)) (sid now : String) (result : Value)
    (hf : (prepare_project_data data sid now).map Value.vDict = Except.ok result) :
    (generate_basic_project_data data now).isSome := by
  cases hp : prepare_project_data data sid now with
  | error e =>
    rw [hp] at hf
    simp [Except.map] at hf
  | ok pd =>
    unfold prepare_project_data at hp
    cases hcore : prepare_project_data_core data sid now with
    | error e => simp only [hcore] at hp; exact Except.noConfusion hp
    | ok pd2 =>
      obtain ⟨x, hx⟩ := prepare_core_preco data sid now pd2 hcore
      exact preco_ok_generate data now x hx

/-- The first loop iteration (project data, on the initial state) can only
complete when the basic project-data generator succeeds on the run's input —
the fact that later makes the consolidation step's eagerly evaluated recovery
default safe. -/
theorem run_component_projeto_gen (env : StageEnv) (data : List (String × Value))
    (sid now : String) (st2 : LoopState)
    (h : run_component env data ⟨[], [], []⟩ "projeto_dados" sid now = .ok st2) :
    (generate_basic_project_data data now).isSome := by
  simp only [run_component] at h
  rw [show mergeD data (LoopState.results ⟨[], [], []⟩) = data from rfl] at h
  cases hf : component_func env "projeto_dados" data sid now with
  | error e =>
    simp only [hf] at h
    simp only [exception_path] at h
    rw [if_pos (by decide)] at h
    cases hr : attempt_component_recovery "projeto_dados" data now with
    | none =>
      simp only [hr] at h
      exact Except.noConfusion h
    | some r => exact recovery_projeto_gen data now r hr
  | ok result =>
    simp only [hf] at h
    by_cases ht : pyTruthy result = false
    · rw [if_pos ht] at h
      simp only [invalid_path] at h
      rw [if_pos (by decide)] at h
      cases hr : attempt_component_recovery "projeto_dados" data now with
      | none =>
        simp only [hr] at h
        exact Except.noConfusion h
      | some r => exact recovery_projeto_gen data now r hr
    · rw [if_neg ht] at h
      cases hval : validate_component_result "projeto_dados" result with
      | error e =>
        simp only [hval] at h
        simp only [exception_path] at h
        rw [if_pos (by decide)] at h
        cases hr : attempt_component_recovery "projeto_dados" data now with
        | none =>
          simp only [hr] at h
          exact Except.noConfusion h
        | some r => exact recovery_projeto_gen data now r hr
      | ok bv =>
        simp only [hval] at h
        cases bv with
        | true =>
          unfold component_func at hf
          rw [if_pos rfl] at hf
          exact prepare_gen data sid now result hf
        | false =>
          simp only [invalid_path] at h
          rw [if_pos (by decide)] at h
          cases hr : attempt_component_recovery "projeto_dados" data now with
          | none =>
            simp only [hr] at h
            exact Except.noConfusion h
          | some r => exact recovery_projeto_gen data now r hr

/-- Every required-for-report section has a raising-free fallback
generator. -/
theorem gen_fallback_req_ok (c : String) (hc : c ∈ consolidation_required)
    (pd : List (String × Value)) : ∃ w, generate_fallback_section c pd = .ok w := by
  have hc5 : c = "pesquisa_web_massiva" ∨ c = "analise_ia_avancada" ∨
      c = "avatar_ultra_detalhado" ∨ c = "posicionamento_estrategico" ∨
      c = "insights_exclusivos" := by simpa [consolidation_required] using hc
  rcases hc5 with h | h | h | h | h <;> subst h <;> exact ⟨_, rfl⟩

/-- The fallback-filling loop cannot raise when every listed section's
generator succeeds. -/
theorem fill_total (l : List String) (pd : List (String × Value))
    (hgen : ∀ c ∈ l, ∃ w, generate_fallback_section c pd = .ok w) :
    ∀ acc, ∃ out, fill_required l pd acc = .ok out := by
  induction l with
  | nil => exact fun acc => ⟨acc, rfl⟩
  | cons c0 rest ih =>
    intro acc
    rw [fill_required]
    by_cases hp : (lookupD acc c0).isSome
    · rw [if_pos hp]
      exact ih (fun c hc => hgen c (List.mem_cons_of_mem _ hc)) acc
    · rw [if_neg hp]
      obtain ⟨w, hw⟩ := hgen c0 (List.mem_cons_self _ _)
      rw [hw]
      exact ih (fun c hc => hgen c (List.mem_cons_of_mem _ hc)) _

/-- The basic avatar depth-validates without raising, whatever the segment
value. -/
theorem basic_avatar_good (seg : Value) :
    ∃ r, validate_avatar_depth (Value.vDict (generate_basic_avatar seg)) = .ok r := by
  have hpf : getD (generate_basic_avatar seg) "perfil_demografico" (Value.vDict []) =
      Value.vDict
        [("idade", Value.vStr "30-45 anos - profissionais estabelecidos"),
         ("renda", Value.vStr "R$ 8.000 - R$ 35.000 - classe média alta"),
         ("escolaridade", Value.vStr "Superior completo"),
         ("localizacao", Value.vStr "Grandes centros urbanos")] := by
    simp [generate_basic_avatar, getD, lookupD]
  have hdor : getD (generate_basic_avatar seg) "dores_viscerais" (Value.vList []) =
      Value.vList ((generate_default_dores [("segmento", seg)]).map Value.vStr) := by
    simp [generate_basic_avatar, getD, lookupD]
  have hdes : getD (generate_basic_avatar seg) "desejos_secretos" (Value.vList []) =
      Value.vList ((generate_default_desejos [("segmento", seg)]).map Value.vStr) := by
    simp [generate_basic_avatar, getD, lookupD]
  have hobj : getD (generate_basic_avatar seg) "objecoes_reais" (Value.vList []) =
      Value.vList ((generate_default_objecoes [("segmento", seg)]).map Value.vStr) := by
    simp [generate_basic_avatar, getD, lookupD]
  apply validate_avatar_depth_total
  · rw [hpf]
    exact ⟨4, rfl⟩
  · rw [hdor]
    exact (strs_entry_good _).1
  · rw [hdor]
    exact (strs_entry_good _).2
  · rw [hdes]
    exact ⟨_, rfl⟩
  · rw [hobj]
    exact ⟨_, rfl⟩

/-- The avatar fallback section depth-validates without raising. -/
theorem fallback_avatar_val (pd : List (String × Value)) (w : Value)
    (h : generate_fallback_section "avatar_ultra_detalhado" pd = .ok w) :
    ∃ r, validate_avatar_depth w = .ok r := by
  have h2 : Except.ok (Value.vDict (generate_basic_avatar
      (getD pd "segmento" (Value.vStr "negócios")))) = Except.ok w := h
  injection h2 with h2
  rw [← h2]
  exact basic_avatar_good _

/-- The insights fallback section is a sequence. -/
theorem fallback_insights_val (pd : List (String × Value)) (w : Value)
    (h : generate_fallback_section "insights_exclusivos" pd = .ok w) :
    ∃ l, w = Value.vList l := by
  have h2 : Except.ok (Value.vList (((generate_additional_insights pd).take 15).map
      Value.vStr)) = Except.ok w := h
  injection h2 with h2
  exact ⟨_, h2.symm⟩

/-- The search fallback section is the empty (falsy) mapping. -/
theorem fallback_pesquisa_val (pd : List (String × Value)) (w : Value)
    (h : generate_fallback_section "pesquisa_web_massiva" pd = .ok w) :
    w = Value.vDict [] := by
  have h2 : Except.ok (Value.vDict []) = Except.ok w := h
  injection h2 with h2
  exact h2.symm

/-- The aggregate quality scorer cannot raise when the insights entry is a
sequence, a truthy avatar entry depth-validates, and a truthy search entry
has a comparable source count. -/
theorem vfq_ok (analysis : List (String × Value))
    (hI : ∃ l, getD analysis "insights_exclusivos" (Value.vList []) = Value.vList l)
    (hA : pyTruthy (getD analysis "avatar_ultra_detalhado" (Value.vDict [])) = true →
      ∃ r, validate_avatar_depth
        (getD analysis "avatar_ultra_detalhado" (Value.vDict [])) = .ok r)
    (hS : pyTruthy (getD analysis "pesquisa_web_massiva" (Value.vDict [])) = true →
      ∃ d2, getD analysis "pesquisa_web_massiva" (Value.vDict []) = Value.vDict d2 ∧
        ∃ b, pyGE (getD d2 "total_fontes" (Value.vNum 0)) (Value.vNum 3) = .ok b) :
    ∃ q, validate_final_quality analysis = .ok q := by
  obtain ⟨l, hl⟩ := hI
  cases hres : validate_final_quality analysis with
  | ok q => exact ⟨q, rfl⟩
  | error e =>
    exfalso
    unfold validate_final_quality at hres
    simp only [hl, pyLen] at hres
    by_cases hT : pyTruthy (getD analysis "avatar_ultra_detalhado" (Value.vDict [])) = true
    · obtain ⟨r, hr⟩ := hA hT
      simp only [hT, if_true, hr] at hres
      by_cases hT2 : pyTruthy (getD analysis "pesquisa_web_massiva" (Value.vDict [])) = true
      · obtain ⟨d2, hd2, b, hb⟩ := hS hT2
        have hT2b : pyTruthy (Value.vDict d2) = true := hd2 ▸ hT2
        simp only [hT2, if_true, hd2, pyGet, hb, hT2b] at hres
        exact Except.noConfusion hres
      · have hT2f : pyTruthy (getD analysis "pesquisa_web_massiva" (Value.vDict [])) =
            false := by simpa using hT2
        simp only [hT2f, Bool.false_eq_true, if_false] at hres
        exact Except.noConfusion hres
    · have hTf : pyTruthy (getD analysis "avatar_ultra_detalhado" (Value.vDict [])) =
          false := by simpa using hT
      simp only [hTf, Bool.false_eq_true, if_false] at hres
      by_cases hT2 : pyTruthy (getD analysis "pesquisa_web_massiva" (Value.vDict [])) = true
      · obtain ⟨d2, hd2, b, hb⟩ := hS hT2
        have hT2b : pyTruthy (Value.vDict d2) = true := hd2 ▸ hT2
        simp only [hT2, if_true, hd2, pyGet, hb, hT2b] at hres
        exact Except.noConfusion hres
      · have hT2f : pyTruthy (getD analysis "pesquisa_web_massiva" (Value.vDict [])) =
            false := by simpa using hT2
        simp only [hT2f, Bool.false_eq_true, if_false] at hres
        exact Except.noConfusion hres

/-- Each required-for-report entry of the consolidated mapping is either a
copied successful result or the generated fallback section. -/
theorem consolidated_entry (results : List (String × Value))
    (successful failed : List String) (sid : String)
    (pdD pj filled : List (String × Value)) (c S : String)
    (hsucc : ∀ cc ∈ successful, (lookupD results cc).isSome)
    (hkeys : ∀ cc, (lookupD results cc).isSome → cc ∈ successful)
    (hcr : c ∈ consolidation_required)
    (hbase : lookupD (consolidation_base results successful failed sid pdD) c = none)
    (hst : "status" ≠ c)
    (hfill : fill_required consolidation_required pj
      (copy_successful successful results
        (consolidation_base results successful failed sid pdD)) = .ok filled) :
    (∃ v, lookupD results c = some v ∧
      lookupD (insertD filled "status" (Value.vStr S)) c = some v) ∨
    (∃ w, generate_fallback_section c pj = .ok w ∧
      lookupD (insertD filled "status" (Value.vStr S)) c = some w) := by
  by_cases hcs : c ∈ successful
  · obtain ⟨v, hv⟩ := Option.isSome_iff_exists.mp (hsucc c hcs)
    left
    refine ⟨v, hv, ?_⟩
    rw [lookupD_insertD_ne _ _ _ _ hst]
    exact fill_preserve_some _ _ _ _ _ _
      (copy_mem successful results _ _ _ hv (Or.inl hcs)) hfill
  · right
    have hrnone : lookupD results c = none := by
      cases hr : lookupD results c with
      | none => rfl
      | some v => exact absurd (hkeys c (by rw [hr]; rfl)) hcs
    have hcopy : lookupD (copy_successful successful results
        (consolidation_base results successful failed sid pdD)) c = none := by
      rw [copy_preserve _ _ _ _ hcs]
      exact hbase
    obtain ⟨w, hw, hlw⟩ := fill_value consolidation_required pj _ filled c hcr hcopy hfill
    refine ⟨w, hw, ?_⟩
    rw [lookupD_insertD_ne _ _ _ _ hst]
    exact hlw

/-- The consolidation step cannot raise when the loop invariant holds and the
basic project-data generator succeeds on the input, and its output feeds the
aggregate quality scorer without raising. -/
theorem consolidate_ok_safe (data results : List (String × Value))
    (successful failed : List String) (sid now : String)
    (hgen : (generate_basic_project_data data now).isSome)
    (hres : ∀ c v, lookupD results c = some v → StageSafe c v ∧ pyTruthy v = true)
    (hkeys : ∀ c, (lookupD results c).isSome → c ∈ successful)
    (hsucc : ∀ c ∈ successful, (lookupD results c).isSome)
    (hsub : ∀ x ∈ successful, x ∈ component_names) :
    ∃ fa, consolidate_final_analysis data results successful failed sid now = .ok fa ∧
      (∃ l, getD fa "insights_exclusivos" (Value.vList []) = Value.vList l) ∧
      (pyTruthy (getD fa "avatar_ultra_detalhado" (Value.vDict [])) = true →
        ∃ r, validate_avatar_depth
          (getD fa "avatar_ultra_detalhado" (Value.vDict [])) = .ok r) ∧
      (pyTruthy (getD fa "pesquisa_web_massiva" (Value.vDict [])) = true →
        ∃ d2, getD fa "pesquisa_web_massiva" (Value.vDict []) = Value.vDict d2 ∧
          ∃ b, pyGE (getD d2 "total_fontes" (Value.vNum 0)) (Value.vNum 3) = .ok b) ∧
      (∃ ps, lookupD fa "pipeline_status" = some (Value.vDict ps) ∧
        lookupD ps "componentes_executados" =
          some (Value.vList (successful.map Value.vStr)) ∧
        lookupD ps "componentes_falharam" =
          some (Value.vList (failed.map Value.vStr))) := by
  obtain ⟨pdD, hpdD⟩ := Option.isSome_iff_exists.mp hgen
  have hpj : ∃ pj, lookupD (copy_successful successful results
      (consolidation_base results successful failed sid pdD)) "projeto_dados" =
      some (Value.vDict pj) := by
    by_cases hps : "projeto_dados" ∈ successful
    · obtain ⟨v, hv⟩ := Option.isSome_iff_exists.mp (hsucc _ hps)
      obtain ⟨⟨imp1, _, _, _⟩, htv⟩ := hres _ _ hv
      obtain ⟨d, hd⟩ := imp1 rfl
      subst hd
      exact ⟨d, copy_mem successful results _ _ _ hv (Or.inl hps)⟩
    · have hrnone : lookupD results "projeto_dados" = none := by
        cases hr : lookupD results "projeto_dados" with
        | none => rfl
        | some v => exact absurd (hkeys _ (by rw [hr]; rfl)) hps
      refine ⟨pdD, ?_⟩
      rw [copy_preserve _ _ _ _ hps]
      simp [consolidation_base, lookupD, getD, hrnone]
  obtain ⟨pj, hpj⟩ := hpj
  obtain ⟨filled, hfill⟩ := fill_total consolidation_required pj
    (fun c hc => gen_fallback_req_ok c hc pj)
    (copy_successful successful results (consolidation_base results successful failed sid pdD))
  refine ⟨insertD filled "status" (Value.vStr (consolidation_status successful)),
    ?_, ?_, ?_, ?_, ?_⟩
  · unfold consolidate_final_analysis
    simp only [hpdD]
    simp only [getD, hpj, Option.getD_some]
    simp only [hfill]
  · rcases consolidated_entry results successful failed sid pdD pj filled
      "insights_exclusivos" (consolidation_status successful) hsucc hkeys
      (by decide) (by simp [consolidation_base, lookupD]) (by decide) hfill with
      ⟨v, hv, hl⟩ | ⟨w, hw, hl⟩
    · obtain ⟨⟨_, _, _, imp4⟩, htv⟩ := hres _ _ hv
      obtain ⟨l, hvl⟩ := imp4 rfl
      subst hvl
      exact ⟨l, by simp [getD, hl]⟩
    · obtain ⟨l, hwl⟩ := fallback_insights_val pj w hw
      subst hwl
      exact ⟨l, by simp [getD, hl]⟩
  · intro hT
    rcases consolidated_entry results successful failed sid pdD pj filled
      "avatar_ultra_detalhado" (consolidation_status successful) hsucc hkeys
      (by decide) (by simp [consolidation_base, lookupD]) (by decide) hfill with
      ⟨v, hv, hl⟩ | ⟨w, hw, hl⟩
    · obtain ⟨⟨_, _, imp3, _⟩, htv⟩ := hres _ _ hv
      obtain ⟨r, hr⟩ := imp3 rfl
      have hg : getD (insertD filled "status"
          (Value.vStr (consolidation_status successful)))
          "avatar_ultra_detalhado" (Value.vDict []) = v := by simp [getD, hl]
      rw [hg]
      exact ⟨r, hr⟩
    · obtain ⟨r, hr⟩ := fallback_avatar_val pj w hw
      have hg : getD (insertD filled "status"
          (Value.vStr (consolidation_status successful)))
          "avatar_ultra_detalhado" (Value.vDict []) = w := by simp [getD, hl]
      rw [hg]
      exact ⟨r, hr⟩
  · intro hT
    rcases consolidated_entry results successful failed sid pdD pj filled
      "pesquisa_web_massiva" (consolidation_status successful) hsucc hkeys
      (by decide) (by simp [consolidation_base, lookupD]) (by decide) hfill with
      ⟨v, hv, hl⟩ | ⟨w, hw, hl⟩
    · obtain ⟨⟨_, imp2, _, _⟩, htv⟩ := hres _ _ hv
      obtain ⟨d2, hd2, b, hb⟩ := imp2 rfl
      subst hd2
      exact ⟨d2, by simp [getD, hl], b, hb⟩
    · have hw2 := fallback_pesquisa_val pj w hw
      subst hw2
      have hg : getD (insertD filled "status"
          (Value.vStr (consolidation_status successful)))
          "pesquisa_web_massiva" (Value.vDict []) = Value.vDict [] := by simp [getD, hl]
      rw [hg] at hT
      simp [pyTruthy] at hT
  · have hpss : "pipeline_status" ∉ successful := fun hmem =>
      (by decide : "pipeline_status" ∉ component_names) (hsub _ hmem)
    have hbase : lookupD (consolidation_base results successful failed sid pdD)
        "pipeline_status" = some (Value.vDict
          [("componentes_executados", Value.vList (successful.map Value.vStr)),
           ("componentes_falharam", Value.vList (failed.map Value.vStr)),
           ("taxa_sucesso", Value.vNum
             ((successful.length : Rat) / (component_names.length : Rat) * 100)),
           ("session_id", Value.vStr sid)]) := by
      simp [consolidation_base, lookupD]
    have hcopy := copy_preserve successful results
      (consolidation_base results successful failed sid pdD) "pipeline_status" hpss
    rw [hbase] at hcopy
    have hfil := fill_preserve_some _ _ _ _ _ _ hcopy hfill
    refine ⟨[("componentes_executados", Value.vList (successful.map Value.vStr)),
             ("componentes_falharam", Value.vList (failed.map Value.vStr)),
             ("taxa_sucesso", Value.vNum
               ((successful.length : Rat) / (component_names.length : Rat) * 100)),
             ("session_id", Value.vStr sid)], ?_, by simp [lookupD], by simp [lookupD]⟩
    rw [lookupD_insertD_ne _ _ _ _ (by decide : "status" ≠ "pipeline_status")]
    exact hfil

/-- C1 (confirmed): for every input whose segment is a string of length at
least 3 (and in fact for every input), a run of `execute_complete_analysis`
either returns a nonempty `FinalAnalysis` mapping carrying its `metadata`
block, or aborts with an error message naming one of the three mandatory
stages after the recovery attempt for that stage returned null; it never
returns null/empty and never raises for any other reason (in particular a
non-mandatory stage failure never aborts the run). -/
theorem C1_execute_robust (env : StageEnv) (data : List (String × Value))
    (sid now : String) (pt : Rat) (s : String)
    (hseg : lookupD data "segmento" = some (Value.vStr s)) (hlen : 3 ≤ s.length) :
    match execute_complete_analysis env data sid now pt with
    | .ok fa => ∃ d, fa = Value.vDict d ∧ d ≠ [] ∧ (lookupD d "metadata").isSome
    | .error msg => ∃ c, c ∈ mandatory_components ∧ containsSub msg c = true ∧
        ∃ ctx, attempt_component_recovery c ctx now = none := by
  unfold execute_complete_analysis
  cases hrun : run_components env data sid now component_names ⟨[], [], []⟩ with
  | error e =>
    exact run_components_err_spec env data sid now component_names _ e hrun
  | ok st =>
  have hcn : component_names = "projeto_dados" ::
      ["pesquisa_web_massiva", "analise_ia_avancada", "avatar_ultra_detalhado",
       "posicionamento_estrategico", "drivers_mentais_customizados",
       "provas_visuais_instantaneas", "sistema_anti_objecao", "pre_pitch_invisivel",
       "predicoes_futuro_completas", "insights_exclusivos"] := rfl
  have hrun2 := hrun
  rw [hcn, run_components] at hrun2
  cases h1 : run_component env data ⟨[], [], []⟩ "projeto_dados" sid now with
  | error e =>
    rw [h1] at hrun2
    exact Except.noConfusion hrun2
  | ok st1 =>
  simp only [h1] at hrun2
  have hgen := run_component_projeto_gen env data sid now st1 h1
  obtain ⟨hinv1, hs1, hf1, hso1, hfo1, hm1⟩ :=
    run_component_ok_spec env data ⟨[], [], []⟩ "projeto_dados" sid now st1 StateInv_init h1
  obtain ⟨hinv, hs2, hf2, hso2, hfo2, hm2⟩ :=
    run_components_spec env data sid now _ st1 st hinv1 hrun2
  have hproj : "projeto_dados" ∈ st.successful := hs2 _ (hm1 (by decide))
  have hpes : "pesquisa_web_massiva" ∈ st.successful := hm2 _ (by decide) (by decide)
  have hana : "analise_ia_avancada" ∈ st.successful := hm2 _ (by decide) (by decide)
  have hmem : ∀ c ∈ mandatory_components, c ∈ st.successful := by
    intro c hc
    have hc3 : c = "projeto_dados" ∨ c = "pesquisa_web_massiva" ∨
        c = "analise_ia_avancada" := by simpa [mandatory_components] using hc
    rcases hc3 with h | h | h <;> subst h
    · exact hproj
    · exact hpes
    · exact hana
  have hmiss : mandatory_components.filter (fun c => !(st.successful.contains c)) = [] := by
    rw [List.filter_eq_nil_iff]
    intro c hc
    simpa using hmem c hc
  have hsub : ∀ x ∈ st.successful, x ∈ component_names := by
    intro x hx
    rcases hso2 x hx with hx1 | hx1
    · rcases hso1 x hx1 with hx2 | hx2
      · exact absurd hx2 (List.not_mem_nil x)
      · rw [hx2]
        decide
    · have hrest : ∀ y ∈ ["pesquisa_web_massiva", "analise_ia_avancada",
          "avatar_ultra_detalhado", "posicionamento_estrategico",
          "drivers_mentais_customizados", "provas_visuais_instantaneas",
          "sistema_anti_objecao", "pre_pitch_invisivel",
          "predicoes_futuro_completas", "insights_exclusivos"],
          y ∈ component_names := by decide
      exact hrest x hx1
  obtain ⟨fa0, hcons, hIfa, hAfa, hSfa, hPSfa⟩ :=
    consolidate_ok_safe data st.results st.successful st.failed sid now hgen
      hinv.1 hinv.2.1 hinv.2.2 hsub
  obtain ⟨q, hq⟩ := vfq_ok fa0 hIfa hAfa hSfa
  simp only [hmiss, List.isEmpty_nil, if_true, hcons, hq]
  exact ⟨_, rfl, insertD_ne_nil _ _ _, by rw [lookupD_insertD_self]; rfl⟩

/-- An oracle under which every externally backed stage raises. -/
def envW : StageEnv := fun _ _ _ => .error "stage unavailable"

/-- A minimal valid input: a 3-character segment. -/
def dataW : List (String × Value) := [("segmento", Value.vStr "abc")]

/-- Witness for C1 at a concrete input with every external stage failing. -/
theorem C1_witness :
    lookupD dataW "segmento" = some (Value.vStr "abc") ∧ 3 ≤ "abc".length ∧
    match execute_complete_analysis envW dataW "sid" "T0" 1 with
    | .ok fa => ∃ d, fa = Value.vDict d ∧ d ≠ [] ∧ (lookupD d "metadata").isSome
    | .error msg => ∃ c, c ∈ mandatory_components ∧ containsSub msg c = true ∧
        ∃ ctx, attempt_component_recovery c ctx "T0" = none :=
  ⟨rfl, by decide, C1_execute_robust envW dataW "sid" "T0" 1 "abc" rfl (by decide)⟩

/-- The quality enhancer only rewrites the insights and avatar entries: every
other key keeps its binding. -/
theorem enhance_preserve (analysis : List (String × Value)) (k : String)
    (h1 : k ≠ "insights_exclusivos") (h2 : k ≠ "avatar_ultra_detalhado") :
    lookupD (enhance_analysis_quality analysis) k = lookupD analysis k := by
  unfold enhance_analysis_quality
  cases he1 : enhance_step1 analysis with
  | error e => rfl
  | ok a1 =>
    have ha1 : lookupD a1 k = lookupD analysis k := by
      unfold enhance_step1 at he1
      cases hl : pyLen (getD analysis "insights_exclusivos" (Value.vList [])) with
      | error e => simp only [hl] at he1; exact Except.noConfusion he1
      | ok n =>
        simp only [hl] at he1
        by_cases hn : n < 15
        · rw [if_pos hn] at he1
          cases hpd : getD analysis "projeto_dados" (Value.vDict []) with
          | vDict pd =>
            simp only [hpd] at he1
            cases hins : getD analysis "insights_exclusivos" (Value.vList []) with
            | vList ins =>
              simp only [hins] at he1
              injection he1 with he1
              subst he1
              exact lookupD_insertD_ne _ _ _ _ (fun hh => h1 hh.symm)
            | vNull => simp [hins] at he1
            | vBool b => simp [hins] at he1
            | vNum q => simp [hins] at he1
            | vStr s => simp [hins] at he1
            | vDict d => simp [hins] at he1
          | vNull => simp [hpd] at he1
          | vBool b => simp [hpd] at he1
          | vNum q => simp [hpd] at he1
          | vStr s => simp [hpd] at he1
          | vList l => simp [hpd] at he1
        · rw [if_neg hn] at he1
          injection he1 with he1
          subst he1
          rfl
    show lookupD (enhance_after1 a1) k = lookupD analysis k
    unfold enhance_after1
    cases he2 : enhance_step2 a1 with
    | error e => exact ha1
    | ok a2 =>
      have ha2 : lookupD a2 k = lookupD a1 k := by
        unfold enhance_step2 at he2
        by_cases hT : pyTruthy (getD a1 "avatar_ultra_detalhado" (Value.vDict [])) = true
        · rw [if_pos hT] at he2
          cases hv : validate_avatar_depth
              (getD a1 "avatar_ultra_detalhado" (Value.vDict [])) with
          | error e => simp only [hv] at he2; exact Except.noConfusion he2
          | ok vres =>
            simp only [hv] at he2
            by_cases hval : vres.valid
            · rw [if_pos hval] at he2
              injection he2 with he2
              subst he2
              rfl
            · rw [if_neg hval] at he2
              cases hen : enrich_avatar (getD a1 "avatar_ultra_detalhado" (Value.vDict []))
                  (getD a1 "projeto_dados" (Value.vDict [])) with
              | error e => simp only [hen] at he2; exact Except.noConfusion he2
              | ok av2 =>
                simp only [hen] at he2
                injection he2 with he2
                subst he2
                exact lookupD_insertD_ne _ _ _ _ (fun hh => h2 hh.symm)
        · rw [if_neg hT] at he2
          injection he2 with he2
          subst he2
          rfl
      exact ha2.trans ha1

/-- The shape of a completed run: the returned mapping is the redacted,
possibly enhanced consolidated analysis with the metadata block attached, and
the consolidated analysis carries the pipeline-status record built from the
final success/failure lists. -/
theorem execute_ok_shape (env : StageEnv) (data : List (String × Value))
    (sid now : String) (pt : Rat) (st : LoopState)
    (hrun : run_components env data sid now component_names ⟨[], [], []⟩ = .ok st) :
    ∃ fa0 q ps,
      execute_complete_analysis env data sid now pt = .ok (Value.vDict (insertD
        (filter_raw_data_from_report
          (if (q : QualityResult).score < 95 then enhance_analysis_quality fa0 else fa0))
        "metadata" (Value.vDict
          [("processing_time_seconds", Value.vNum pt),
           ("session_id", Value.vStr sid),
           ("successful_components", Value.vList (st.successful.map Value.vStr)),
           ("failed_components", Value.vList (st.failed.map Value.vStr)),
           ("success_rate", Value.vNum
             ((st.successful.length : Rat) / (component_names.length : Rat) * 100)),
           ("generated_at", Value.vStr now),
           ("pipeline_version", Value.vStr "2.0_enhanced_corrected"),
           ("simulation_free", Value.vBool true),
           ("raw_data_filtered", Value.vBool true),
           ("quality_score", Value.vNum q.score),
           ("quality_guaranteed", Value.vBool (decide (95 ≤ q.score)))]))) ∧
      lookupD fa0 "pipeline_status" = some (Value.vDict ps) ∧
      lookupD ps "componentes_executados" =
        some (Value.vList (st.successful.map Value.vStr)) ∧
      lookupD ps "componentes_falharam" =
        some (Value.vList (st.failed.map Value.vStr)) := by
  have hcn : component_names = "projeto_dados" ::
      ["pesquisa_web_massiva", "analise_ia_avancada", "avatar_ultra_detalhado",
       "posicionamento_estrategico", "drivers_mentais_customizados",
       "provas_visuais_instantaneas", "sistema_anti_objecao", "pre_pitch_invisivel",
       "predicoes_futuro_completas", "insights_exclusivos"] := rfl
  have hrun2 := hrun
  rw [hcn, run_components] at hrun2
  cases h1 : run_component env data ⟨[], [], []⟩ "projeto_dados" sid now with
  | error e =>
    rw [h1] at hrun2
    exact Except.noConfusion hrun2
  | ok st1 =>
  simp only [h1] at hrun2
  have hgen := run_component_projeto_gen env data sid now st1 h1
  obtain ⟨hinv1, hs1, hf1, hso1, hfo1, hm1⟩ :=
    run_component_ok_spec env data ⟨[], [], []⟩ "projeto_dados" sid now st1 StateInv_init h1
  obtain ⟨hinv, hs2, hf2, hso2, hfo2, hm2⟩ :=
    run_components_spec env data sid now _ st1 st hinv1 hrun2
  have hproj : "projeto_dados" ∈ st.successful := hs2 _ (hm1 (by decide))
  have hpes : "pesquisa_web_massiva" ∈ st.successful := hm2 _ (by decide) (by decide)
  have hana : "analise_ia_avancada" ∈ st.successful := hm2 _ (by decide) (by decide)
  have hmem : ∀ c ∈ mandatory_components, c ∈ st.successful := by
    intro c hc
    have hc3 : c = "projeto_dados" ∨ c = "pesquisa_web_massiva" ∨
        c = "analise_ia_avancada" := by simpa [mandatory_components] using hc
    rcases hc3 with h | h | h <;> subst h
    · exact hproj
    · exact hpes
    · exact hana
  have hmiss : mandatory_components.filter (fun c => !(st.successful.contains c)) = [] := by
    rw [List.filter_eq_nil_iff]
    intro c hc
    simpa using hmem c hc
  have hsub : ∀ x ∈ st.successful, x ∈ component_names := by
    intro x hx
    rcases hso2 x hx with hx1 | hx1
    · rcases hso1 x hx1 with hx2 | hx2
      · exact absurd hx2 (List.not_mem_nil x)
      · rw [hx2]
        decide
    · have hrest : ∀ y ∈ ["pesquisa_web_massiva", "analise_ia_avancada",
          "avatar_ultra_detalhado", "posicionamento_estrategico",
          "drivers_mentais_customizados", "provas_visuais_instantaneas",
          "sistema_anti_objecao", "pre_pitch_invisivel",
          "predicoes_futuro_completas", "insights_exclusivos"],
          y ∈ component_names := by decide
      exact hrest x hx1
  obtain ⟨fa0, hcons, hIfa, hAfa, hSfa, ps, hps1, hps2, hps3⟩ :=
    consolidate_ok_safe data st.results st.successful st.failed sid now hgen
      hinv.1 hinv.2.1 hinv.2.2 hsub
  obtain ⟨q, hq⟩ := vfq_ok fa0 hIfa hAfa hSfa
  refine ⟨fa0, q, ps, ?_, hps1, hps2, hps3⟩
  unfold execute_complete_analysis
  rw [hrun]
  simp only [hmiss, List.isEmpty_nil, if_true, hcons, hq]

/-- A component forced to fail by the oracle ends in both the failure and
(after its recovery) the success record. -/
theorem run_components_always_fail (env : StageEnv) (data : List (String × Value))
    (sid now : String) (c : String) (L : List String) (st st3 : LoopState)
    (hcL : c ∈ L) (hc : c ∈ mandatory_components) (hcp : c ≠ "projeto_dados")
    (hfail : ∀ ctx, ∃ e, env c ctx sid = .error e)
    (hrec : ∀ ctx, (attempt_component_recovery c ctx now).isSome)
    (hinv : StateInv st)
    (h : run_components env data sid now L st = .ok st3) :
    c ∈ st3.failed ∧ c ∈ st3.successful := by
  induction L generalizing st with
  | nil => cases hcL
  | cons c0 rest ih =>
    rw [run_components] at h
    cases h1 : run_component env data st c0 sid now with
    | error e =>
      rw [h1] at h
      exact Except.noConfusion h
    | ok st1 =>
      simp only [h1] at h
      obtain ⟨hinv1, hs1, hf1, _, _, _⟩ :=
        run_component_ok_spec env data st c0 sid now st1 hinv h1
      by_cases hc0 : c0 = c
      · subst hc0
        have hca : c0 ≠ "avatar_ultra_detalhado" := by
          intro hh
          rw [hh] at hc
          exact absurd hc (by decide)
        obtain ⟨e, he⟩ := hfail (mergeD data st.results)
        have hcf : component_func env c0 (mergeD data st.results) sid now = .error e := by
          unfold component_func
          rw [if_neg hcp, if_neg hca]
          exact he
        have h1b := h1
        simp only [run_component, hcf] at h1b
        simp only [exception_path] at h1b
        rw [if_pos hc] at h1b
        cases hr : attempt_component_recovery c0 (mergeD data st.results) now with
        | none =>
          have := hrec (mergeD data st.results)
          rw [hr] at this
          exact absurd this (by simp)
        | some r =>
          simp only [hr] at h1b
          injection h1b with h1b
          obtain ⟨_, hsM, hfM, _, _, _⟩ := run_components_spec env data sid now rest st1 st3 hinv1 h
          constructor
          · apply hfM
            rw [← h1b]
            simp
          · apply hsM
            rw [← h1b]
            simp
      · have hcr : c ∈ rest := by
          rcases List.mem_cons.mp hcL with hh | hh
          · exact absurd hh.symm hc0
          · exact hh
        exact ih st1 hcr hinv1 h

/-- C10 (confirmed): for each of the three mandatory stages — including the
locally computed `projeto_dados`, whose iteration runs first and therefore on
the raw input — when the stage function fails on the context it receives and
its recovery succeeds, the returned analysis lists that stage in BOTH the
successful and the failed component lists, in the metadata block and in the
consolidated pipeline status alike; the failure record made before the
recovery attempt is never retracted. -/
theorem C10_failure_retained (env : StageEnv) (data : List (String × Value))
    (sid now : String) (pt : Rat) (c : String)
    (hc : c ∈ mandatory_components)
    (hfail : if c = "projeto_dados"
      then ∃ e, component_func env c data sid now = .error e
      else ∀ ctx, ∃ e, component_func env c ctx sid now = .error e)
    (hrec : if c = "projeto_dados"
      then (attempt_component_recovery c data now).isSome
      else ∀ ctx, (attempt_component_recovery c ctx now).isSome) :
    match execute_complete_analysis env data sid now pt with
    | .ok fa => ∃ d, fa = Value.vDict d ∧
        (∃ m, lookupD d "metadata" = some (Value.vDict m) ∧
          (∃ ls, lookupD m "successful_components" = some (Value.vList ls) ∧
            Value.vStr c ∈ ls) ∧
          (∃ lf, lookupD m "failed_components" = some (Value.vList lf) ∧
            Value.vStr c ∈ lf)) ∧
        (∃ ps, lookupD d "pipeline_status" = some (Value.vDict ps) ∧
          (∃ ls, lookupD ps "componentes_executados" = some (Value.vList ls) ∧
            Value.vStr c ∈ ls) ∧
          (∃ lf, lookupD ps "componentes_falharam" = some (Value.vList lf) ∧
            Value.vStr c ∈ lf))
    | .error _ => True := by
  cases hex : execute_complete_analysis env data sid now pt with
  | error e => trivial
  | ok fa =>
  have hrunX : ∃ st, run_components env data sid now component_names ⟨[], [], []⟩ =
      .ok st := by
    unfold execute_complete_analysis at hex
    cases hrun : run_components env data sid now component_names ⟨[], [], []⟩ with
    | error e =>
      rw [hrun] at hex
      exact Except.noConfusion hex
    | ok st => exact ⟨st, rfl⟩
  obtain ⟨st, hrun⟩ := hrunX
  have hboth : c ∈ st.failed ∧ c ∈ st.successful := by
    by_cases hcp : c = "projeto_dados"
    · subst hcp
      rw [if_pos rfl] at hfail hrec
      obtain ⟨e, he⟩ := hfail
      have hcn : component_names = "projeto_dados" ::
          ["pesquisa_web_massiva", "analise_ia_avancada", "avatar_ultra_detalhado",
           "posicionamento_estrategico", "drivers_mentais_customizados",
           "provas_visuais_instantaneas", "sistema_anti_objecao", "pre_pitch_invisivel",
           "predicoes_futuro_completas", "insights_exclusivos"] := rfl
      have hrun2 := hrun
      rw [hcn, run_components] at hrun2
      cases h1 : run_component env data ⟨[], [], []⟩ "projeto_dados" sid now with
      | error e2 =>
        rw [h1] at hrun2
        exact Except.noConfusion hrun2
      | ok st1 =>
        simp only [h1] at hrun2
        obtain ⟨hinv1, _, _, _, _, _⟩ := run_component_ok_spec env data ⟨[], [], []⟩
          "projeto_dados" sid now st1 StateInv_init h1
        obtain ⟨_, hsM, hfM, _, _, _⟩ :=
          run_components_spec env data sid now _ st1 st hinv1 hrun2
        have h1b := h1
        simp only [run_component] at h1b
        rw [show mergeD data (LoopState.results ⟨[], [], []⟩) = data from rfl] at h1b
        simp only [he] at h1b
        simp only [exception_path] at h1b
        rw [if_pos (by decide : "projeto_dados" ∈ mandatory_components)] at h1b
        cases hr : attempt_component_recovery "projeto_dados" data now with
        | none =>
          rw [hr] at hrec
          exact absurd hrec (by simp)
        | some r =>
          simp only [hr] at h1b
          injection h1b with h1b
          constructor
          · apply hfM
            rw [← h1b]
            simp
          · apply hsM
            rw [← h1b]
            simp
    · rw [if_neg hcp] at hfail hrec
      have hca : c ≠ "avatar_ultra_detalhado" := by
        intro hh
        rw [hh] at hc
        exact absurd hc (by decide)
      have henv : ∀ ctx, ∃ e, env c ctx sid = .error e := by
        intro ctx
        obtain ⟨e, he⟩ := hfail ctx
        refine ⟨e, ?_⟩
        unfold component_func at he
        rw [if_neg hcp, if_neg hca] at he
        exact he
      have hcL : c ∈ component_names := by
        have hc3 : c = "projeto_dados" ∨ c = "pesquisa_web_massiva" ∨
            c = "analise_ia_avancada" := by simpa [mandatory_components] using hc
        rcases hc3 with h | h | h <;> subst h
        · exact absurd rfl hcp
        · decide
        · decide
      exact run_components_always_fail env data sid now c component_names
        ⟨[], [], []⟩ st hcL hc hcp henv hrec StateInv_init hrun
  obtain ⟨hcf, hcs⟩ := hboth
  obtain ⟨fa0, q, ps, hEx, hps1, hps2, hps3⟩ :=
    execute_ok_shape env data sid now pt st hrun
  rw [hex] at hEx
  injection hEx with hEx
  refine ⟨_, hEx, ?_, ?_⟩
  · refine ⟨_, lookupD_insertD_self _ _ _,
      ⟨st.successful.map Value.vStr, by simp [lookupD], List.mem_map.mpr ⟨c, hcs, rfl⟩⟩,
      ⟨st.failed.map Value.vStr, by simp [lookupD], List.mem_map.mpr ⟨c, hcf, rfl⟩⟩⟩
  · refine ⟨ps, ?_, ⟨_, hps2, List.mem_map.mpr ⟨c, hcs, rfl⟩⟩,
      ⟨_, hps3, List.mem_map.mpr ⟨c, hcf, rfl⟩⟩⟩
    rw [lookupD_insertD_ne _ _ _ _ (by decide : "metadata" ≠ "pipeline_status")]
    rw [lookup_filter_report _ _ (by decide : "pipeline_status" ∈ structural_keys)]
    have hfa2 : lookupD (if q.score < 95 then enhance_analysis_quality fa0 else fa0)
        "pipeline_status" = lookupD fa0 "pipeline_status" := by
      split
      · exact enhance_preserve fa0 "pipeline_status" (by decide) (by decide)
      · rfl
    rw [hfa2]
    exact hps1

set_option maxRecDepth 8000 in
set_option maxHeartbeats 1600000 in
/-- Witness for C10 at the project stage itself: on an input without a
segment, `_prepare_project_data` raises, and its recovery (the basic
project-data generator, which succeeds when no price is given) recovers
it. -/
theorem C10_witness :
    "projeto_dados" ∈ mandatory_components ∧
    (∃ e, component_func envW "projeto_dados" [] "sid" "T0" = .error e) ∧
    (attempt_component_recovery "projeto_dados" [] "T0").isSome = true ∧
    match execute_complete_analysis envW [] "sid" "T0" 1 with
    | .ok fa => ∃ d, fa = Value.vDict d ∧
        (∃ m, lookupD d "metadata" = some (Value.vDict m) ∧
          (∃ ls, lookupD m "successful_components" = some (Value.vList ls) ∧
            Value.vStr "projeto_dados" ∈ ls) ∧
          (∃ lf, lookupD m "failed_components" = some (Value.vList lf) ∧
            Value.vStr "projeto_dados" ∈ lf)) ∧
        (∃ ps, lookupD d "pipeline_status" = some (Value.vDict ps) ∧
          (∃ ls, lookupD ps "componentes_executados" = some (Value.vList ls) ∧
            Value.vStr "projeto_dados" ∈ ls) ∧
          (∃ lf, lookupD ps "componentes_falharam" = some (Value.vList lf) ∧
            Value.vStr "projeto_dados" ∈ lf))
    | .error _ => True :=
  ⟨by decide, ⟨_, rfl⟩, rfl,
    C10_failure_retained envW [] "sid" "T0" 1 "projeto_dados" (by decide)
      (show ∃ e, component_func envW "projeto_dados" [] "sid" "T0" = .error e from ⟨_, rfl⟩)
      (show (attempt_component_recovery "projeto_dados" [] "T0").isSome = true from rfl)⟩
